import Mathlib

/-!
# Ledger and order-exchange backend: embedding of `server.js`, `session_code.js`
and `clear-data.js`

The relational store is a record of tables, each table a list of rows in scan
order.  `SELECT ... WHERE p` is `List.filter p`, `rows[0]` is `List.head?`,
`UPDATE ... WHERE p` is a `List.map` that rewrites the rows satisfying `p`.

Conventions of the embedding:

* `DECIMAL(10,2)` columns are integers counting hundredths, so `100.00` is
  `10000`.  `parseFloat` of such a column followed by one `+` or `-` and the
  rounding of the column on write is exact on them.  Amount columns hold a
  number (not `NULL`) and amounts in request bodies have two decimals.  The
  column holds the values strictly between `-10^8` and `10^8`: writing any
  other value is the exception `numeric field overflow` (`fitsDecimal`), and
  the handlers that write an amount are embedded with that exception.
* Cabinet names are strings; `===` on them is equality of strings.  The fields
  of a JSON body have the types the handler reads them with.  A `VARCHAR(n)`
  column takes a string of at most `n` characters, and a longer one only when
  the excess is spaces, which it cuts off (`varchar`); the write of any other
  string is an exception.  The order, order-request and withdrawal inserts,
  the `admin_name` of the admin log and the `status` of the login log are
  embedded with that exception.  The rows already stored fit their columns,
  and so do, by convention, the strings the other handlers write: cabinet
  names, access keys, and the address of a client.
* Timestamps are natural numbers, the milliseconds a JavaScript `Date` holds.
  Rows that `ORDER BY created_at DESC` leaves tied come in scan order.
* Row ids come from a `SERIAL` sequence: a handler that inserts a row takes the
  id the sequence hands out as an argument, and `NOW()` likewise.  An id in a
  request path is a number within the range of `INTEGER`.
* Every handler returns the HTTP reply together with the store it leaves
  behind.  An exception inside `try` is the `500` reply of the `catch` arm,
  with the writes made before the exception kept (no transaction is opened).
-/

namespace Exchange

/-! ## Tables -/

/-- Row of table `balances`. -/
structure Balance where
  id : Nat
  cabinet_from : String
  cabinet_to : String
  amount : Int
  deriving DecidableEq, Repr

/-- Row of table `orders`. -/
structure Order where
  id : Nat
  request_id : Option Nat
  from_cabinet : String
  to_cabinet : String
  type : String
  amount_usdt : Int
  amount_local : Option Int
  card_number : Option String
  iban : Option String
  tax_number : Option String
  cvu : Option String
  full_name : Option String
  note : Option String
  status : String
  receipts : Option (List String)
  created_at : Nat
  deriving DecidableEq, Repr

/-- Row of table `order_requests`. -/
structure OrderRequest where
  id : Nat
  from_cabinet : String
  to_cabinet : String
  amount : Int
  type : String
  remaining_amount : Int
  created_at : Nat
  deriving DecidableEq, Repr

/-- Row of table `withdrawals`. -/
structure Withdrawal where
  id : Nat
  from_cabinet : String
  to_cabinet : String
  amount : Int
  address : String
  status : String
  txid : Option String
  created_at : Nat
  deriving DecidableEq, Repr

/-- Row of table `hidden_orders`. -/
structure HiddenOrder where
  id : Nat
  cabinet : String
  order_id : Nat
  deriving DecidableEq, Repr

/-- Row of table `hidden_withdrawals`. -/
structure HiddenWithdrawal where
  id : Nat
  cabinet : String
  withdrawal_id : Nat
  deriving DecidableEq, Repr

/-- Row of table `admin_logs`. -/
structure AdminLog where
  id : Nat
  admin_name : String
  action_type : String
  cabinet_from : Option String
  cabinet_to : Option String
  amount_old : Option Int
  amount_new : Option Int
  comment : Option String
  created_at : Nat
  deriving DecidableEq, Repr

/-- Row of table `access_keys`. -/
structure AccessKey where
  id : Nat
  access_key : String
  cabinet : String
  description : Option String
  is_active : Bool
  created_at : Nat
  last_used : Option Nat
  deriving DecidableEq, Repr

/-- Row of table `sessions`. -/
structure Session where
  id : Nat
  cabinet : String
  session_id : String
  ip_address : Option String
  user_agent : Option String
  created_at : Nat
  last_activity : Nat
  deriving DecidableEq, Repr

/-- Row of table `login_logs`. -/
structure LoginLog where
  id : Nat
  cabinet : String
  ip_address : Option String
  user_agent : Option String
  status : Option String
  created_at : Nat
  deriving DecidableEq, Repr

/-- Row of table `telegram_users`. -/
structure TelegramUser where
  id : Nat
  telegram_id : Int
  cabinet : Option String
  username : Option String
  first_name : Option String
  last_name : Option String
  photo_url : Option String
  created_at : Nat
  updated_at : Nat
  deriving DecidableEq, Repr

/-- The relational store behind `pool`. -/
structure Store where
  balances : List Balance
  orders : List Order
  order_requests : List OrderRequest
  withdrawals : List Withdrawal
  hidden_orders : List HiddenOrder
  hidden_withdrawals : List HiddenWithdrawal
  admin_logs : List AdminLog
  access_keys : List AccessKey
  sessions : List Session
  login_logs : List LoginLog
  telegram_users : List TelegramUser
  deriving DecidableEq, Repr

/-- A store with every table empty. -/
def Store.empty : Store :=
  { balances := [], orders := [], order_requests := [], withdrawals := [],
    hidden_orders := [], hidden_withdrawals := [], admin_logs := [],
    access_keys := [], sessions := [], login_logs := [], telegram_users := [] }

/-! ## Replies -/

/-- Row of the order query of the two history handlers: the selected columns
under their `as` names, `operation_type` being `'order'`. -/
structure HistoryOrder where
  id : Nat
  from_cabinet : String
  to_cabinet : String
  amount : Int
  amount_local : Option Int
  card_number : Option String
  iban : Option String
  tax_number : Option String
  cvu : Option String
  fio : Option String
  created_at : Nat
  status : String
  order_type : String
  receipt_files : Option (List String)
  comment : Option String
  deriving DecidableEq, Repr

/-- Row of the withdrawal query of the two history handlers, `operation_type`
being `'withdrawal'`. -/
structure HistoryWithdrawal where
  id : Nat
  from_cabinet : String
  to_cabinet : String
  amount : Int
  created_at : Nat
  status : String
  txid : Option String
  deriving DecidableEq, Repr

/-- Row of the `admin_logs` query of the two history handlers,
`operation_type` being `'balance_adjustment'`. -/
structure HistoryAdjustment where
  id : Nat
  admin_name : String
  cabinet_from : Option String
  cabinet_to : Option String
  amount_old : Option Int
  amount_new : Option Int
  comment : Option String
  created_at : Nat
  deriving DecidableEq, Repr

/-- An element of the array the history handlers send. -/
inductive HistoryEntry where
  | order (r : HistoryOrder)
  | withdrawal (r : HistoryWithdrawal)
  | balance_adjustment (r : HistoryAdjustment)
  deriving DecidableEq, Repr

/-- Field `created_at` of a history entry. -/
def HistoryEntry.created_at : HistoryEntry → Nat
  | .order r => r.created_at
  | .withdrawal r => r.created_at
  | .balance_adjustment r => r.created_at

/-- Object `user` in the reply of `POST /api/telegram/login`. -/
structure TelegramReplyUser where
  telegram_id : Int
  cabinet : Option String
  first_name : Option String
  username : Option String
  photo_url : Option String
  has_cabinet : Bool
  deriving DecidableEq, Repr

/-- Row of `GET /api/telegram/users`. -/
structure TelegramListedUser where
  telegram_id : Int
  cabinet : Option String
  username : Option String
  first_name : Option String
  last_name : Option String
  created_at : Nat
  deriving DecidableEq, Repr

/-- JSON body of a reply. -/
inductive Body where
  | success
  | error (msg : String)
  | order (o : Order)
  | orderRequest (r : OrderRequest)
  | withdrawal (w : Withdrawal)
  | balances (obj : List (String × Int))
  | orders (rows : List Order)
  | orderRequests (rows : List OrderRequest)
  | withdrawals (rows : List Withdrawal)
  | history (rows : List HistoryEntry)
  | balanceRows (rows : List Balance)
  | fileUrls (urls : List String)
  | loggedIn (cabinet : String)
  | failure (error : String)
  | session (cabinet : String) (sessionId : String) (ipChanged : Bool)
  | valid (v : Bool)
  | key (k : AccessKey)
  | keys (rows : List AccessKey)
  | telegramUser (user : TelegramReplyUser)
  | bound (cabinet : String)
  | telegramUsers (rows : List TelegramListedUser)
  deriving DecidableEq, Repr

/-- HTTP reply: status code and JSON body. -/
structure Reply where
  status : Nat
  body : Body
  deriving DecidableEq, Repr

/-! ## Column types -/

/-- A value, in hundredths, that a `DECIMAL(10, 2)` column takes: its absolute
value is below `10^8`, that is `10^10` hundredths.  Writing any other value
throws `numeric field overflow`. -/
def fitsDecimal (x : Int) : Bool :=
  decide (-10000000000 < x) && decide (x < 10000000000)

/-- An optional amount written to a nullable `DECIMAL(10, 2)` column. -/
def fitsDecimalOpt (x : Option Int) : Bool :=
  match x with
  | some v => fitsDecimal v
  | none => true

/-- A value an `INTEGER` column takes. -/
def fitsInteger (n : Nat) : Bool :=
  decide (n < 2147483648)

/-- What a `VARCHAR(n)` column stores for a string: the string when it has at
most `n` characters, its first `n` characters when the others are all spaces,
and `none` when the write throws `value too long`. -/
def varchar (n : Nat) (str : String) : Option String :=
  if str.length ≤ n then some str
  else if (str.toList.drop n).all (fun c => c == ' ') then
    some (String.mk (str.toList.take n))
  else none

/-- What a nullable `VARCHAR(n)` column stores for an optional string;
the outer `none` is the exception. -/
def varcharOpt (n : Nat) (str : Option String) : Option (Option String) :=
  match str with
  | some x => (varchar n x).map some
  | none => some none

/-! ## `PATCH /api/orders/:id/pay` -/

/-- Handler `app.patch('/api/orders/:id/pay')`.  `receipts` is `none` for a
falsy request field, stored as `NULL`, and `some l` for an array of receipt
references, stored as its JSON text.  An id that selects no row leaves `order`
undefined, and reading `order.status` throws into the `catch` arm.  A new
amount the column does not take makes the last `UPDATE` throw, after the
status was written. -/
def payOrder (s : Store) (id : Nat) (receipts : Option (List String)) : Reply × Store :=
  match (s.orders.filter (fun o => o.id == id)).head? with
  | none => (⟨500, .error "Помилка оплати ордеру"⟩, s)
  | some order =>
    if order.status == "completed" then
      (⟨400, .error "Ордер вже оплачений"⟩, s)
    else
      let s1 : Store := { s with orders := s.orders.map (fun o =>
        if o.id == id then { o with status := "completed", receipts := receipts } else o) }
      let balanceCheck := s1.balances.filter (fun b =>
        (b.cabinet_from == order.from_cabinet && b.cabinet_to == order.to_cabinet)
          || (b.cabinet_from == order.to_cabinet && b.cabinet_to == order.from_cabinet))
      match balanceCheck.head? with
      | some balance =>
        let newAmount :=
          if balance.cabinet_from == order.from_cabinet then
            balance.amount - order.amount_usdt
          else
            balance.amount + order.amount_usdt
        if fitsDecimal newAmount then
          (⟨200, .success⟩, { s1 with balances := s1.balances.map (fun b =>
            if b.id == balance.id then { b with amount := newAmount } else b) })
        else (⟨500, .error "Помилка оплати ордеру"⟩, s1)
      | none => (⟨200, .success⟩, s1)

/-! ## `PATCH /api/orders/:id/cancel` -/

/-- Handler `app.patch('/api/orders/:id/cancel')`.  The status is written
before `order.request_id` is read, and `if (order.request_id)` is false for
`null` and for `0`.  The `UPDATE` of `order_requests` throws, and writes no
row, when the sum the column does not take arises on a row it selects. -/
def cancelOrder (s : Store) (id : Nat) : Reply × Store :=
  let orderResult := s.orders.filter (fun o => o.id == id)
  let s1 : Store := { s with orders := s.orders.map (fun o =>
    if o.id == id then { o with status := "cancelled" } else o) }
  match orderResult.head? with
  | none => (⟨500, .error "Помилка скасування ордеру"⟩, s1)
  | some order =>
    match order.request_id with
    | some rid =>
      if rid != 0 then
        if s1.order_requests.all (fun r =>
            r.id != rid || fitsDecimal (r.remaining_amount + order.amount_usdt)) then
          (⟨200, .success⟩, { s1 with order_requests := s1.order_requests.map (fun r =>
            if r.id == rid then
              { r with remaining_amount := r.remaining_amount + order.amount_usdt }
            else r) })
        else (⟨500, .error "Помилка скасування ордеру"⟩, s1)
      else (⟨200, .success⟩, s1)
    | none => (⟨200, .success⟩, s1)

/-! ## `POST /api/orders` -/

/-- Request body of `POST /api/orders`. -/
structure OrderBody where
  request_id : Option Nat
  from_cabinet : String
  to_cabinet : String
  type : String
  amount_usdt : Int
  amount_local : Option Int
  card_number : Option String
  iban : Option String
  tax_number : Option String
  cvu : Option String
  full_name : Option String
  note : Option String
  deriving DecidableEq, Repr

/-- The row `INSERT INTO orders ... RETURNING *` stores for a body, each value
as its column takes it, or `none` when a value does not fit its column and the
`INSERT` throws.  `newId` is the value of the sequence `orders_id_seq` and
`now` the value of `NOW()`; `status` and `receipts` take the column defaults. -/
def orderRow (newId now : Nat) (body : OrderBody) : Option Order :=
  match varchar 50 body.from_cabinet, varchar 50 body.to_cabinet, varchar 20 body.type,
      varcharOpt 100 body.card_number, varcharOpt 100 body.iban,
      varcharOpt 100 body.tax_number, varcharOpt 100 body.cvu,
      varcharOpt 200 body.full_name with
  | some from_cabinet, some to_cabinet, some type, some card_number, some iban,
      some tax_number, some cvu, some full_name =>
    if (match body.request_id with
        | some rid => fitsInteger rid
        | none => true)
        && fitsDecimal body.amount_usdt && fitsDecimalOpt body.amount_local then
      some { id := newId, request_id := body.request_id, from_cabinet := from_cabinet,
             to_cabinet := to_cabinet, type := type, amount_usdt := body.amount_usdt,
             amount_local := body.amount_local, card_number := card_number, iban := iban,
             tax_number := tax_number, cvu := cvu, full_name := full_name,
             note := body.note, status := "pending", receipts := none, created_at := now }
    else none
  | _, _, _, _, _, _, _, _ => none

/-- Handler `app.post('/api/orders')`.  The `UPDATE` of `order_requests` runs
after the order row is stored; it throws, and writes no row, when the
difference the column does not take arises on a row it selects. -/
def createOrder (s : Store) (newId now : Nat) (body : OrderBody) : Reply × Store :=
  match orderRow newId now body with
  | none => (⟨500, .error "Помилка створення ордеру"⟩, s)
  | some row =>
    let s1 : Store := { s with orders := s.orders ++ [row] }
    match body.request_id with
    | some rid =>
      if rid != 0 then
        if s1.order_requests.all (fun r =>
            r.id != rid || fitsDecimal (r.remaining_amount - body.amount_usdt)) then
          (⟨200, .order row⟩, { s1 with order_requests := s1.order_requests.map (fun r =>
            if r.id == rid then
              { r with remaining_amount := r.remaining_amount - body.amount_usdt }
            else r) })
        else (⟨500, .error "Помилка створення ордеру"⟩, s1)
      else (⟨200, .order row⟩, s1)
    | none => (⟨200, .order row⟩, s1)

/-! ## `POST /api/order-requests` -/

/-- Handler `app.post('/api/order-requests')`: `remaining_amount` starts at
`amount`.  A value that does not fit its column makes the `INSERT` throw. -/
def createOrderRequest (s : Store) (newId now : Nat) (from_cabinet to_cabinet : String)
    (amount : Int) (type : String) : Reply × Store :=
  match varchar 50 from_cabinet, varchar 50 to_cabinet, varchar 20 type with
  | some from_cabinet, some to_cabinet, some type =>
    if fitsDecimal amount then
      let row : OrderRequest :=
        { id := newId, from_cabinet := from_cabinet, to_cabinet := to_cabinet,
          amount := amount, type := type, remaining_amount := amount, created_at := now }
      (⟨200, .orderRequest row⟩, { s with order_requests := s.order_requests ++ [row] })
    else (⟨500, .error "Помилка створення запиту"⟩, s)
  | _, _, _ => (⟨500, .error "Помилка створення запиту"⟩, s)

/-! ## `PATCH /api/withdrawals/:id/confirm` -/

/-- Handler `app.patch('/api/withdrawals/:id/confirm')`.  A new amount the
column does not take makes the last `UPDATE` throw, after the status and the
`txid` were written. -/
def confirmWithdrawal (s : Store) (id : Nat) (txid : Option String) : Reply × Store :=
  match (s.withdrawals.filter (fun w => w.id == id)).head? with
  | none => (⟨500, .error "Помилка підтвердження виводу"⟩, s)
  | some withdrawal =>
    if withdrawal.status == "completed" then
      (⟨400, .error "Вивід вже підтверджений"⟩, s)
    else
      let s1 : Store := { s with withdrawals := s.withdrawals.map (fun w =>
        if w.id == id then { w with status := "completed", txid := txid } else w) }
      let balanceCheck := s1.balances.filter (fun b =>
        (b.cabinet_from == withdrawal.from_cabinet && b.cabinet_to == withdrawal.to_cabinet)
          || (b.cabinet_from == withdrawal.to_cabinet && b.cabinet_to == withdrawal.from_cabinet))
      match balanceCheck.head? with
      | some balance =>
        let newAmount :=
          if balance.cabinet_from == withdrawal.from_cabinet then
            balance.amount - withdrawal.amount
          else
            balance.amount + withdrawal.amount
        if fitsDecimal newAmount then
          (⟨200, .success⟩, { s1 with balances := s1.balances.map (fun b =>
            if b.id == balance.id then { b with amount := newAmount } else b) })
        else (⟨500, .error "Помилка підтвердження виводу"⟩, s1)
      | none => (⟨200, .success⟩, s1)

/-! ## `GET /api/balances/:cabinet` -/

/-- The cabinet list written out in `server.js` and in `clear-data.js`. -/
def cabinets : List String :=
  ["Кабінет 1 UA", "Кабінет 2 UA", "Кабінет 3 UA", "Кабінет 4 UA",
   "Кабінет 1 ARS", "Кабінет 2 ARS"]

/-- The number a list of decimal digits denotes after the digits of `acc`;
`none` when a character is not a digit. -/
def digitsValue (acc : Nat) : List Char → Option Nat
  | [] => some acc
  | c :: cs => if c.isDigit then digitsValue (acc * 10 + (c.toNat - 48)) cs else none

/-- The array index a property key is, if it is one: the key is the canonical
decimal string (digits only, no leading zero) of a number below `2^32 - 1`. -/
def arrayIndex (k : String) : Option Nat :=
  match k.toList with
  | [] => none
  | c :: cs =>
    if c == '0' && !cs.isEmpty then none
    else
      match digitsValue 0 (c :: cs) with
      | some n => if n < 4294967295 then some n else none
      | none => none

/-- Assignment `obj[k] = v` of a number on an object created by `{}`, held as
the list of its own entries in the order `JSON.stringify` lists them: array
indices ascending, then the other keys in the order of their creation.  An
existing key keeps its place.  The key `__proto__` is the accessor of
`Object.prototype`, whose setter ignores a number: no entry is made. -/
def objSet (obj : List (String × Int)) (k : String) (v : Int) : List (String × Int) :=
  if k == "__proto__" then obj
  else if obj.any (fun e => e.1 == k) then
    obj.map (fun e => if e.1 == k then (k, v) else e)
  else
    match arrayIndex k with
    | some n =>
      let below := fun (e : String × Int) =>
        match arrayIndex e.1 with
        | some m => decide (m < n)
        | none => false
      obj.takeWhile below ++ (k, v) :: obj.dropWhile below
    | none => obj ++ [(k, v)]

/-- The own entry of key `k`, as the JSON text of the object shows it; `none`
when the object has no such entry. -/
def objGet (obj : List (String × Int)) (k : String) : Option Int :=
  (obj.find? (fun e => e.1 == k)).map Prod.snd

/-- Body of `result.rows.forEach` in `GET /api/balances/:cabinet`. -/
def balancesStep (cabinet : String) (balances : List (String × Int)) (row : Balance) :
    List (String × Int) :=
  if row.cabinet_from == cabinet then objSet balances row.cabinet_to row.amount
  else if row.cabinet_to == cabinet then objSet balances row.cabinet_from (-row.amount)
  else balances

/-- The object built by `GET /api/balances/:cabinet`: zero for every listed
cabinet other than the caller, then one assignment per selected row. -/
def balancesObject (s : Store) (cabinet : String) : List (String × Int) :=
  let rows := s.balances.filter (fun b => b.cabinet_from == cabinet || b.cabinet_to == cabinet)
  let init := cabinets.foldl (fun obj cab => if cab != cabinet then objSet obj cab 0 else obj) []
  rows.foldl (balancesStep cabinet) init

/-- Handler `app.get('/api/balances/:cabinet')`. -/
def getBalances (s : Store) (cabinet : String) : Reply × Store :=
  (⟨200, .balances (balancesObject s cabinet)⟩, s)

/-! ## `clearData` of `clear-data.js` -/

/-- One `INSERT INTO balances (cabinet_from, cabinet_to, amount) VALUES ($1, $2, 0)`
with id `id`; `none` when `UNIQUE(cabinet_from, cabinet_to)` rejects the row. -/
def insertBalance (bs : List Balance) (id : Nat) (cabinet_from cabinet_to : String) :
    Option (List Balance) :=
  if bs.any (fun b => b.cabinet_from == cabinet_from && b.cabinet_to == cabinet_to) then none
  else some (bs ++ [{ id := id, cabinet_from := cabinet_from, cabinet_to := cabinet_to, amount := 0 }])

/-- The pairs `(cabinets[i], cabinets[j])` with `i < j` in the order the two
nested `for` loops visit them. -/
def cabinetPairs : List String → List (String × String)
  | [] => []
  | c :: rest => rest.map (fun d => (c, d)) ++ cabinetPairs rest

/-- The inserts of the nested loops, one after the other, on table `bs` with
the restarted sequence at `seq`.  `Except.error` carries the table at the
moment an insert throws (the script then exits). -/
def insertPairs : List (String × String) → Nat → List Balance →
    Except (List Balance) (List Balance)
  | [], _, bs => .ok bs
  | p :: ps, seq, bs =>
    match insertBalance bs seq p.1 p.2 with
    | none => .error bs
    | some bs1 => insertPairs ps (seq + 1) bs1

/-- Function `clearData` for a cabinet list `cabs`: empties six tables,
restarts their sequences at 1 and inserts one zero balance per pair. -/
def clearDataFor (cabs : List String) (s : Store) : Except Store Store :=
  let s1 : Store := { s with hidden_withdrawals := [], hidden_orders := [], withdrawals := [],
                             order_requests := [], orders := [], balances := [] }
  match insertPairs (cabinetPairs cabs) 1 s1.balances with
  | .ok bs => .ok { s1 with balances := bs }
  | .error bs => .error { s1 with balances := bs }

/-- Function `clearData` with the cabinet list of the script. -/
def clearData (s : Store) : Except Store Store := clearDataFor cabinets s

/-! ## Ordering of rows -/

/-- Rows by decreasing `f`, rows with equal `f` in their given order: the
list `ORDER BY created_at DESC` is taken to return, and the list the stable
`Array.prototype.sort` returns for the comparator
`(a, b) => new Date(b.created_at) - new Date(a.created_at)`. -/
def sortDesc {α : Type} (f : α → Nat) (l : List α) : List α :=
  l.insertionSort (fun a b => f b ≤ f a)

/-! ## `GET /api/history/:cabinet` and `GET /api/admin/history` -/

/-- The columns the history handlers select from a row of `orders`. -/
def HistoryOrder.ofOrder (o : Order) : HistoryOrder :=
  { id := o.id, from_cabinet := o.from_cabinet, to_cabinet := o.to_cabinet,
    amount := o.amount_usdt, amount_local := o.amount_local, card_number := o.card_number,
    iban := o.iban, tax_number := o.tax_number, cvu := o.cvu, fio := o.full_name,
    created_at := o.created_at, status := o.status, order_type := o.type,
    receipt_files := o.receipts, comment := o.note }

/-- The columns the history handlers select from a row of `withdrawals`. -/
def HistoryWithdrawal.ofWithdrawal (w : Withdrawal) : HistoryWithdrawal :=
  { id := w.id, from_cabinet := w.from_cabinet, to_cabinet := w.to_cabinet, amount := w.amount,
    created_at := w.created_at, status := w.status, txid := w.txid }

/-- The columns the history handlers select from a row of `admin_logs`. -/
def HistoryAdjustment.ofAdminLog (l : AdminLog) : HistoryAdjustment :=
  { id := l.id, admin_name := l.admin_name, cabinet_from := l.cabinet_from,
    cabinet_to := l.cabinet_to, amount_old := l.amount_old, amount_new := l.amount_new,
    comment := l.comment, created_at := l.created_at }

/-- The array `history` of `GET /api/history/:cabinet`: the rows of the three
queries, spread in the order orders, withdrawals, balance changes, then
sorted. -/
def cabinetHistory (s : Store) (cabinet : String) : List HistoryEntry :=
  let ordersResult := sortDesc (fun o : Order => o.created_at) (s.orders.filter (fun o =>
    o.status == "completed" && (o.from_cabinet == cabinet || o.to_cabinet == cabinet)))
  let withdrawalsResult := sortDesc (fun w : Withdrawal => w.created_at)
    (s.withdrawals.filter (fun w =>
      w.status == "completed" && (w.from_cabinet == cabinet || w.to_cabinet == cabinet)))
  let balanceChangesResult := sortDesc (fun l : AdminLog => l.created_at)
    (s.admin_logs.filter (fun l =>
      l.action_type == "balance_update"
        && (l.cabinet_from == some cabinet || l.cabinet_to == some cabinet)))
  sortDesc HistoryEntry.created_at
    (ordersResult.map (fun o => HistoryEntry.order (HistoryOrder.ofOrder o))
      ++ withdrawalsResult.map (fun w =>
          HistoryEntry.withdrawal (HistoryWithdrawal.ofWithdrawal w))
      ++ balanceChangesResult.map (fun l =>
          HistoryEntry.balance_adjustment (HistoryAdjustment.ofAdminLog l)))

/-- Handler `app.get('/api/history/:cabinet')`. -/
def getHistory (s : Store) (cabinet : String) : Reply × Store :=
  (⟨200, .history (cabinetHistory s cabinet)⟩, s)

/-- The array `history` of `GET /api/admin/history`.  `cabinet` is the query
parameter; `cabinetFilter` is `null` when it is missing, empty or `'all'`.
The queries on `orders` and `withdrawals` carry no condition on `status`. -/
def adminHistory (s : Store) (cabinet : Option String) : List HistoryEntry :=
  let cabinetFilter : Option String :=
    match cabinet with
    | some c => if c != "" && c != "all" then some c else none
    | none => none
  let ordersResult := sortDesc (fun o : Order => o.created_at)
    (match cabinetFilter with
      | some c => s.orders.filter (fun o => o.from_cabinet == c || o.to_cabinet == c)
      | none => s.orders)
  let withdrawalsResult := sortDesc (fun w : Withdrawal => w.created_at)
    (match cabinetFilter with
      | some c => s.withdrawals.filter (fun w => w.from_cabinet == c || w.to_cabinet == c)
      | none => s.withdrawals)
  let balanceChangesResult := sortDesc (fun l : AdminLog => l.created_at)
    (match cabinetFilter with
      | some c => s.admin_logs.filter (fun l =>
          l.action_type == "balance_update"
            && (l.cabinet_from == some c || l.cabinet_to == some c))
      | none => s.admin_logs.filter (fun l => l.action_type == "balance_update"))
  sortDesc HistoryEntry.created_at
    (ordersResult.map (fun o => HistoryEntry.order (HistoryOrder.ofOrder o))
      ++ withdrawalsResult.map (fun w =>
          HistoryEntry.withdrawal (HistoryWithdrawal.ofWithdrawal w))
      ++ balanceChangesResult.map (fun l =>
          HistoryEntry.balance_adjustment (HistoryAdjustment.ofAdminLog l)))

/-- Handler `app.get('/api/admin/history')`. -/
def getAdminHistory (s : Store) (cabinet : Option String) : Reply × Store :=
  (⟨200, .history (adminHistory s cabinet)⟩, s)

/-! ## `GET /api/admin/balances/all` and `PATCH /api/admin/balances/:id` -/

/-- Handler `app.get('/api/admin/balances/all')`; `ORDER BY cabinet_from,
cabinet_to` compares names as strings of code points. -/
def getAllBalances (s : Store) : Reply × Store :=
  (⟨200, .balanceRows (s.balances.insertionSort (fun a b =>
    a.cabinet_from < b.cabinet_from
      ∨ (a.cabinet_from = b.cabinet_from ∧ a.cabinet_to ≤ b.cabinet_to)))⟩, s)

/-- The characters `String.prototype.trim` removes: WhiteSpace and
LineTerminator of ECMAScript. -/
def jsWhiteSpace (c : Char) : Bool :=
  c.toNat ∈ [0x9, 0xA, 0xB, 0xC, 0xD, 0x20, 0xA0, 0x1680, 0x2000, 0x2001, 0x2002, 0x2003,
    0x2004, 0x2005, 0x2006, 0x2007, 0x2008, 0x2009, 0x200A, 0x2028, 0x2029, 0x202F, 0x205F,
    0x3000, 0xFEFF]

/-- Method `String.prototype.trim`. -/
def jsTrim (str : String) : String :=
  String.mk ((((str.toList.dropWhile jsWhiteSpace).reverse).dropWhile jsWhiteSpace).reverse)

/-- Handler `app.patch('/api/admin/balances/:id')`.  `admin_name` and
`comment` are `none` when the body has no such field; `amount` is the new
amount; `newId` and `now` are the id and `created_at` of the log row.  An
amount the column does not take makes the `UPDATE` throw; a name that
`admin_logs.admin_name VARCHAR(50)` does not take makes the `INSERT` throw,
after the amount was overwritten. -/
def updateBalance (s : Store) (newId now id : Nat) (amount : Int)
    (admin_name comment : Option String) : Reply × Store :=
  match admin_name with
  | none => (⟨400, .error "Не вказано адміністратора"⟩, s)
  | some admin =>
    if admin == "" then (⟨400, .error "Не вказано адміністратора"⟩, s)
    else
      match comment with
      | none => (⟨400, .error "Коментар є обов\x27язковим"⟩, s)
      | some text =>
        if text == "" || jsTrim text == "" then
          (⟨400, .error "Коментар є обов\x27язковим"⟩, s)
        else
          match (s.balances.filter (fun b => b.id == id)).head? with
          | none => (⟨404, .error "Баланс не знайдено"⟩, s)
          | some balance =>
            if fitsDecimal amount then
              let s1 : Store := { s with balances := s.balances.map (fun b =>
                if b.id == id then { b with amount := amount } else b) }
              match varchar 50 admin with
              | some name =>
                let log : AdminLog :=
                  { id := newId, admin_name := name, action_type := "balance_update",
                    cabinet_from := some balance.cabinet_from,
                    cabinet_to := some balance.cabinet_to,
                    amount_old := some balance.amount, amount_new := some amount,
                    comment := some (jsTrim text), created_at := now }
                (⟨200, .success⟩, { s1 with admin_logs := s1.admin_logs ++ [log] })
              | none => (⟨500, .error "Помилка оновлення балансу"⟩, s1)
            else (⟨500, .error "Помилка оновлення балансу"⟩, s)

/-! ## Listings, hiding, deletion -/

/-- Rows of `GET /api/orders/:cabinet`: orders of the cabinet whose id is not
among the `order_id` of the cabinet's rows in `hidden_orders`. -/
def listOrders (s : Store) (cabinet : String) : List Order :=
  sortDesc (fun o : Order => o.created_at) (s.orders.filter (fun o =>
    (o.from_cabinet == cabinet || o.to_cabinet == cabinet)
      && !(((s.hidden_orders.filter (fun h => h.cabinet == cabinet)).map
            (fun h => h.order_id)).contains o.id)))

/-- Handler `app.get('/api/orders/:cabinet')`. -/
def getOrders (s : Store) (cabinet : String) : Reply × Store :=
  (⟨200, .orders (listOrders s cabinet)⟩, s)

/-- Handler `app.post('/api/orders/:id/hide')`: the insert does nothing when
`UNIQUE(cabinet, order_id)` already holds the pair. -/
def hideOrder (s : Store) (newId id : Nat) (cabinet : String) : Reply × Store :=
  if s.hidden_orders.any (fun h => h.cabinet == cabinet && h.order_id == id) then
    (⟨200, .success⟩, s)
  else
    (⟨200, .success⟩, { s with hidden_orders := s.hidden_orders ++
      [{ id := newId, cabinet := cabinet, order_id := id }] })

/-- Handler `app.get('/api/order-requests')`. -/
def getOrderRequests (s : Store) : Reply × Store :=
  (⟨200, .orderRequests (sortDesc (fun r : OrderRequest => r.created_at)
    (s.order_requests.filter (fun r => decide (0 < r.remaining_amount))))⟩, s)

/-- Handler `app.delete('/api/order-requests/:id')`. -/
def deleteOrderRequest (s : Store) (id : Nat) : Reply × Store :=
  (⟨200, .success⟩, { s with order_requests := s.order_requests.filter (fun r => r.id != id) })

/-- Rows of `GET /api/withdrawals/:cabinet`. -/
def listWithdrawals (s : Store) (cabinet : String) : List Withdrawal :=
  sortDesc (fun w : Withdrawal => w.created_at) (s.withdrawals.filter (fun w =>
    (w.from_cabinet == cabinet || w.to_cabinet == cabinet)
      && !(((s.hidden_withdrawals.filter (fun h => h.cabinet == cabinet)).map
            (fun h => h.withdrawal_id)).contains w.id)))

/-- Handler `app.get('/api/withdrawals/:cabinet')`. -/
def getWithdrawals (s : Store) (cabinet : String) : Reply × Store :=
  (⟨200, .withdrawals (listWithdrawals s cabinet)⟩, s)

/-- Handler `app.post('/api/withdrawals')`: no look at the balance.  A value
that does not fit its column makes the `INSERT` throw. -/
def createWithdrawal (s : Store) (newId now : Nat) (from_cabinet to_cabinet : String)
    (amount : Int) (address : String) : Reply × Store :=
  match varchar 50 from_cabinet, varchar 50 to_cabinet with
  | some from_cabinet, some to_cabinet =>
    if fitsDecimal amount then
      let row : Withdrawal :=
        { id := newId, from_cabinet := from_cabinet, to_cabinet := to_cabinet,
          amount := amount, address := address, status := "pending", txid := none,
          created_at := now }
      (⟨200, .withdrawal row⟩, { s with withdrawals := s.withdrawals ++ [row] })
    else (⟨500, .error "Помилка створення виводу"⟩, s)
  | _, _ => (⟨500, .error "Помилка створення виводу"⟩, s)

/-- Handler `app.delete('/api/withdrawals/:id')`. -/
def deleteWithdrawal (s : Store) (id : Nat) : Reply × Store :=
  (⟨200, .success⟩, { s with withdrawals := s.withdrawals.filter (fun w => w.id != id) })

/-- Handler `app.post('/api/withdrawals/:id/hide')`. -/
def hideWithdrawal (s : Store) (newId id : Nat) (cabinet : String) : Reply × Store :=
  if s.hidden_withdrawals.any (fun h => h.cabinet == cabinet && h.withdrawal_id == id) then
    (⟨200, .success⟩, s)
  else
    (⟨200, .success⟩, { s with hidden_withdrawals := s.hidden_withdrawals ++
      [{ id := newId, cabinet := cabinet, withdrawal_id := id }] })

/-- Handler `app.post('/api/convert-receipts')`: `save` is
`saveBase64AsFile`, which writes a file and returns its URL or `null`; the
store is not read. -/
def convertReceipts (s : Store) (save : String → Option String) (receipts : List String) :
    Reply × Store :=
  (⟨200, .fileUrls (receipts.filterMap (fun receipt =>
    if receipt.startsWith "data:image" then save receipt else some receipt))⟩, s)

/-! ## Access keys (`server.js`) -/

/-- Handler `app.post('/api/auth/login')` of `server.js`; `now` is `NOW()`. -/
def login (s : Store) (now : Nat) (key : String) : Reply × Store :=
  match (s.access_keys.filter (fun k => k.access_key == key && k.is_active)).head? with
  | some keyData =>
    (⟨200, .loggedIn keyData.cabinet⟩, { s with access_keys := s.access_keys.map (fun k =>
      if k.id == keyData.id then { k with last_used := some now } else k) })
  | none => (⟨200, .failure "Невірний ключ доступу"⟩, s)

/-- Handler `app.get('/api/auth/keys')`; `ORDER BY cabinet` compares names as
strings of code points. -/
def getKeys (s : Store) : Reply × Store :=
  (⟨200, .keys (s.access_keys.insertionSort (fun a b => a.cabinet ≤ b.cabinet))⟩, s)

/-- Handler `app.post('/api/auth/keys')`: error `23505` of
`UNIQUE(access_key)` is the reply 400. -/
def createKey (s : Store) (newId now : Nat) (access_key cabinet : String)
    (description : Option String) : Reply × Store :=
  if s.access_keys.any (fun k => k.access_key == access_key) then
    (⟨400, .error "Цей ключ вже існує"⟩, s)
  else
    let row : AccessKey :=
      { id := newId, access_key := access_key, cabinet := cabinet, description := description,
        is_active := true, created_at := now, last_used := none }
    (⟨200, .key row⟩, { s with access_keys := s.access_keys ++ [row] })

/-- Handler `app.patch('/api/auth/keys/:id/deactivate')`. -/
def deactivateKey (s : Store) (id : Nat) : Reply × Store :=
  (⟨200, .success⟩, { s with access_keys := s.access_keys.map (fun k =>
    if k.id == id then { k with is_active := false } else k) })

/-- Handler `app.patch('/api/auth/keys/:id/activate')`. -/
def activateKey (s : Store) (id : Nat) : Reply × Store :=
  (⟨200, .success⟩, { s with access_keys := s.access_keys.map (fun k =>
    if k.id == id then { k with is_active := true } else k) })

/-- Handler `app.delete('/api/auth/keys/:id')`. -/
def deleteKey (s : Store) (id : Nat) : Reply × Store :=
  (⟨200, .success⟩, { s with access_keys := s.access_keys.filter (fun k => k.id != id) })

/-! ## Sessions (`session_code.js`) -/

/-- The parts of `req` the session handlers read. -/
structure ClientRequest where
  x_forwarded_for : Option String
  x_real_ip : Option String
  connection_remoteAddress : Option String
  socket_remoteAddress : Option String
  user_agent : Option String
  deriving DecidableEq, Repr

/-- Operator `a || b` on values that are a string or undefined: the empty
string is falsy. -/
def orElse (a b : Option String) : Option String :=
  match a with
  | some x => if x == "" then b else some x
  | none => b

/-- Function `getClientIP`. -/
def getClientIP (req : ClientRequest) : String :=
  let forwarded := req.x_forwarded_for.map (fun h =>
    jsTrim (String.mk (h.toList.takeWhile (fun c => c != ','))))
  match orElse (orElse (orElse forwarded req.x_real_ip) req.connection_remoteAddress)
      req.socket_remoteAddress with
  | some ip => ip
  | none => "unknown"

/-- Handler `app.post('/api/auth/login')` of `session_code.js`.  `logId` and
`rowId` are the ids of the rows inserted into `login_logs` and `sessions`,
`sessionId` the hex string of `crypto.randomBytes(32)`.  The Telegram message
is sent when `ipChanged` is set; `sendTelegramNotification` never throws and
touches no table.  `UNIQUE(session_id)` rejecting the new row is an exception,
and so is a `status` that `login_logs.status VARCHAR(20)` of `migrate.js` does
not take.  The address `getClientIP` returns is taken to fit the
`VARCHAR(45)` columns; a longer one makes the first `INSERT` of every branch
throw. -/
def loginSession (s : Store) (logId rowId now : Nat) (sessionId : String)
    (req : ClientRequest) (key : String) : Reply × Store :=
  let ipAddress := getClientIP req
  let userAgent := match orElse req.user_agent none with
    | some ua => ua
    | none => ""
  match (s.access_keys.filter (fun k => k.access_key == key && k.is_active)).head? with
  | some keyData =>
    let cabinet := keyData.cabinet
    let existingSession := s.sessions.filter (fun x => x.cabinet == cabinet)
    if 0 < existingSession.length then
      match varchar 20 "rejected_session_exists" with
      | some status =>
        (⟨200, .failure "Цей кабінет вже використовується іншим користувачем"⟩,
          { s with login_logs := s.login_logs ++
            [{ id := logId, cabinet := cabinet, ip_address := some ipAddress,
               user_agent := some userAgent, status := some status, created_at := now }] })
      | none => (⟨500, .error "Помилка сервера"⟩, s)
    else
      let lastLogin := (sortDesc (fun l : LoginLog => l.created_at)
        (s.login_logs.filter (fun l =>
          l.cabinet == cabinet && l.status == some "success"))).head?
      let ipChanged : Bool :=
        match lastLogin with
        | some l => l.ip_address != some ipAddress
        | none => false
      if s.sessions.any (fun x => x.session_id == sessionId) then
        (⟨500, .error "Помилка сервера"⟩, s)
      else
        let s1 : Store := { s with sessions := s.sessions ++
          [{ id := rowId, cabinet := cabinet, session_id := sessionId,
             ip_address := some ipAddress, user_agent := some userAgent, created_at := now,
             last_activity := now }] }
        match varchar 20 "success" with
        | some status =>
          let s2 : Store := { s1 with login_logs := s1.login_logs ++
            [{ id := logId, cabinet := cabinet, ip_address := some ipAddress,
               user_agent := some userAgent, status := some status, created_at := now }] }
          (⟨200, .session cabinet sessionId ipChanged⟩,
            { s2 with access_keys := s2.access_keys.map (fun k =>
              if k.id == keyData.id then { k with last_used := some now } else k) })
        | none => (⟨500, .error "Помилка сервера"⟩, s1)
  | none =>
    match varchar 20 "invalid_key" with
    | some status =>
      (⟨200, .failure "Невірний ключ доступу"⟩,
        { s with login_logs := s.login_logs ++
          [{ id := logId, cabinet := "unknown", ip_address := some ipAddress,
             user_agent := some userAgent, status := some status, created_at := now }] })
    | none => (⟨500, .error "Помилка сервера"⟩, s)

/-- Handler `app.post('/api/auth/logout')`. -/
def logout (s : Store) (sessionId : String) : Reply × Store :=
  (⟨200, .success⟩, { s with sessions := s.sessions.filter (fun x => x.session_id != sessionId) })

/-- Handler `app.post('/api/auth/heartbeat')`. -/
def heartbeat (s : Store) (now : Nat) (sessionId : String) : Reply × Store :=
  let s1 : Store := { s with sessions := s.sessions.map (fun x =>
    if x.session_id == sessionId then { x with last_activity := now } else x) }
  if 0 < (s.sessions.filter (fun x => x.session_id == sessionId)).length then
    (⟨200, .valid true⟩, s1)
  else (⟨200, .valid false⟩, s1)

/-- Handler `app.post('/api/admin/force-logout/:cabinet')`. -/
def forceLogout (s : Store) (cabinet : String) : Reply × Store :=
  (⟨200, .success⟩, { s with sessions := s.sessions.filter (fun x => x.cabinet != cabinet) })

/-- The callback of `setInterval`: deletes the sessions whose
`last_activity` is more than one hour (in milliseconds) before `now`. -/
def sweepSessions (s : Store) (now : Nat) : Store :=
  { s with sessions := s.sessions.filter (fun x => !decide (x.last_activity + 3600000 < now)) }

/-! ## Telegram login (`server.js`) -/

/-- A value of a field of the JSON body of `POST /api/telegram/login`: a
string, a number, a boolean or `null` (Telegram sends strings and integers;
nested arrays and objects are left out).  A number is held by its value when
that is an integer of absolute value below `10^21`, as the `id` and the
`auth_date` of Telegram are; other numbers are left out. -/
inductive JsValue where
  | str (s : String)
  | num (n : Int)
  | bool (b : Bool)
  | null
  deriving DecidableEq, Repr

/-- The text a template literal gives for a value; for a number that is an
integer of absolute value below `10^21` it is the decimal digits. -/
def JsValue.text : JsValue → String
  | .str s => s
  | .num n => toString n
  | .bool b => if b then "true" else "false"
  | .null => "null"

/-- The UTF-16 code units of a string, the units `Array.prototype.sort`
compares strings by. -/
def utf16Units (str : String) : List Nat :=
  str.toList.flatMap (fun c =>
    if c.toNat < 0x10000 then [c.toNat]
    else [0xD800 + (c.toNat - 0x10000) / 0x400, 0xDC00 + (c.toNat - 0x10000) % 0x400])

/-- Method `sort()` without comparator on an array of strings. -/
def jsSortStrings (l : List String) : List String :=
  l.insertionSort (fun a b => ¬ utf16Units b < utf16Units a)

/-- The two hash functions of module `crypto` and the bot token:
`sha256 t` is `createHash('sha256').update(t).digest()` and `hmacHex k m` is
`createHmac('sha256', k).update(m).digest('hex')`. -/
structure Crypto where
  botToken : String
  sha256 : String → List Nat
  hmacHex : List Nat → String → String

/-- The string `dataCheckString`: one `key=value` per field other than
`hash`, sorted, joined by line feeds. -/
def dataCheckString (authData : List (String × JsValue)) : String :=
  "\n".intercalate (jsSortStrings
    ((authData.filter (fun f => f.1 != "hash")).map (fun f => f.1 ++ "=" ++ f.2.text)))

/-- Function `verifyTelegramAuth`; `authData` lists the fields of the body. -/
def verifyTelegramAuth (cr : Crypto) (authData : List (String × JsValue)) : Bool :=
  let checkHash := (authData.find? (fun f => f.1 == "hash")).map Prod.snd
  let secretKey := cr.sha256 cr.botToken
  let hash := cr.hmacHex secretKey (dataCheckString authData)
  checkHash == some (JsValue.str hash)

/-- Field `name` of the body as the text column it is written to. -/
def fieldText (authData : List (String × JsValue)) (name : String) : Option String :=
  match (authData.find? (fun f => f.1 == name)).map Prod.snd with
  | some .null => none
  | some v => some v.text
  | none => none

/-- Field `id` of the body as the `BIGINT` it is compared with. -/
def fieldId (authData : List (String × JsValue)) : Option Int :=
  match (authData.find? (fun f => f.1 == "id")).map Prod.snd with
  | some (.num n) => some n
  | some (.str s) => s.toInt?
  | _ => none

/-- Handler `app.post('/api/telegram/login')`.  An `id` that is no integer
makes a query throw before any write. -/
def telegramLogin (cr : Crypto) (s : Store) (newId now : Nat)
    (authData : List (String × JsValue)) : Reply × Store :=
  if !verifyTelegramAuth cr authData then
    (⟨401, .error "Invalid Telegram authentication"⟩, s)
  else
    match fieldId authData with
    | none => (⟨500, .error "Server error"⟩, s)
    | some telegramId =>
      match (s.telegram_users.filter (fun u => u.telegram_id == telegramId)).head? with
      | some user =>
        (⟨200, .telegramUser
            { telegram_id := user.telegram_id, cabinet := user.cabinet,
              first_name := fieldText authData "first_name",
              username := fieldText authData "username",
              photo_url := fieldText authData "photo_url",
              has_cabinet := match user.cabinet with
                | some c => c != ""
                | none => false }⟩,
          { s with telegram_users := s.telegram_users.map (fun u =>
            if u.telegram_id == telegramId then
              { u with username := fieldText authData "username",
                       first_name := fieldText authData "first_name",
                       last_name := fieldText authData "last_name",
                       photo_url := fieldText authData "photo_url", updated_at := now }
            else u) })
      | none =>
        (⟨200, .telegramUser
            { telegram_id := telegramId, cabinet := none,
              first_name := fieldText authData "first_name",
              username := fieldText authData "username",
              photo_url := fieldText authData "photo_url", has_cabinet := false }⟩,
          { s with telegram_users := s.telegram_users ++
            [{ id := newId, telegram_id := telegramId, cabinet := none,
               username := fieldText authData "username",
               first_name := fieldText authData "first_name",
               last_name := fieldText authData "last_name",
               photo_url := fieldText authData "photo_url", created_at := now,
               updated_at := now }] })

/-- Handler `app.post('/api/telegram/bind-cabinet')`. -/
def bindCabinet (s : Store) (now : Nat) (telegram_id : Int) (cabinet : String) :
    Reply × Store :=
  if 0 < (s.telegram_users.filter (fun u =>
      u.cabinet == some cabinet && u.telegram_id != telegram_id)).length then
    (⟨400, .error "Цей кабінет вже прив\x27язаний до іншого користувача"⟩, s)
  else
    (⟨200, .bound cabinet⟩, { s with telegram_users := s.telegram_users.map (fun u =>
      if u.telegram_id == telegram_id then
        { u with cabinet := some cabinet, updated_at := now }
      else u) })

/-- Handler `app.get('/api/telegram/users')`. -/
def getTelegramUsers (s : Store) : Reply × Store :=
  (⟨200, .telegramUsers ((sortDesc (fun u : TelegramUser => u.created_at)
    s.telegram_users).map (fun u =>
      { telegram_id := u.telegram_id, cabinet := u.cabinet, username := u.username,
        first_name := u.first_name, last_name := u.last_name,
        created_at := u.created_at }))⟩, s)

/-! ## The server as one step function -/

/-- What a handler takes from outside the request and the store: the clock,
the values of the sequences, the random session token, the receipt writer and
the hash functions. -/
structure Env where
  now : Nat
  newId : Nat
  newId2 : Nat
  randomHex : String
  save : String → Option String
  crypto : Crypto

/-- A request to one of the routes of `server.js` and `session_code.js`, or a
tick of the session sweep. -/
inductive Request where
  | convertReceipts (receipts : List String)
  | getHistory (cabinet : String)
  | getAdminHistory (cabinet : Option String)
  | getBalances (cabinet : String)
  | getAllBalances
  | updateBalance (id : Nat) (amount : Int) (admin_name comment : Option String)
  | getOrders (cabinet : String)
  | createOrder (body : OrderBody)
  | payOrder (id : Nat) (receipts : Option (List String))
  | cancelOrder (id : Nat)
  | hideOrder (id : Nat) (cabinet : String)
  | getOrderRequests
  | createOrderRequest (from_cabinet to_cabinet : String) (amount : Int) (type : String)
  | deleteOrderRequest (id : Nat)
  | getWithdrawals (cabinet : String)
  | createWithdrawal (from_cabinet to_cabinet : String) (amount : Int) (address : String)
  | confirmWithdrawal (id : Nat) (txid : Option String)
  | deleteWithdrawal (id : Nat)
  | hideWithdrawal (id : Nat) (cabinet : String)
  | login (key : String)
  | getKeys
  | createKey (access_key cabinet : String) (description : Option String)
  | deactivateKey (id : Nat)
  | activateKey (id : Nat)
  | deleteKey (id : Nat)
  | telegramLogin (authData : List (String × JsValue))
  | bindCabinet (telegram_id : Int) (cabinet : String)
  | getTelegramUsers
  | loginSession (req : ClientRequest) (key : String)
  | logout (sessionId : String)
  | heartbeat (sessionId : String)
  | forceLogout (cabinet : String)
  | sweepSessions

/-- The handler of each request.  The sweep is no HTTP request and sends
nothing; its reply here is a placeholder. -/
def handle (env : Env) (s : Store) : Request → Reply × Store
  | .convertReceipts receipts => convertReceipts s env.save receipts
  | .getHistory cabinet => getHistory s cabinet
  | .getAdminHistory cabinet => getAdminHistory s cabinet
  | .getBalances cabinet => getBalances s cabinet
  | .getAllBalances => getAllBalances s
  | .updateBalance id amount admin_name comment =>
    updateBalance s env.newId env.now id amount admin_name comment
  | .getOrders cabinet => getOrders s cabinet
  | .createOrder body => createOrder s env.newId env.now body
  | .payOrder id receipts => payOrder s id receipts
  | .cancelOrder id => cancelOrder s id
  | .hideOrder id cabinet => hideOrder s env.newId id cabinet
  | .getOrderRequests => getOrderRequests s
  | .createOrderRequest from_cabinet to_cabinet amount type =>
    createOrderRequest s env.newId env.now from_cabinet to_cabinet amount type
  | .deleteOrderRequest id => deleteOrderRequest s id
  | .getWithdrawals cabinet => getWithdrawals s cabinet
  | .createWithdrawal from_cabinet to_cabinet amount address =>
    createWithdrawal s env.newId env.now from_cabinet to_cabinet amount address
  | .confirmWithdrawal id txid => confirmWithdrawal s id txid
  | .deleteWithdrawal id => deleteWithdrawal s id
  | .hideWithdrawal id cabinet => hideWithdrawal s env.newId id cabinet
  | .login key => login s env.now key
  | .getKeys => getKeys s
  | .createKey access_key cabinet description =>
    createKey s env.newId env.now access_key cabinet description
  | .deactivateKey id => deactivateKey s id
  | .activateKey id => activateKey s id
  | .deleteKey id => deleteKey s id
  | .telegramLogin authData => telegramLogin env.crypto s env.newId env.now authData
  | .bindCabinet telegram_id cabinet => bindCabinet s env.now telegram_id cabinet
  | .getTelegramUsers => getTelegramUsers s
  | .loginSession req key => loginSession s env.newId env.newId2 env.now env.randomHex req key
  | .logout sessionId => logout s sessionId
  | .heartbeat sessionId => heartbeat s env.now sessionId
  | .forceLogout cabinet => forceLogout s cabinet
  | .sweepSessions => (⟨200, .success⟩, sweepSessions s env.now)

/-- The requests that write an amount into table `balances`. -/
def Request.writesBalance : Request → Bool
  | .updateBalance _ _ _ _ => true
  | .payOrder _ _ => true
  | .confirmWithdrawal _ _ => true
  | _ => false

/-! ## Vocabulary of the statements -/

/-- Rows of `bs` for the unordered pair of cabinets `a`, `b`, in either
ordering. -/
def pairRows (bs : List Balance) (a b : String) : List Balance :=
  bs.filter (fun r => (r.cabinet_from == a && r.cabinet_to == b)
    || (r.cabinet_from == b && r.cabinet_to == a))

/-- At most one balance row per unordered pair of cabinets. -/
def OneRowPerPair (bs : List Balance) : Prop :=
  ∀ a b : String, (pairRows bs a b).length ≤ 1

/-- The order `SELECT * FROM orders WHERE id = $1` hands to a handler. -/
def orderById (s : Store) (id : Nat) : Option Order :=
  (s.orders.filter (fun o => o.id == id)).head?

/-- The withdrawal `SELECT * FROM withdrawals WHERE id = $1` hands to a handler. -/
def withdrawalById (s : Store) (id : Nat) : Option Withdrawal :=
  (s.withdrawals.filter (fun w => w.id == id)).head?

/-- The Order-Request with id `id`, first match in scan order. -/
def requestById (s : Store) (id : Nat) : Option OrderRequest :=
  (s.order_requests.filter (fun r => r.id == id)).head?

/-- What `GET /api/balances/cabinet` reports for `other`. -/
def reported (s : Store) (cabinet other : String) : Option Int :=
  objGet (balancesObject s cabinet) other

/-- The amount a settlement of `amt` from cabinet `payer` writes into row `b`. -/
def settledAmount (b : Balance) (payer : String) (amt : Int) : Int :=
  if b.cabinet_from = payer then b.amount - amt else b.amount + amt

/-- A call on one order: settle with the given receipts, or cancel. -/
inductive OrderCall where
  | settle (receipts : Option (List String))
  | cancel
  deriving DecidableEq, Repr

/-- Run one call on order `id`. -/
def runCall (s : Store) (id : Nat) : OrderCall → Reply × Store
  | .settle receipts => payOrder s id receipts
  | .cancel => cancelOrder s id

/-- Run a sequence of calls on order `id`, left to right, collecting the
replies. -/
def runCalls (s : Store) (id : Nat) : List OrderCall → List Reply × Store
  | [] => ([], s)
  | c :: cs =>
    let r1 := runCall s id c
    let r2 := runCalls r1.2 id cs
    (r1.1 :: r2.1, r2.2)

/-- The rows with amount zero for the pairs `ps`, ids counting up from `seq`. -/
def zeroRows : Nat → List (String × String) → List Balance
  | _, [] => []
  | seq, p :: ps =>
    { id := seq, cabinet_from := p.1, cabinet_to := p.2, amount := 0 } :: zeroRows (seq + 1) ps

/-- The store after `k` calls of `PATCH /api/orders/:id/cancel` in a row. -/
def cancelTimes (s : Store) (id : Nat) : Nat → Store
  | 0 => s
  | k + 1 => (cancelOrder (cancelTimes s id k) id).2

/-- The row `POST /api/orders` inserts for `body`. -/
def newOrderRow (newId now : Nat) (body : OrderBody) : Order :=
  { id := newId, request_id := body.request_id, from_cabinet := body.from_cabinet,
    to_cabinet := body.to_cabinet, type := body.type, amount_usdt := body.amount_usdt,
    amount_local := body.amount_local, card_number := body.card_number, iban := body.iban,
    tax_number := body.tax_number, cvu := body.cvu, full_name := body.full_name,
    note := body.note, status := "pending", receipts := none, created_at := now }

/-- The value `req.headers['user-agent'] || ''` the session login logs. -/
def userAgentOf (req : ClientRequest) : String :=
  match orElse req.user_agent none with
  | some ua => ua
  | none => ""

/-- The row the session login appends to `login_logs`. -/
def loginLogRow (logId now : Nat) (req : ClientRequest) (cabinet status : String) : LoginLog :=
  { id := logId, cabinet := cabinet, ip_address := some (getClientIP req),
    user_agent := some (userAgentOf req), status := some status, created_at := now }

/-- The active row `SELECT * FROM access_keys WHERE access_key = $1 AND
is_active = true` hands to the login handlers. -/
def activeKey (s : Store) (key : String) : Option AccessKey :=
  (s.access_keys.filter (fun k => k.access_key == key && k.is_active)).head?

/-- The row the session login inserts into `sessions`. -/
def sessionRow (rowId now : Nat) (sessionId : String) (req : ClientRequest) (cabinet : String) :
    Session :=
  { id := rowId, cabinet := cabinet, session_id := sessionId,
    ip_address := some (getClientIP req), user_agent := some (userAgentOf req),
    created_at := now, last_activity := now }

/-- Every cabinet has at most one row in `sessions`. -/
def OneSessionPerCabinet (s : Store) : Prop :=
  ∀ cabinet : String, (s.sessions.filter (fun x => x.cabinet == cabinet)).length ≤ 1

/-- Run requests one at a time, each with its own environment. -/
def runRequests (s : Store) : List (Env × Request) → Store
  | [] => s
  | step :: rest => runRequests (handle step.1 s step.2).2 rest

/-- One settlement: `PATCH /api/orders/:id/pay` or
`PATCH /api/withdrawals/:id/confirm`. -/
inductive Settlement where
  | order (id : Nat) (receipts : Option (List String))
  | withdrawal (id : Nat) (txid : Option String)
  deriving DecidableEq, Repr

/-- The entity a settlement addresses: kind and id. -/
def Settlement.key : Settlement → Bool × Nat
  | .order id _ => (true, id)
  | .withdrawal id _ => (false, id)

/-- The store after one settlement. -/
def settleOne (s : Store) : Settlement → Store
  | .order id receipts => (payOrder s id receipts).2
  | .withdrawal id txid => (confirmWithdrawal s id txid).2

/-- The store after the settlements of a list, in order. -/
def settleAll (s : Store) : List Settlement → Store
  | [] => s
  | op :: rest => settleAll (settleOne s op) rest

/-- Payer, payee, amount and status of the entity a settlement addresses, as
the store holds them. -/
def Settlement.entity (s : Store) : Settlement → Option (String × String × Int × String)
  | .order id _ =>
    (orderById s id).map (fun o => (o.from_cabinet, o.to_cabinet, o.amount_usdt, o.status))
  | .withdrawal id _ =>
    (withdrawalById s id).map (fun w => (w.from_cabinet, w.to_cabinet, w.amount, w.status))

/-- The settlement addresses an existing pending entity between `a` and `b`. -/
def pendingBetween (s : Store) (a b : String) (op : Settlement) : Bool :=
  match op.entity s with
  | some (f, t, _, st) => st == "pending" && ((f == a && t == b) || (f == b && t == a))
  | none => false

/-- The amount of a settlement when its entity goes out of cabinet `c`, else
zero. -/
def amountOut (s : Store) (c : String) (op : Settlement) : Int :=
  match op.entity s with
  | some (f, _, amt, _) => if f = c then amt else 0
  | none => 0

/-- Sum of the amounts of the settlements of `ops` whose entity goes out of
cabinet `c`. -/
def amountFrom (s : Store) (c : String) (ops : List Settlement) : Int :=
  (ops.map (amountOut s c)).sum

/-- The string has at most `n` characters: a `VARCHAR(n)` column stores it as
it is. -/
def fitsVarchar (n : Nat) (str : String) : Bool :=
  decide (str.length ≤ n)

/-- An optional string that a nullable `VARCHAR(n)` column stores as it is. -/
def fitsVarcharOpt (n : Nat) (str : Option String) : Bool :=
  match str with
  | some x => fitsVarchar n x
  | none => true

/-- Every value of the body of `POST /api/orders` is one its column of table
`orders` stores as it is. -/
def OrderBody.fits (body : OrderBody) : Bool :=
  (match body.request_id with
   | some rid => fitsInteger rid
   | none => true)
  && fitsVarchar 50 body.from_cabinet && fitsVarchar 50 body.to_cabinet
  && fitsVarchar 20 body.type && fitsDecimal body.amount_usdt
  && fitsDecimalOpt body.amount_local && fitsVarcharOpt 100 body.card_number
  && fitsVarcharOpt 100 body.iban && fitsVarcharOpt 100 body.tax_number
  && fitsVarcharOpt 100 body.cvu && fitsVarcharOpt 200 body.full_name

/-- The absolute amount of the entity a settlement addresses, zero when there
is none. -/
def amountAbsOf (s : Store) (op : Settlement) : Nat :=
  match op.entity s with
  | some (_, _, amt, _) => amt.natAbs
  | none => 0

/-- Sum of the absolute amounts of the settlements of a list. -/
def amountAbs (s : Store) (ops : List Settlement) : Nat :=
  (ops.map (amountAbsOf s)).sum

/-! ## Example rows and stores -/

/-- A pending order of 30.00 from X to Y. -/
def exOrder : Order :=
  { id := 1, request_id := none, from_cabinet := "X", to_cabinet := "Y", type := "UA",
    amount_usdt := 3000, amount_local := none, card_number := none, iban := none,
    tax_number := none, cvu := none, full_name := none, note := none, status := "pending",
    receipts := none, created_at := 0 }

/-- A store with the balance row (X, Y, 100.00) and the order `exOrder`. -/
def exStore : Store :=
  { Store.empty with balances := [⟨1, "X", "Y", 10000⟩], orders := [exOrder] }

/-- A pending withdrawal of 10.00 from Y to X. -/
def exWithdrawal : Withdrawal :=
  { id := 1, from_cabinet := "Y", to_cabinet := "X", amount := 1000, address := "addr",
    status := "pending", txid := none, created_at := 0 }

/-- A store with the balance row (X, Y, 70.00) and the withdrawal `exWithdrawal`. -/
def exWithdrawalStore : Store :=
  { Store.empty with balances := [⟨1, "X", "Y", 7000⟩], withdrawals := [exWithdrawal] }

/-- A withdrawal of 10.00 from Y to X that was confirmed earlier with txid t0. -/
def exDoneWithdrawal : Withdrawal :=
  { exWithdrawal with status := "completed", txid := some "t0" }

/-- A store with the balance row (X, Y, 70.00) and the withdrawal `exDoneWithdrawal`. -/
def exDoneStore : Store :=
  { Store.empty with balances := [⟨1, "X", "Y", 7000⟩], withdrawals := [exDoneWithdrawal] }

/-- A pending order of 10.00 from Y to X. -/
def exReverseOrder : Order :=
  { exOrder with from_cabinet := "Y", to_cabinet := "X", amount_usdt := 1000 }

/-- A store with the balance row (X, Y, 70.00) and the order `exReverseOrder`. -/
def exReverseStore : Store :=
  { Store.empty with balances := [⟨1, "X", "Y", 7000⟩], orders := [exReverseOrder] }

/-- An order of 30.00 from X to Y that has been settled. -/
def exPaidOrder : Order := { exOrder with status := "completed" }

/-- A store with the balance row (X, Y, 70.00) and the order `exPaidOrder`. -/
def exPaidStore : Store :=
  { Store.empty with balances := [⟨1, "X", "Y", 7000⟩], orders := [exPaidOrder] }

/-- An order of 30.00 from X to Y that has been cancelled. -/
def exCancelledOrder : Order := { exOrder with status := "cancelled" }

/-- A store with the balance row (X, Y, 100.00) and the order `exCancelledOrder`. -/
def exCancelledStore : Store :=
  { Store.empty with balances := [⟨1, "X", "Y", 10000⟩], orders := [exCancelledOrder] }

/-- An Order-Request from Y to X for 50.00 of which 30.00 remain. -/
def exRequest : OrderRequest :=
  { id := 1, from_cabinet := "Y", to_cabinet := "X", amount := 5000, type := "UA",
    remaining_amount := 3000, created_at := 0 }

/-- An order of 20.00 from X to Y against request 1 that has been settled. -/
def exLinkedOrder : Order :=
  { exOrder with request_id := some 1, amount_usdt := 2000, status := "completed" }

/-- A store with the request `exRequest` and the order `exLinkedOrder`. -/
def exLinkedStore : Store :=
  { Store.empty with balances := [⟨1, "X", "Y", 8000⟩], orders := [exLinkedOrder],
                     order_requests := [exRequest] }

/-- The store after `POST /api/order-requests` for 50.00 on the empty store. -/
def exRequestStore : Store := (createOrderRequest Store.empty 1 0 "Y" "X" 5000 "UA").2

/-- Body of an order of 20.00 from X to Y against request 1. -/
def exLinkedBody : OrderBody :=
  { request_id := some 1, from_cabinet := "X", to_cabinet := "Y", type := "UA",
    amount_usdt := 2000, amount_local := none, card_number := none, iban := none,
    tax_number := none, cvu := none, full_name := none, note := none }

/-- What identifies a balance row apart from its amount. -/
def balanceKey (b : Balance) : Nat × String × String := (b.id, b.cabinet_from, b.cabinet_to)

/-- An environment for the examples. -/
def exEnv : Env :=
  { now := 5, newId := 2, newId2 := 3, randomHex := "ab",
    save := fun _ => none,
    crypto := { botToken := "t", sha256 := fun _ => [], hmacHex := fun _ _ => "" } }

/-- A store with the balance row (X, Y, 100.00), id 1, and nothing else. -/
def exBalanceStore : Store := { Store.empty with balances := [⟨1, "X", "Y", 10000⟩] }

/-- An active key of cabinet Z. -/
def exKey : AccessKey :=
  { id := 1, access_key := "zKey", cabinet := "Z", description := none, is_active := true,
    created_at := 0, last_used := none }

/-- A key of cabinet W that has been deactivated. -/
def exOffKey : AccessKey :=
  { id := 2, access_key := "wKey", cabinet := "W", description := none, is_active := false,
    created_at := 0, last_used := none }

/-- A store with the keys `exOffKey` and `exKey`. -/
def exKeyStore : Store := { Store.empty with access_keys := [exOffKey, exKey] }

/-- A store with the order `exOrder`, the withdrawal `exWithdrawal` and one
balance row, between P and Q. -/
def exNoRowStore : Store :=
  { Store.empty with balances := [⟨1, "P", "Q", 500⟩], orders := [exOrder],
                     withdrawals := [exWithdrawal] }

/-- Body of an order of 70.00 from X to Y against request 1. -/
def exLargeBody : OrderBody := { exLinkedBody with amount_usdt := 7000 }

/-- A request from address 10.0.0.1 with user agent `ua`. -/
def exClient : ClientRequest :=
  { x_forwarded_for := some "10.0.0.1, 10.0.0.2", x_real_ip := none,
    connection_remoteAddress := none, socket_remoteAddress := none, user_agent := some "ua" }

/-- Two session logins with the key of Z, a heartbeat, a sweep two hours on,
a logout and a force-logout. -/
def exSessionSteps : List (Env × Request) :=
  [({ exEnv with randomHex := "s1" }, .loginSession exClient "zKey"),
   ({ exEnv with randomHex := "s2", now := 6 }, .loginSession exClient "zKey"),
   ({ exEnv with now := 7 }, .heartbeat "s1"),
   ({ exEnv with now := 7200000 }, .sweepSessions),
   (exEnv, .logout "s1"),
   (exEnv, .forceLogout "Z")]

/-- A store with the row (X, Y, 100.00), the pending orders 1 (X to Y, 30.00)
and 2 (Y to X, 10.00), and the pending withdrawal 1 (Y to X, 10.00). -/
def exLedgerStore : Store :=
  { Store.empty with balances := [⟨1, "X", "Y", 10000⟩],
                     orders := [exOrder, { exReverseOrder with id := 2 }],
                     withdrawals := [exWithdrawal] }

/-- Settle order 1, confirm withdrawal 1, settle order 2. -/
def exSettlements : List Settlement :=
  [.order 1 none, .withdrawal 1 (some "t1"), .order 2 none]

/-- The items `key=value` pushed to `dataCheckArr`, before sorting. -/
def dataCheckItems (authData : List (String × JsValue)) : List String :=
  (authData.filter (fun f => f.1 != "hash")).map (fun f => f.1 ++ "=" ++ f.2.text)

/-- Hash functions for the examples: the digest is empty and the "HMAC" is
the message itself. -/
def exCrypto : Crypto := { botToken := "t", sha256 := fun _ => [], hmacHex := fun _ m => m }

/-- A login payload signed under `exCrypto`. -/
def exAuthData : List (String × JsValue) :=
  [("id", .num 5), ("hash", .str "auth_date=1\nid=5"), ("auth_date", .num 1)]

/-- The store `exStore` with its balance row turned into (Y, X, 99999999.99),
the largest amount the column takes. -/
def exFullStore : Store := { exStore with balances := [⟨1, "Y", "X", 9999999999⟩] }

/-- A store whose only balance row joins X and a cabinet named `__proto__`,
at 6.00. -/
def exProtoStore : Store := { Store.empty with balances := [⟨1, "X", "__proto__", 600⟩] }

/-- A name of 51 characters. -/
def exLongName : String := String.mk (List.replicate 51 'a')

/-! # Theorems -/

/-! ## Column types -/

theorem varchar_fits (n : Nat) (str : String) (h : fitsVarchar n str = true) :
    varchar n str = some str := by
  unfold fitsVarchar at h
  unfold varchar
  rw [if_pos (of_decide_eq_true h)]

theorem varcharOpt_fits (n : Nat) (str : Option String) (h : fitsVarcharOpt n str = true) :
    varcharOpt n str = some str := by
  cases str with
  | none => rfl
  | some x =>
    unfold fitsVarcharOpt at h
    unfold varcharOpt
    simp only
    rw [varchar_fits n x h]
    rfl

theorem orderRow_fits (newId now : Nat) (body : OrderBody) (h : body.fits = true) :
    orderRow newId now body = some (newOrderRow newId now body) := by
  unfold OrderBody.fits at h
  simp only [Bool.and_eq_true] at h
  obtain ⟨⟨⟨⟨⟨⟨⟨⟨⟨⟨h1, h2⟩, h3⟩, h4⟩, h5⟩, h6⟩, h7⟩, h8⟩, h9⟩, h10⟩, h11⟩ := h
  unfold orderRow
  rw [varchar_fits _ _ h2, varchar_fits _ _ h3, varchar_fits _ _ h4, varcharOpt_fits _ _ h7,
    varcharOpt_fits _ _ h8, varcharOpt_fits _ _ h9, varcharOpt_fits _ _ h10,
    varcharOpt_fits _ _ h11]
  simp only [h1, h5, h6, Bool.and_self, if_true]
  rfl

/-! ## Lookup after an update -/

theorem orderById_map (s : Store) (id : Nat) (f : Order → Order) (hf : ∀ o, (f o).id = o.id)
    (s1 : Store) (h1 : s1.orders = s.orders.map f) :
    orderById s1 id = (orderById s id).map f := by
  unfold orderById
  rw [h1, List.filter_map, List.head?_map]
  have : ((fun o : Order => o.id == id) ∘ f) = (fun o : Order => o.id == id) := by
    funext o
    simp [hf o]
  rw [this]

theorem pairRows_map (bs : List Balance) (a b : String) (g : Balance → Balance)
    (hf : ∀ r, (g r).cabinet_from = r.cabinet_from) (ht : ∀ r, (g r).cabinet_to = r.cabinet_to) :
    pairRows (bs.map g) a b = (pairRows bs a b).map g := by
  unfold pairRows
  rw [List.filter_map]
  congr 1
  apply List.filter_congr
  intro r _
  simp [hf r, ht r]

/-! ## Order settlement -/

theorem payOrder_completed (s : Store) (id : Nat) (receipts : Option (List String)) (o : Order)
    (ho : orderById s id = some o) (hst : o.status = "completed") :
    payOrder s id receipts = (⟨400, .error "Ордер вже оплачений"⟩, s) := by
  unfold orderById at ho
  unfold payOrder
  rw [ho]
  simp [hst]

theorem payOrder_open (s : Store) (id : Nat) (receipts : Option (List String)) (o : Order)
    (ho : orderById s id = some o) (hst : o.status ≠ "completed") :
    (payOrder s id receipts).2.orders = s.orders.map (fun x =>
      if x.id == id then { x with status := "completed", receipts := receipts } else x) := by
  unfold orderById at ho
  unfold payOrder
  rw [ho]
  simp only [beq_iff_eq, hst, if_false]
  split
  · split_ifs <;> rfl
  · rfl

theorem payOrder_open_balances (s : Store) (id : Nat) (receipts : Option (List String)) (o : Order)
    (b : Balance) (ho : orderById s id = some o) (hst : o.status ≠ "completed")
    (hb : (pairRows s.balances o.from_cabinet o.to_cabinet).head? = some b)
    (hfit : fitsDecimal (settledAmount b o.from_cabinet o.amount_usdt) = true) :
    (payOrder s id receipts).1 = ⟨200, .success⟩ ∧
    (payOrder s id receipts).2.balances = s.balances.map (fun r =>
      if r.id == b.id then { r with amount := settledAmount b o.from_cabinet o.amount_usdt }
      else r) := by
  unfold orderById at ho
  unfold pairRows at hb
  unfold settledAmount at hfit
  unfold payOrder
  rw [ho]
  simp only [beq_iff_eq, hst, if_false]
  rw [hb]
  simp only [hfit, if_true]
  simp [settledAmount]

theorem payOrder_open_overflow (s : Store) (id : Nat) (receipts : Option (List String))
    (o : Order) (b : Balance) (ho : orderById s id = some o) (hst : o.status ≠ "completed")
    (hb : (pairRows s.balances o.from_cabinet o.to_cabinet).head? = some b)
    (hfit : fitsDecimal (settledAmount b o.from_cabinet o.amount_usdt) = false) :
    (payOrder s id receipts).1 = ⟨500, .error "Помилка оплати ордеру"⟩ ∧
    (payOrder s id receipts).2.balances = s.balances := by
  unfold orderById at ho
  unfold pairRows at hb
  unfold settledAmount at hfit
  unfold payOrder
  rw [ho]
  simp only [beq_iff_eq, hst, if_false]
  rw [hb]
  simp [hfit]

theorem payOrder_open_no_row (s : Store) (id : Nat) (receipts : Option (List String)) (o : Order)
    (ho : orderById s id = some o) (hst : o.status ≠ "completed")
    (hb : (pairRows s.balances o.from_cabinet o.to_cabinet).head? = none) :
    (payOrder s id receipts).1 = ⟨200, .success⟩ ∧
    (payOrder s id receipts).2.balances = s.balances := by
  unfold orderById at ho
  unfold pairRows at hb
  unfold payOrder
  rw [ho]
  simp only [beq_iff_eq, hst, if_false]
  rw [hb]
  exact ⟨rfl, rfl⟩

/-- C1.  Settling an order that is not completed, in a store with exactly one
balance row `b` for the unordered pair of the order, when the new amount is one
the column `DECIMAL(10, 2)` takes: the call replies success, leaves the order
completed with the receipts stored, and turns the row into `b` with amount
`b.amount - amount_usdt` when `b.cabinet_from` is the order's `from_cabinet`
and `b.amount + amount_usdt` otherwise. -/
theorem payOrder_settles (s : Store) (id : Nat) (receipts : Option (List String)) (o : Order)
    (b : Balance) (ho : orderById s id = some o) (hst : o.status ≠ "completed")
    (hb : pairRows s.balances o.from_cabinet o.to_cabinet = [b])
    (hfit : fitsDecimal (if b.cabinet_from = o.from_cabinet then b.amount - o.amount_usdt
                         else b.amount + o.amount_usdt) = true) :
    (payOrder s id receipts).1 = ⟨200, .success⟩ ∧
    orderById (payOrder s id receipts).2 id
      = some { o with status := "completed", receipts := receipts } ∧
    pairRows (payOrder s id receipts).2.balances o.from_cabinet o.to_cabinet
      = [{ b with amount := if b.cabinet_from = o.from_cabinet then b.amount - o.amount_usdt
                            else b.amount + o.amount_usdt }] := by
  have h2 := payOrder_open s id receipts o ho hst
  have hh : (pairRows s.balances o.from_cabinet o.to_cabinet).head? = some b := by rw [hb]; rfl
  obtain ⟨h1, h3⟩ := payOrder_open_balances s id receipts o b ho hst hh hfit
  refine ⟨h1, ?_, ?_⟩
  · rw [orderById_map s id _ (fun x => by split <;> rfl) _ h2, ho]
    have hid : o.id = id := by
      unfold orderById at ho
      have hm := List.mem_of_mem_head? ho
      simpa using (List.mem_filter.mp hm).2
    simp [hid]
  · rw [h3, pairRows_map _ _ _ _ (fun r => by split <;> rfl) (fun r => by split <;> rfl), hb]
    simp [settledAmount]

/-- C2.  Settling an existing order twice in a row: the second call replies
400 with the already-paid error and returns the store of the first call
untouched. -/
theorem payOrder_twice (s : Store) (id : Nat) (r1 r2 : Option (List String)) (o : Order)
    (ho : orderById s id = some o) :
    payOrder (payOrder s id r1).2 id r2
      = (⟨400, .error "Ордер вже оплачений"⟩, (payOrder s id r1).2) := by
  by_cases hst : o.status = "completed"
  · rw [payOrder_completed s id r1 o ho hst]
    exact payOrder_completed s id r2 o ho hst
  · have h2 := payOrder_open s id r1 o ho hst
    have hid : o.id = id := by
      unfold orderById at ho
      have hm := List.mem_of_mem_head? ho
      simpa using (List.mem_filter.mp hm).2
    have h3 := orderById_map s id _ (fun x => by split <;> rfl) _ h2
    rw [ho] at h3
    refine payOrder_completed _ id r2 _ h3 ?_
    simp [hid]

theorem orderById_id (s : Store) (id : Nat) (o : Order) (ho : orderById s id = some o) :
    o.id = id := by
  unfold orderById at ho
  have hm := List.mem_of_mem_head? ho
  simpa using (List.mem_filter.mp hm).2

theorem withdrawalById_id (s : Store) (id : Nat) (w : Withdrawal)
    (hw : withdrawalById s id = some w) : w.id = id := by
  unfold withdrawalById at hw
  have hm := List.mem_of_mem_head? hw
  simpa using (List.mem_filter.mp hm).2

theorem withdrawalById_map (s : Store) (id : Nat) (f : Withdrawal → Withdrawal)
    (hf : ∀ w, (f w).id = w.id) (s1 : Store) (h1 : s1.withdrawals = s.withdrawals.map f) :
    withdrawalById s1 id = (withdrawalById s id).map f := by
  unfold withdrawalById
  rw [h1, List.filter_map, List.head?_map]
  have : ((fun w : Withdrawal => w.id == id) ∘ f) = (fun w : Withdrawal => w.id == id) := by
    funext w
    simp [hf w]
  rw [this]

/-! ## Withdrawal confirmation -/

theorem confirmWithdrawal_completed (s : Store) (id : Nat) (txid : Option String)
    (w : Withdrawal) (hw : withdrawalById s id = some w) (hst : w.status = "completed") :
    confirmWithdrawal s id txid = (⟨400, .error "Вивід вже підтверджений"⟩, s) := by
  unfold withdrawalById at hw
  unfold confirmWithdrawal
  rw [hw]
  simp [hst]

theorem confirmWithdrawal_open (s : Store) (id : Nat) (txid : Option String) (w : Withdrawal)
    (hw : withdrawalById s id = some w) (hst : w.status ≠ "completed") :
    (confirmWithdrawal s id txid).2.withdrawals = s.withdrawals.map (fun x =>
      if x.id == id then { x with status := "completed", txid := txid } else x) := by
  unfold withdrawalById at hw
  unfold confirmWithdrawal
  rw [hw]
  simp only [beq_iff_eq, hst, if_false]
  split
  · split_ifs <;> rfl
  · rfl

theorem confirmWithdrawal_open_balances (s : Store) (id : Nat) (txid : Option String)
    (w : Withdrawal) (b : Balance) (hw : withdrawalById s id = some w)
    (hst : w.status ≠ "completed")
    (hb : (pairRows s.balances w.from_cabinet w.to_cabinet).head? = some b)
    (hfit : fitsDecimal (settledAmount b w.from_cabinet w.amount) = true) :
    (confirmWithdrawal s id txid).1 = ⟨200, .success⟩ ∧
    (confirmWithdrawal s id txid).2.balances = s.balances.map (fun r =>
      if r.id == b.id then { r with amount := settledAmount b w.from_cabinet w.amount }
      else r) := by
  unfold withdrawalById at hw
  unfold pairRows at hb
  unfold settledAmount at hfit
  unfold confirmWithdrawal
  rw [hw]
  simp only [beq_iff_eq, hst, if_false]
  rw [hb]
  simp only [hfit, if_true]
  simp [settledAmount]

theorem confirmWithdrawal_open_overflow (s : Store) (id : Nat) (txid : Option String)
    (w : Withdrawal) (b : Balance) (hw : withdrawalById s id = some w)
    (hst : w.status ≠ "completed")
    (hb : (pairRows s.balances w.from_cabinet w.to_cabinet).head? = some b)
    (hfit : fitsDecimal (settledAmount b w.from_cabinet w.amount) = false) :
    (confirmWithdrawal s id txid).1 = ⟨500, .error "Помилка підтвердження виводу"⟩ ∧
    (confirmWithdrawal s id txid).2.balances = s.balances := by
  unfold withdrawalById at hw
  unfold pairRows at hb
  unfold settledAmount at hfit
  unfold confirmWithdrawal
  rw [hw]
  simp only [beq_iff_eq, hst, if_false]
  rw [hb]
  simp [hfit]

theorem confirmWithdrawal_open_no_row (s : Store) (id : Nat) (txid : Option String)
    (w : Withdrawal) (hw : withdrawalById s id = some w) (hst : w.status ≠ "completed")
    (hb : (pairRows s.balances w.from_cabinet w.to_cabinet).head? = none) :
    (confirmWithdrawal s id txid).1 = ⟨200, .success⟩ ∧
    (confirmWithdrawal s id txid).2.balances = s.balances := by
  unfold withdrawalById at hw
  unfold pairRows at hb
  unfold confirmWithdrawal
  rw [hw]
  simp only [beq_iff_eq, hst, if_false]
  rw [hb]
  exact ⟨rfl, rfl⟩

theorem confirmWithdrawal_second (s : Store) (id : Nat) (t1 t2 : Option String) (w : Withdrawal)
    (hw : withdrawalById s id = some w) :
    confirmWithdrawal (confirmWithdrawal s id t1).2 id t2
      = (⟨400, .error "Вивід вже підтверджений"⟩, (confirmWithdrawal s id t1).2) := by
  by_cases hst : w.status = "completed"
  · rw [confirmWithdrawal_completed s id t1 w hw hst]
    exact confirmWithdrawal_completed s id t2 w hw hst
  · have h2 := confirmWithdrawal_open s id t1 w hw hst
    have hid := withdrawalById_id s id w hw
    have h3 := withdrawalById_map s id _ (fun x => by split <;> rfl) _ h2
    rw [hw] at h3
    refine confirmWithdrawal_completed _ id t2 _ h3 ?_
    simp [hid]

/-- C3, as stated: for every existing withdrawal, after two confirm calls in a
row the second has replied 400, the one balance row of the pair carries one
application of the withdrawal amount, and the stored txid is the one of the
first call.  The statement is false: a withdrawal that is already completed
is left alone by both calls. -/
theorem confirmWithdrawal_twice_fails_when_completed :
    ¬ ∀ (s : Store) (id : Nat) (t1 t2 : Option String) (w : Withdrawal) (b : Balance),
      withdrawalById s id = some w →
      pairRows s.balances w.from_cabinet w.to_cabinet = [b] →
      (confirmWithdrawal (confirmWithdrawal s id t1).2 id t2).1.status = 400 ∧
      pairRows (confirmWithdrawal (confirmWithdrawal s id t1).2 id t2).2.balances
          w.from_cabinet w.to_cabinet
        = [{ b with amount := settledAmount b w.from_cabinet w.amount }] ∧
      (withdrawalById (confirmWithdrawal (confirmWithdrawal s id t1).2 id t2).2 id).map
          (fun x => x.txid) = some t1 := by
  intro h
  have h1 := h exDoneStore 1 (some "t1") (some "t2") exDoneWithdrawal ⟨1, "X", "Y", 7000⟩
    (by decide) (by decide)
  revert h1
  decide

/-- C3, amended.  For every store and every existing withdrawal the second of
two confirm calls in a row replies 400 and changes nothing.  When the
withdrawal was not completed before the first call, the withdrawal ends
completed with the txid of the first call; and when moreover the pair has
exactly one balance row `b` and the new amount is one the column
`DECIMAL(10, 2)` takes, the first call replies success and the row ends as `b`
with one application of the withdrawal amount (minus when `b.cabinet_from` is
the withdrawal's `from_cabinet`, plus otherwise). -/
theorem confirmWithdrawal_twice (s : Store) (id : Nat) (t1 t2 : Option String) (w : Withdrawal)
    (hw : withdrawalById s id = some w) :
    confirmWithdrawal (confirmWithdrawal s id t1).2 id t2
      = (⟨400, .error "Вивід вже підтверджений"⟩, (confirmWithdrawal s id t1).2) ∧
    (w.status ≠ "completed" →
      withdrawalById (confirmWithdrawal (confirmWithdrawal s id t1).2 id t2).2 id
        = some { w with status := "completed", txid := t1 } ∧
      ∀ b : Balance, pairRows s.balances w.from_cabinet w.to_cabinet = [b] →
        fitsDecimal (if b.cabinet_from = w.from_cabinet then b.amount - w.amount
                     else b.amount + w.amount) = true →
        (confirmWithdrawal s id t1).1 = ⟨200, .success⟩ ∧
        pairRows (confirmWithdrawal (confirmWithdrawal s id t1).2 id t2).2.balances
            w.from_cabinet w.to_cabinet
          = [{ b with amount := if b.cabinet_from = w.from_cabinet then b.amount - w.amount
                                else b.amount + w.amount }]) := by
  have h2nd := confirmWithdrawal_second s id t1 t2 w hw
  refine ⟨h2nd, fun hst => ?_⟩
  rw [h2nd]
  have h2 := confirmWithdrawal_open s id t1 w hw hst
  refine ⟨?_, fun b hb hfit => ?_⟩
  · show withdrawalById (confirmWithdrawal s id t1).2 id = _
    rw [withdrawalById_map s id _ (fun x => by split <;> rfl) _ h2, hw]
    simp [withdrawalById_id s id w hw]
  · have hh : (pairRows s.balances w.from_cabinet w.to_cabinet).head? = some b := by
      rw [hb]; rfl
    obtain ⟨h1, h3⟩ := confirmWithdrawal_open_balances s id t1 w b hw hst hh hfit
    refine ⟨h1, ?_⟩
    show pairRows (confirmWithdrawal s id t1).2.balances w.from_cabinet w.to_cabinet = _
    rw [h3, pairRows_map _ _ _ _ (fun r => by split <;> rfl) (fun r => by split <;> rfl), hb]
    simp [settledAmount]

/-- Witness for C1: row (X, Y, 100.00) and an order X to Y of 30.00 give 70.00. -/
theorem payOrder_settles_witness :
    orderById exStore 1 = some exOrder ∧ exOrder.status ≠ "completed" ∧
    pairRows exStore.balances "X" "Y" = [⟨1, "X", "Y", 10000⟩] ∧
    (payOrder exStore 1 none).1 = ⟨200, .success⟩ ∧
    orderById (payOrder exStore 1 none).2 1 = some { exOrder with status := "completed" } ∧
    pairRows (payOrder exStore 1 none).2.balances "X" "Y" = [⟨1, "X", "Y", 7000⟩] :=
  ⟨by decide, by decide, by decide,
    payOrder_settles exStore 1 none exOrder ⟨1, "X", "Y", 10000⟩
      (by decide) (by decide) (by decide) (by decide)⟩

/-- Witness for C2 on the store `exStore`. -/
theorem payOrder_twice_witness :
    orderById exStore 1 = some exOrder ∧
    payOrder (payOrder exStore 1 none).2 1 (some ["r.png"])
      = (⟨400, .error "Ордер вже оплачений"⟩, (payOrder exStore 1 none).2) :=
  ⟨by decide, payOrder_twice exStore 1 none (some ["r.png"]) exOrder (by decide)⟩

/-- Witness for C3, amended: row (X, Y, 70.00) and a pending withdrawal Y to X
of 10.00 confirmed twice give 80.00 and the first txid. -/
theorem confirmWithdrawal_twice_witness :
    withdrawalById exWithdrawalStore 1 = some exWithdrawal ∧
    pairRows exWithdrawalStore.balances "Y" "X" = [⟨1, "X", "Y", 7000⟩] ∧
    exWithdrawal.status ≠ "completed" ∧
    pairRows (confirmWithdrawal (confirmWithdrawal exWithdrawalStore 1 (some "t1")).2 1
        (some "t2")).2.balances "Y" "X" = [⟨1, "X", "Y", 8000⟩] ∧
    withdrawalById (confirmWithdrawal (confirmWithdrawal exWithdrawalStore 1 (some "t1")).2 1
        (some "t2")).2 1 = some { exWithdrawal with status := "completed", txid := some "t1" } :=
  have h := (confirmWithdrawal_twice exWithdrawalStore 1 (some "t1") (some "t2") exWithdrawal
    (by decide)).2 (by decide)
  ⟨by decide, by decide, by decide,
    (h.2 ⟨1, "X", "Y", 7000⟩ (by decide) (by decide)).2, h.1⟩

/-- C4.  Withdrawal confirmation and order settlement apply the same balance
rule: on equal balances tables, confirming a withdrawal that is not completed
and settling an order that is not completed, with the same `from_cabinet`,
`to_cabinet` and amount, leave equal balances tables. -/
theorem confirmWithdrawal_balances_eq_payOrder (sw so : Store) (wid oid : Nat)
    (txid : Option String) (receipts : Option (List String)) (w : Withdrawal) (o : Order)
    (hbal : sw.balances = so.balances)
    (hw : withdrawalById sw wid = some w) (ho : orderById so oid = some o)
    (hws : w.status ≠ "completed") (hos : o.status ≠ "completed")
    (hf : w.from_cabinet = o.from_cabinet) (ht : w.to_cabinet = o.to_cabinet)
    (ha : w.amount = o.amount_usdt) :
    (confirmWithdrawal sw wid txid).2.balances = (payOrder so oid receipts).2.balances := by
  cases hb : (pairRows so.balances o.from_cabinet o.to_cabinet).head? with
  | none =>
    rw [(payOrder_open_no_row so oid receipts o ho hos hb).2,
      (confirmWithdrawal_open_no_row sw wid txid w hw hws
        (by rw [hf, ht, hbal]; exact hb)).2, hbal]
  | some b =>
    cases hfit : fitsDecimal (settledAmount b o.from_cabinet o.amount_usdt) with
    | true =>
      rw [(payOrder_open_balances so oid receipts o b ho hos hb hfit).2,
        (confirmWithdrawal_open_balances sw wid txid w b hw hws
          (by rw [hf, ht, hbal]; exact hb) (by rw [hf, ha]; exact hfit)).2, hbal, hf, ha]
    | false =>
      rw [(payOrder_open_overflow so oid receipts o b ho hos hb hfit).2,
        (confirmWithdrawal_open_overflow sw wid txid w b hw hws
          (by rw [hf, ht, hbal]; exact hb) (by rw [hf, ha]; exact hfit)).2, hbal]

/-- Witness for C4: on row (X, Y, 70.00) a withdrawal Y to X of 10.00 and an
order Y to X of 10.00 both give 80.00. -/
theorem confirmWithdrawal_balances_eq_payOrder_witness :
    (confirmWithdrawal exWithdrawalStore 1 none).2.balances = [⟨1, "X", "Y", 8000⟩] ∧
    (confirmWithdrawal exWithdrawalStore 1 none).2.balances
      = (payOrder exReverseStore 1 none).2.balances :=
  ⟨by decide,
    confirmWithdrawal_balances_eq_payOrder exWithdrawalStore exReverseStore 1 1 none none
      exWithdrawal exReverseOrder (by decide) (by decide) (by decide) (by decide) (by decide)
      (by decide) (by decide) (by decide)⟩

/-! ## Order cancellation and the order life cycle -/

theorem requestById_map (s : Store) (id : Nat) (f : OrderRequest → OrderRequest)
    (hf : ∀ r, (f r).id = r.id) (s1 : Store) (h1 : s1.order_requests = s.order_requests.map f) :
    requestById s1 id = (requestById s id).map f := by
  unfold requestById
  rw [h1, List.filter_map, List.head?_map]
  have : ((fun r : OrderRequest => r.id == id) ∘ f) = (fun r : OrderRequest => r.id == id) := by
    funext r
    simp [hf r]
  rw [this]

theorem requestById_id (s : Store) (id : Nat) (q : OrderRequest)
    (hq : requestById s id = some q) : q.id = id := by
  unfold requestById at hq
  have hm := List.mem_of_mem_head? hq
  simpa using (List.mem_filter.mp hm).2

theorem cancelOrder_orders (s : Store) (id : Nat) :
    (cancelOrder s id).2.orders = s.orders.map (fun x =>
      if x.id == id then { x with status := "cancelled" } else x) := by
  unfold cancelOrder
  simp only
  split
  · rfl
  · split
    · split_ifs <;> rfl
    · rfl

theorem cancelOrder_balances (s : Store) (id : Nat) :
    (cancelOrder s id).2.balances = s.balances := by
  unfold cancelOrder
  simp only
  split
  · rfl
  · split
    · split_ifs <;> rfl
    · rfl

theorem cancelOrder_linked (s : Store) (id rid : Nat) (o : Order)
    (ho : orderById s id = some o) (hr : o.request_id = some rid) (h0 : rid ≠ 0)
    (hfit : ∀ r ∈ s.order_requests, r.id = rid →
      fitsDecimal (r.remaining_amount + o.amount_usdt) = true) :
    (cancelOrder s id).1 = ⟨200, .success⟩ ∧
    (cancelOrder s id).2.order_requests = s.order_requests.map (fun r =>
      if r.id == rid then { r with remaining_amount := r.remaining_amount + o.amount_usdt }
      else r) := by
  have hall : s.order_requests.all (fun r =>
      r.id != rid || fitsDecimal (r.remaining_amount + o.amount_usdt)) = true := by
    rw [List.all_eq_true]
    intro r hmem
    by_cases hid : r.id = rid
    · simp [hfit r hmem hid]
    · simp [hid]
  unfold orderById at ho
  unfold cancelOrder
  simp only
  rw [ho]
  simp [hr, h0, hall]

theorem cancelOrder_overflow (s : Store) (id rid : Nat) (o : Order) (q : OrderRequest)
    (ho : orderById s id = some o) (hr : o.request_id = some rid) (h0 : rid ≠ 0)
    (hq : q ∈ s.order_requests) (hid : q.id = rid)
    (hfit : fitsDecimal (q.remaining_amount + o.amount_usdt) = false) :
    (cancelOrder s id).1 = ⟨500, .error "Помилка скасування ордеру"⟩ ∧
    (cancelOrder s id).2.order_requests = s.order_requests := by
  have hall : s.order_requests.all (fun r =>
      r.id != rid || fitsDecimal (r.remaining_amount + o.amount_usdt)) = false := by
    rw [Bool.eq_false_iff]
    intro h
    rw [List.all_eq_true] at h
    have := h q hq
    simp [hid, hfit] at this
  unfold orderById at ho
  unfold cancelOrder
  simp only
  rw [ho]
  simp [hr, h0, hall]

theorem cancelOrder_status (s : Store) (id : Nat) (o : Order) (ho : orderById s id = some o) :
    orderById (cancelOrder s id).2 id = some { o with status := "cancelled" } := by
  rw [orderById_map s id _ (fun x => by split <;> rfl) _ (cancelOrder_orders s id), ho]
  simp [orderById_id s id o ho]

/-- C5, evaluated.  On the row (X, Y, 100.00) and a pending order X to Y of
30.00, the calls settle, cancel, settle all reply success and leave the row at
40.00: the delta of the one order has been applied twice. -/
theorem settle_cancel_settle_applies_twice :
    (runCalls exStore 1 [.settle none, .cancel, .settle none]).1
      = [⟨200, .success⟩, ⟨200, .success⟩, ⟨200, .success⟩] ∧
    (runCalls exStore 1 [.settle none]).2.balances = [⟨1, "X", "Y", 7000⟩] ∧
    (runCalls exStore 1 [.settle none, .cancel]).2.balances = [⟨1, "X", "Y", 7000⟩] ∧
    (runCalls exStore 1 [.settle none, .cancel, .settle none]).2.balances
      = [⟨1, "X", "Y", 4000⟩] := by
  decide

/-- C6, as stated: neither settle nor cancel changes the status of an order
that is completed or cancelled.  The statement is false: cancel has no check
of the status and turns a completed order into a cancelled one. -/
theorem terminal_states_fail_on_cancel :
    ¬ ∀ (s : Store) (id : Nat) (receipts : Option (List String)) (o : Order),
      orderById s id = some o →
      (o.status = "completed" ∨ o.status = "cancelled") →
      (orderById (payOrder s id receipts).2 id).map (fun x => x.status) = some o.status ∧
      (orderById (cancelOrder s id).2 id).map (fun x => x.status) = some o.status := by
  intro h
  have h1 := h exPaidStore 1 none exPaidOrder (by decide) (by decide)
  revert h1
  decide

/-- C6, amended.  Settle is rejected on a completed order and leaves it, and
the whole store, as it is.  Cancel writes the status cancelled whatever the
status was: it leaves the status of a cancelled order as it is and turns a
completed order into a cancelled one. -/
theorem order_status_kept (s : Store) (id : Nat) (receipts : Option (List String)) (o : Order)
    (ho : orderById s id = some o) :
    (o.status = "completed" →
      (payOrder s id receipts).1.status = 400 ∧
      (payOrder s id receipts).2 = s ∧
      (orderById (payOrder s id receipts).2 id).map (fun x => x.status) = some o.status) ∧
    (o.status = "cancelled" →
      (orderById (cancelOrder s id).2 id).map (fun x => x.status) = some o.status) ∧
    (orderById (cancelOrder s id).2 id).map (fun x => x.status) = some "cancelled" := by
  refine ⟨?_, ?_, ?_⟩
  · intro hst
    rw [payOrder_completed s id receipts o ho hst, ho]
    exact ⟨rfl, rfl, rfl⟩
  · intro hst
    rw [cancelOrder_status s id o ho, hst]
    rfl
  · rw [cancelOrder_status s id o ho]
    rfl

/-- Witness for C6, amended: a completed order under settle and a cancelled
order under cancel. -/
theorem order_status_kept_witness :
    (orderById exPaidStore 1 = some exPaidOrder ∧ exPaidOrder.status = "completed" ∧
      (payOrder exPaidStore 1 none).1.status = 400 ∧
      (payOrder exPaidStore 1 none).2 = exPaidStore ∧
      (orderById (payOrder exPaidStore 1 none).2 1).map (fun x => x.status)
        = some "completed") ∧
    (orderById exCancelledStore 1 = some exCancelledOrder ∧
      exCancelledOrder.status = "cancelled" ∧
      (orderById (cancelOrder exCancelledStore 1).2 1).map (fun x => x.status)
        = some "cancelled") :=
  ⟨⟨by decide, by decide,
      (order_status_kept exPaidStore 1 none exPaidOrder (by decide)).1 (by decide)⟩,
    ⟨by decide, by decide,
      (order_status_kept exCancelledStore 1 none exCancelledOrder (by decide)).2.1
        (by decide)⟩⟩

/-- C7, as stated: cancelling a completed order linked to an Order-Request
leaves the remaining amount of that request unchanged.  The statement is
false: a request at 30.00 with a completed order of 20.00 goes to 50.00. -/
theorem cancel_completed_restores_remaining :
    ¬ ∀ (s : Store) (id rid : Nat) (o : Order),
      orderById s id = some o → o.status = "completed" → o.request_id = some rid →
      (requestById (cancelOrder s id).2 rid).map (fun r => r.remaining_amount)
        = (requestById s rid).map (fun r => r.remaining_amount) := by
  intro h
  have h1 := h exLinkedStore 1 1 exLinkedOrder (by decide) (by decide) (by decide)
  revert h1
  decide

/-- C7, amended.  Cancelling a completed order linked to an existing
Order-Request (non-zero `request_id`), when the remaining amount plus
`amount_usdt` is one the column `DECIMAL(10, 2)` takes on the rows with that
id: the call replies success, sets the order to cancelled and adds
`amount_usdt` to the remaining amount of that request. -/
theorem cancel_completed_adds_amount (s : Store) (id rid : Nat) (o : Order) (q : OrderRequest)
    (ho : orderById s id = some o) (hst : o.status = "completed")
    (hr : o.request_id = some rid) (h0 : rid ≠ 0) (hq : requestById s rid = some q)
    (hfit : ∀ r ∈ s.order_requests, r.id = rid →
      fitsDecimal (r.remaining_amount + o.amount_usdt) = true) :
    (cancelOrder s id).1 = ⟨200, .success⟩ ∧
    orderById (cancelOrder s id).2 id = some { o with status := "cancelled" } ∧
    requestById (cancelOrder s id).2 rid
      = some { q with remaining_amount := q.remaining_amount + o.amount_usdt } := by
  have _ := hst
  obtain ⟨h1, h2⟩ := cancelOrder_linked s id rid o ho hr h0 hfit
  refine ⟨h1, cancelOrder_status s id o ho, ?_⟩
  rw [requestById_map s rid _ (fun x => by split <;> rfl) _ h2, hq]
  simp [requestById_id s rid q hq]

/-- Witness for C7, amended: request at 30.00, completed order of 20.00,
cancel gives 50.00. -/
theorem cancel_completed_adds_amount_witness :
    orderById exLinkedStore 1 = some exLinkedOrder ∧ exLinkedOrder.status = "completed" ∧
    exLinkedOrder.request_id = some 1 ∧
    (requestById exLinkedStore 1).map (fun r => r.remaining_amount) = some 3000 ∧
    (requestById (cancelOrder exLinkedStore 1).2 1).map (fun r => r.remaining_amount)
      = some 5000 :=
  ⟨by decide, by decide, by decide, by decide,
    congrArg (Option.map (fun r => r.remaining_amount))
      (cancel_completed_adds_amount exLinkedStore 1 1 exLinkedOrder exRequest
        (by decide) (by decide) (by decide) (by decide) (by decide) (by decide)).2.2⟩

/-! ## Order creation -/

theorem createOrder_linked (s : Store) (newId now : Nat) (body : OrderBody) (rid : Nat)
    (hr : body.request_id = some rid) (h0 : rid ≠ 0) (hbody : body.fits = true)
    (hfit : ∀ r ∈ s.order_requests, r.id = rid →
      fitsDecimal (r.remaining_amount - body.amount_usdt) = true) :
    (createOrder s newId now body).1 = ⟨200, .order (newOrderRow newId now body)⟩ ∧
    (createOrder s newId now body).2.orders = s.orders ++ [newOrderRow newId now body] ∧
    (createOrder s newId now body).2.order_requests = s.order_requests.map (fun r =>
      if r.id == rid then { r with remaining_amount := r.remaining_amount - body.amount_usdt }
      else r) ∧
    (createOrder s newId now body).2.balances = s.balances := by
  have hall : s.order_requests.all (fun r =>
      r.id != rid || fitsDecimal (r.remaining_amount - body.amount_usdt)) = true := by
    rw [List.all_eq_true]
    intro r hmem
    by_cases hid : r.id = rid
    · simp [hfit r hmem hid]
    · simp [hid]
  unfold createOrder
  rw [orderRow_fits newId now body hbody]
  simp [hr, h0, hall]

theorem orderById_append_fresh (s s1 : Store) (newId : Nat) (row : Order)
    (hfresh : ∀ o ∈ s.orders, o.id ≠ newId) (hid : row.id = newId)
    (h1 : s1.orders = s.orders ++ [row]) : orderById s1 newId = some row := by
  unfold orderById
  rw [h1, List.filter_append]
  have hnil : s.orders.filter (fun o => o.id == newId) = [] := by
    rw [List.filter_eq_nil_iff]
    intro o ho
    simpa using hfresh o ho
  rw [hnil]
  simp [hid]

/-- C8.  Create-then-cancel is a round trip on the Order-Request: for a
request `q` with id `rid` (ids of the sequence are non-zero) and an order body
naming it, with `newId` an id no order has yet, when the values of the body
fit their columns and the remaining amount `m` and the difference
`m - amount_usdt` are amounts the column `DECIMAL(10, 2)` takes: creating the
order replies with the new row and takes the remaining amount from `m` to
`m - amount_usdt`, and cancelling that order once replies success and brings
the request, and the whole table of requests, back. -/
theorem create_cancel_round_trip (s : Store) (newId now : Nat) (body : OrderBody) (rid : Nat)
    (q : OrderRequest) (hr : body.request_id = some rid) (h0 : rid ≠ 0)
    (hq : requestById s rid = some q) (hfresh : ∀ o ∈ s.orders, o.id ≠ newId)
    (hbody : body.fits = true)
    (hstored : ∀ r ∈ s.order_requests, r.id = rid → fitsDecimal r.remaining_amount = true)
    (hfit : ∀ r ∈ s.order_requests, r.id = rid →
      fitsDecimal (r.remaining_amount - body.amount_usdt) = true) :
    (createOrder s newId now body).1 = ⟨200, .order (newOrderRow newId now body)⟩ ∧
    requestById (createOrder s newId now body).2 rid
      = some { q with remaining_amount := q.remaining_amount - body.amount_usdt } ∧
    (cancelOrder (createOrder s newId now body).2 newId).1 = ⟨200, .success⟩ ∧
    requestById (cancelOrder (createOrder s newId now body).2 newId).2 rid = some q ∧
    (cancelOrder (createOrder s newId now body).2 newId).2.order_requests
      = s.order_requests := by
  obtain ⟨h0r, h1, h2, _⟩ := createOrder_linked s newId now body rid hr h0 hbody hfit
  have hnew := orderById_append_fresh s _ newId (newOrderRow newId now body) hfresh rfl h1
  have hfit2 : ∀ r ∈ (createOrder s newId now body).2.order_requests, r.id = rid →
      fitsDecimal (r.remaining_amount + (newOrderRow newId now body).amount_usdt) = true := by
    intro r hmem hid
    rw [h2, List.mem_map] at hmem
    obtain ⟨r0, hr0, hr0eq⟩ := hmem
    by_cases h : r0.id = rid
    · have := hstored r0 hr0 h
      subst hr0eq
      simp only [beq_iff_eq, h, if_true, newOrderRow]
      rw [Int.sub_add_cancel]
      exact this
    · subst hr0eq
      simp [h] at hid
  obtain ⟨hc, h3⟩ := cancelOrder_linked _ newId rid _ hnew hr h0 hfit2
  have hback : (cancelOrder (createOrder s newId now body).2 newId).2.order_requests
      = s.order_requests := by
    rw [h3, h2, List.map_map]
    conv_rhs => rw [← List.map_id s.order_requests]
    apply List.map_congr_left
    intro r _
    cases r
    simp only [Function.comp, id, newOrderRow]
    split <;> simp
  refine ⟨h0r, ?_, hc, ?_, hback⟩
  · rw [requestById_map s rid _ (fun x => by split <;> rfl) _ h2, hq]
    simp [requestById_id s rid q hq]
  · unfold requestById
    rw [hback]
    exact hq

/-- Witness for C8: a request of 50.00, an order of 20.00 against it gives
30.00, cancelling the order gives 50.00. -/
theorem create_cancel_round_trip_witness :
    (requestById exRequestStore 1).map (fun r => r.remaining_amount) = some 5000 ∧
    (requestById (createOrder exRequestStore 1 7 exLinkedBody).2 1).map
      (fun r => r.remaining_amount) = some 3000 ∧
    (requestById (cancelOrder (createOrder exRequestStore 1 7 exLinkedBody).2 1).2 1).map
      (fun r => r.remaining_amount) = some 5000 :=
  have h := create_cancel_round_trip exRequestStore 1 7 exLinkedBody 1
    { exRequest with remaining_amount := 5000 } (by decide) (by decide) (by decide)
    (by decide) (by decide) (by decide) (by decide)
  ⟨by decide, congrArg (Option.map (fun r => r.remaining_amount)) h.2.1,
    congrArg (Option.map (fun r => r.remaining_amount)) h.2.2.2.1⟩

/-! ## The balances object -/

theorem objGet_objSet_same (obj : List (String × Int)) (k : String) (v : Int)
    (hproto : k ≠ "__proto__") : objGet (objSet obj k v) k = some v := by
  unfold objSet objGet
  rw [if_neg (by simpa using hproto)]
  split
  · rename_i hany
    rw [List.find?_map]
    have hp : ((fun e : String × Int => e.1 == k) ∘ fun e => if (e.1 == k) = true then (k, v) else e)
        = (fun e : String × Int => e.1 == k) := by
      funext e
      by_cases he : e.1 = k <;> simp [he]
    rw [hp]
    obtain ⟨e, he, hek⟩ := List.any_eq_true.mp hany
    cases hf : List.find? (fun e : String × Int => e.1 == k) obj with
    | none =>
      rw [List.find?_eq_none] at hf
      exact absurd hek (hf e he)
    | some e1 =>
      have h1 : e1.1 = k := by simpa using List.find?_some hf
      simp [h1]
  · rename_i hany
    have hn : ∀ l : List (String × Int), (∀ e ∈ l, e ∈ obj) →
        List.find? (fun e : String × Int => e.1 == k) l = none := by
      intro l hl
      rw [List.find?_eq_none]
      intro e he hek
      exact hany (List.any_eq_true.mpr ⟨e, hl e he, hek⟩)
    split
    · rw [List.find?_append, hn _ (fun e he => (List.takeWhile_sublist _).subset he)]
      simp
    · rw [List.find?_append, hn obj (fun e he => he)]
      simp

theorem objGet_objSet_other (obj : List (String × Int)) (k k' : String) (v : Int)
    (hk : k' ≠ k) : objGet (objSet obj k v) k' = objGet obj k' := by
  have hk2 : ¬ k = k' := fun h => hk h.symm
  unfold objSet objGet
  split
  · rfl
  split
  · rw [List.find?_map]
    have hp : ((fun e : String × Int => e.1 == k') ∘ fun e => if (e.1 == k) = true then (k, v) else e)
        = (fun e : String × Int => e.1 == k') := by
      funext e
      by_cases he : e.1 = k
      · simp [he, hk2]
      · simp [he]
    rw [hp]
    cases hf : List.find? (fun e : String × Int => e.1 == k') obj with
    | none => rfl
    | some e1 =>
      have h1 : e1.1 = k' := by simpa using List.find?_some hf
      have h2 : ¬ e1.1 = k := by rw [h1]; exact hk
      simp [h2]
  · split
    · rename_i n _
      have hsplit := List.takeWhile_append_dropWhile
        (fun (e : String × Int) =>
          match arrayIndex e.1 with
          | some m => decide (m < n)
          | none => false) obj
      conv_rhs => rw [← hsplit]
      rw [List.find?_append, List.find?_append, List.find?_cons_of_neg _ (by simpa using hk2)]
    · rw [List.find?_append]
      simp [hk2]

theorem objGet_init (cabs : List String) (cabinet other : String) (obj : List (String × Int))
    (hne : other ≠ cabinet) (hproto : other ≠ "__proto__") :
    objGet (cabs.foldl (fun obj cab => if cab != cabinet then objSet obj cab 0 else obj) obj)
        other
      = if other ∈ cabs then some 0 else objGet obj other := by
  induction cabs generalizing obj with
  | nil => simp
  | cons c rest ih =>
    rw [List.foldl_cons, ih]
    by_cases hr : other ∈ rest
    · simp [hr]
    · by_cases hc : other = c
      · subst hc
        simp [hr, hne, objGet_objSet_same _ _ _ hproto]
      · have hc2 : ¬ c = other := fun h => hc h.symm
        simp only [hr, if_false, List.mem_cons, hc, or_self]
        split
        · exact objGet_objSet_other obj c other 0 hc
        · rfl

theorem objGet_foldl_skip (rows : List Balance) (a b : String) (obj : List (String × Int))
    (hno : ∀ r ∈ rows, ¬ ((r.cabinet_from == a && r.cabinet_to == b)
      || (r.cabinet_from == b && r.cabinet_to == a)) = true) :
    objGet (rows.foldl (balancesStep a) obj) b = objGet obj b := by
  induction rows generalizing obj with
  | nil => rfl
  | cons r rest ih =>
    rw [List.foldl_cons, ih _ (fun x hx => hno x (List.mem_cons_of_mem _ hx))]
    have hr := hno r (List.mem_cons_self _ _)
    simp only [Bool.or_eq_true, Bool.and_eq_true, beq_iff_eq, not_or, not_and] at hr
    unfold balancesStep
    by_cases h1 : r.cabinet_from = a
    · have h2 : b ≠ r.cabinet_to := fun h => hr.1 h1 h.symm
      simp [h1, objGet_objSet_other _ _ _ _ h2]
    · by_cases h3 : r.cabinet_to = a
      · have h4 : b ≠ r.cabinet_from := fun h => hr.2 h.symm h3
        simp [h1, h3, objGet_objSet_other _ _ _ _ h4]
      · simp [h1, h3]

theorem pairRows_comm (bs : List Balance) (a b : String) : pairRows bs b a = pairRows bs a b := by
  unfold pairRows
  apply List.filter_congr
  intro r _
  exact Bool.or_comm _ _

theorem pairRows_selected (bs : List Balance) (a b : String) :
    (bs.filter (fun r => r.cabinet_from == a || r.cabinet_to == a)).filter (fun r =>
      (r.cabinet_from == a && r.cabinet_to == b) || (r.cabinet_from == b && r.cabinet_to == a))
      = pairRows bs a b := by
  unfold pairRows
  rw [List.filter_filter]
  apply List.filter_congr
  intro r _
  by_cases h1 : r.cabinet_from = a <;> by_cases h2 : r.cabinet_to = a <;> simp [h1, h2]

theorem reported_no_row (s : Store) (a b : String) (hab : a ≠ b) (hproto : b ≠ "__proto__")
    (hnil : pairRows s.balances a b = []) :
    reported s a b = if b ∈ cabinets then some 0 else none := by
  unfold reported balancesObject
  simp only
  rw [objGet_foldl_skip _ a b _, objGet_init cabinets a b [] (fun h => hab h.symm) hproto]
  · rfl
  · have h := pairRows_selected s.balances a b
    rw [hnil, List.filter_eq_nil_iff] at h
    exact h

theorem reported_one_row (s : Store) (a b : String) (r : Balance) (hab : a ≠ b)
    (hproto : b ≠ "__proto__") (hone : pairRows s.balances a b = [r]) :
    reported s a b = some (if r.cabinet_from = a then r.amount else -r.amount) := by
  have h := pairRows_selected s.balances a b
  rw [hone, List.filter_eq_cons_iff] at h
  obtain ⟨l1, l2, hsplit, hl1, hr, hl2⟩ := h
  unfold reported balancesObject
  simp only
  rw [hsplit, List.foldl_append, List.foldl_cons,
    objGet_foldl_skip l2 a b _ (List.filter_eq_nil_iff.mp hl2)]
  simp only [Bool.or_eq_true, Bool.and_eq_true, beq_iff_eq] at hr
  unfold balancesStep
  rcases hr with ⟨h1, h2⟩ | ⟨h1, h2⟩
  · subst h2
    simp [h1, objGet_objSet_same _ _ _ hproto]
  · subst h1
    have h3 : ¬ r.cabinet_from = a := fun h => hab h.symm
    simp [h3, h2, objGet_objSet_same _ _ _ hproto]

/-- C9.  The balance seen from the other side is the negation: in a balances
table with at most one row per unordered pair, for two distinct cabinets that
are both in the cabinet list or share a balance row, neither of them named
`__proto__` (the one key an assignment of a number does not create on the
reply object), `GET /api/balances/a` reports for `b` a value `v` and
`GET /api/balances/b` reports `-v` for `a`. -/
theorem reported_neg (s : Store) (a b : String) (hab : a ≠ b)
    (ha : a ≠ "__proto__") (hb : b ≠ "__proto__")
    (hone : OneRowPerPair s.balances)
    (hk : (a ∈ cabinets ∧ b ∈ cabinets) ∨ ∃ r ∈ s.balances,
      (r.cabinet_from = a ∧ r.cabinet_to = b) ∨ (r.cabinet_from = b ∧ r.cabinet_to = a)) :
    ∃ v : Int, reported s a b = some v ∧ reported s b a = some (-v) := by
  have hba : b ≠ a := fun h => hab h.symm
  cases hrows : pairRows s.balances a b with
  | nil =>
    have hknown : a ∈ cabinets ∧ b ∈ cabinets := by
      rcases hk with hk | ⟨r, hr, hp⟩
      · exact hk
      · have : r ∈ pairRows s.balances a b := by
          unfold pairRows
          rw [List.mem_filter]
          refine ⟨hr, ?_⟩
          simpa using hp
        rw [hrows] at this
        exact absurd this (List.not_mem_nil _)
    refine ⟨0, ?_, ?_⟩
    · rw [reported_no_row s a b hab hb hrows, if_pos hknown.2]
    · rw [reported_no_row s b a hba ha (by rw [pairRows_comm]; exact hrows), if_pos hknown.1]
      rfl
  | cons r rest =>
    have hlen := hone a b
    rw [hrows] at hlen
    have hrest : rest = [] := by
      cases rest with
      | nil => rfl
      | cons x xs => simp at hlen
    subst hrest
    have hmem : r ∈ pairRows s.balances a b := by rw [hrows]; exact List.mem_singleton.mpr rfl
    unfold pairRows at hmem
    have hp := (List.mem_filter.mp hmem).2
    simp only [Bool.or_eq_true, Bool.and_eq_true, beq_iff_eq] at hp
    refine ⟨if r.cabinet_from = a then r.amount else -r.amount, ?_, ?_⟩
    · exact reported_one_row s a b r hab hb hrows
    · rw [reported_one_row s b a r hba ha (by rw [pairRows_comm]; exact hrows)]
      rcases hp with ⟨h1, _⟩ | ⟨h1, _⟩
      · have h3 : ¬ r.cabinet_from = b := by rw [h1]; exact hab
        simp [h1, hab]
      · have h3 : ¬ r.cabinet_from = a := by rw [h1]; exact hba
        simp [h1, hba]

/-- Witness for C9: with the single row (X, Y, 100.00), X sees 100.00 for Y
and Y sees -100.00 for X. -/
theorem reported_neg_witness :
    reported exStore "X" "Y" = some 10000 ∧ reported exStore "Y" "X" = some (-10000) ∧
    ∃ v : Int, reported exStore "X" "Y" = some v ∧ reported exStore "Y" "X" = some (-v) :=
  ⟨by decide, by decide,
    reported_neg exStore "X" "Y" (by decide) (by decide) (by decide)
      (fun a b => le_trans (List.length_filter_le _ _) (by decide))
      (Or.inr ⟨⟨1, "X", "Y", 10000⟩, by decide, Or.inl ⟨rfl, rfl⟩⟩)⟩

/-! ## Balance initialisation -/

theorem mem_cabinetPairs (l : List String) (x y : String) (h : (x, y) ∈ cabinetPairs l) :
    x ∈ l ∧ y ∈ l := by
  induction l with
  | nil => simp [cabinetPairs] at h
  | cons c rest ih =>
    simp only [cabinetPairs, List.mem_append, List.mem_map, Prod.mk.injEq] at h
    rcases h with ⟨d, hd, rfl, rfl⟩ | h
    · exact ⟨List.mem_cons_self _ _, List.mem_cons_of_mem _ hd⟩
    · exact ⟨List.mem_cons_of_mem _ (ih h).1, List.mem_cons_of_mem _ (ih h).2⟩

theorem ne_of_mem_cabinetPairs (l : List String) (hnd : l.Nodup) (x y : String)
    (h : (x, y) ∈ cabinetPairs l) : x ≠ y := by
  induction l with
  | nil => simp [cabinetPairs] at h
  | cons c rest ih =>
    rw [List.nodup_cons] at hnd
    simp only [cabinetPairs, List.mem_append, List.mem_map, Prod.mk.injEq] at h
    rcases h with ⟨d, hd, rfl, rfl⟩ | h
    · intro hcd
      exact hnd.1 (hcd ▸ hd)
    · exact ih hnd.2 h

theorem nodup_cabinetPairs (l : List String) (hnd : l.Nodup) : (cabinetPairs l).Nodup := by
  induction l with
  | nil => simp [cabinetPairs]
  | cons c rest ih =>
    rw [List.nodup_cons] at hnd
    simp only [cabinetPairs]
    rw [List.nodup_append]
    refine ⟨?_, ih hnd.2, ?_⟩
    · exact List.Nodup.map (fun d1 d2 h => (Prod.mk.injEq _ _ _ _ ▸ h).2) hnd.2
    · intro p hp1 hp2
      rw [List.mem_map] at hp1
      obtain ⟨d, _, rfl⟩ := hp1
      exact hnd.1 (mem_cabinetPairs rest c d hp2).1

theorem length_cabinetPairs (l : List String) :
    (cabinetPairs l).length = l.length * (l.length - 1) / 2 := by
  rw [← Nat.choose_two_right]
  induction l with
  | nil => rfl
  | cons c rest ih =>
    simp only [cabinetPairs, List.length_append, List.length_map, List.length_cons, ih]
    rw [Nat.choose_succ_succ, Nat.choose_one_right]

theorem length_filter_eq_one (l : List String) (hnd : l.Nodup) (b : String) (hb : b ∈ l) :
    (l.filter (fun d => d == b)).length = 1 := by
  rw [← List.countP_eq_length_filter]
  exact List.count_eq_one_of_mem hnd hb

theorem count_cabinetPairs (l : List String) (hnd : l.Nodup) (a b : String)
    (ha : a ∈ l) (hb : b ∈ l) (hab : a ≠ b) :
    ((cabinetPairs l).filter (fun p => (p.1 == a && p.2 == b) || (p.1 == b && p.2 == a))).length
      = 1 := by
  induction l with
  | nil => simp at ha
  | cons c rest ih =>
    rw [List.nodup_cons] at hnd
    simp only [cabinetPairs, List.filter_append, List.length_append, List.filter_map,
      List.length_map]
    have hempty : ∀ x : String, x = c →
        ∀ y : String, (cabinetPairs rest).filter (fun p => (p.1 == x && p.2 == y)
          || (p.1 == y && p.2 == x)) = [] := by
      intro x hx y
      rw [List.filter_eq_nil_iff]
      rintro ⟨p1, p2⟩ hp
      have hm := mem_cabinetPairs rest p1 p2 hp
      have h1 : ¬ p1 = x := fun h => hnd.1 (hx ▸ h ▸ hm.1)
      have h2 : ¬ p2 = x := fun h => hnd.1 (hx ▸ h ▸ hm.2)
      simp [h1, h2]
    by_cases hac : a = c
    · have hbc : ¬ c = b := fun h => hab (hac.trans h)
      have hb2 : b ∈ rest := by
        rcases List.mem_cons.mp hb with h | h
        · exact absurd h.symm hbc
        · exact h
      rw [hempty a hac b]
      have hf : ((fun p : String × String => (p.1 == a && p.2 == b) || (p.1 == b && p.2 == a))
          ∘ fun d => (c, d)) = (fun d => d == b) := by
        funext d
        simp [hac, hbc]
      rw [hf, length_filter_eq_one rest hnd.2 b hb2]
      rfl
    · by_cases hbc : b = c
      · have ha2 : a ∈ rest := by
          rcases List.mem_cons.mp ha with h | h
          · exact absurd h hac
          · exact h
        have hca : ¬ c = a := fun h => hac h.symm
        have hcomm : (cabinetPairs rest).filter (fun p => (p.1 == a && p.2 == b)
            || (p.1 == b && p.2 == a)) = [] := by
          rw [← hempty b hbc a]
          apply List.filter_congr
          intro p _
          exact Bool.or_comm _ _
        rw [hcomm]
        have hf : ((fun p : String × String => (p.1 == a && p.2 == b) || (p.1 == b && p.2 == a))
            ∘ fun d => (c, d)) = (fun d => d == a) := by
          funext d
          simp [hbc, hca]
        rw [hf, length_filter_eq_one rest hnd.2 a ha2]
        rfl
      · have ha2 : a ∈ rest := by
          rcases List.mem_cons.mp ha with h | h
          · exact absurd h hac
          · exact h
        have hb2 : b ∈ rest := by
          rcases List.mem_cons.mp hb with h | h
          · exact absurd h hbc
          · exact h
        have hca : ¬ c = a := fun h => hac h.symm
        have hcb : ¬ c = b := fun h => hbc h.symm
        have hf : ((fun p : String × String => (p.1 == a && p.2 == b) || (p.1 == b && p.2 == a))
            ∘ fun d => (c, d)) = (fun _ => false) := by
          funext d
          simp [hca, hcb]
        rw [hf, ih hnd.2 ha2 hb2]
        simp

theorem insertPairs_ok (ps : List (String × String)) (seq : Nat) (bs : List Balance)
    (hnd : ps.Nodup)
    (hfree : ∀ p ∈ ps, ∀ r ∈ bs, ¬ (r.cabinet_from = p.1 ∧ r.cabinet_to = p.2)) :
    insertPairs ps seq bs = .ok (bs ++ zeroRows seq ps) := by
  induction ps generalizing seq bs with
  | nil => simp [insertPairs, zeroRows]
  | cons p rest ih =>
    rw [List.nodup_cons] at hnd
    have hno : (bs.any fun b => b.cabinet_from == p.1 && b.cabinet_to == p.2) = false := by
      rw [Bool.eq_false_iff]
      intro hany
      obtain ⟨r, hr, hp⟩ := List.any_eq_true.mp hany
      simp only [Bool.and_eq_true, beq_iff_eq] at hp
      exact hfree p (List.mem_cons_self _ _) r hr hp
    simp only [insertPairs, insertBalance, hno, Bool.false_eq_true, if_false, zeroRows]
    rw [ih (seq + 1) _ hnd.2, List.append_assoc]
    · rfl
    · intro q hq r hr
      rcases List.mem_append.mp hr with h | h
      · exact hfree q (List.mem_cons_of_mem _ hq) r h
      · rw [List.mem_singleton] at h
        subst h
        rintro ⟨h1, h2⟩
        exact hnd.1 ((Prod.ext h1 h2 : p = q) ▸ hq)

theorem mem_zeroRows (ps : List (String × String)) (seq : Nat) (r : Balance)
    (h : r ∈ zeroRows seq ps) : r.amount = 0 ∧ (r.cabinet_from, r.cabinet_to) ∈ ps := by
  induction ps generalizing seq with
  | nil => simp [zeroRows] at h
  | cons p rest ih =>
    simp only [zeroRows, List.mem_cons] at h
    rcases h with rfl | h
    · exact ⟨rfl, List.mem_cons_self _ _⟩
    · exact ⟨(ih _ h).1, List.mem_cons_of_mem _ (ih _ h).2⟩

theorem length_zeroRows (ps : List (String × String)) (seq : Nat) :
    (zeroRows seq ps).length = ps.length := by
  induction ps generalizing seq with
  | nil => rfl
  | cons p rest ih => simp [zeroRows, ih]

theorem pairRows_zeroRows (ps : List (String × String)) (seq : Nat) (a b : String) :
    (pairRows (zeroRows seq ps) a b).length
      = (ps.filter (fun p => (p.1 == a && p.2 == b) || (p.1 == b && p.2 == a))).length := by
  induction ps generalizing seq with
  | nil => rfl
  | cons p rest ih =>
    have h := ih (seq + 1)
    unfold pairRows at h ⊢
    simp only [zeroRows, List.filter_cons]
    split <;> simp [h]

/-- C10.  Balance initialisation over a list of pairwise distinct cabinets
runs to the end and leaves, for every unordered pair of distinct cabinets of
the list, exactly one balance row counting both orderings; every row has
amount 0, joins two different cabinets of the list, and the table has
n(n-1)/2 rows and at most one row per unordered pair. -/
theorem clearDataFor_balances (cabs : List String) (s : Store) (hnd : cabs.Nodup) :
    ∃ s1 : Store, clearDataFor cabs s = .ok s1 ∧
      s1.balances.length = cabs.length * (cabs.length - 1) / 2 ∧
      (∀ r ∈ s1.balances, r.amount = 0 ∧ r.cabinet_from ≠ r.cabinet_to ∧
        r.cabinet_from ∈ cabs ∧ r.cabinet_to ∈ cabs) ∧
      (∀ a b : String, a ∈ cabs → b ∈ cabs → a ≠ b → (pairRows s1.balances a b).length = 1) ∧
      OneRowPerPair s1.balances := by
  have hins : insertPairs (cabinetPairs cabs) 1 [] = .ok (zeroRows 1 (cabinetPairs cabs)) := by
    rw [insertPairs_ok _ 1 [] (nodup_cabinetPairs cabs hnd) (fun _ _ r hr => by simp at hr)]
    rfl
  have hrow : ∀ r ∈ zeroRows 1 (cabinetPairs cabs), r.amount = 0 ∧
      r.cabinet_from ≠ r.cabinet_to ∧ r.cabinet_from ∈ cabs ∧ r.cabinet_to ∈ cabs := by
    intro r hr
    obtain ⟨h0, hp⟩ := mem_zeroRows _ _ r hr
    exact ⟨h0, ne_of_mem_cabinetPairs cabs hnd _ _ hp, mem_cabinetPairs cabs _ _ hp⟩
  have hone : ∀ a b : String, a ∈ cabs → b ∈ cabs → a ≠ b →
      (pairRows (zeroRows 1 (cabinetPairs cabs)) a b).length = 1 := by
    intro a b ha hb hab
    rw [pairRows_zeroRows, count_cabinetPairs cabs hnd a b ha hb hab]
  refine ⟨{ s with hidden_withdrawals := [], hidden_orders := [], withdrawals := [],
                   order_requests := [], orders := [],
                   balances := zeroRows 1 (cabinetPairs cabs) }, ?_, ?_, hrow, hone, ?_⟩
  · unfold clearDataFor
    simp only
    rw [hins]
  · show (zeroRows 1 (cabinetPairs cabs)).length = _
    rw [length_zeroRows, length_cabinetPairs]
  · intro a b
    show (pairRows (zeroRows 1 (cabinetPairs cabs)) a b).length ≤ 1
    by_cases hmem : a ∈ cabs ∧ b ∈ cabs ∧ a ≠ b
    · exact le_of_eq (hone a b hmem.1 hmem.2.1 hmem.2.2)
    · have hnil : pairRows (zeroRows 1 (cabinetPairs cabs)) a b = [] := by
        unfold pairRows
        rw [List.filter_eq_nil_iff]
        intro r hr hp
        obtain ⟨_, hne, hf, ht⟩ := hrow r hr
        simp only [Bool.or_eq_true, Bool.and_eq_true, beq_iff_eq] at hp
        rcases hp with ⟨h1, h2⟩ | ⟨h1, h2⟩
        · exact hmem ⟨h1 ▸ hf, h2 ▸ ht, fun h => hne (h1.trans (h.trans h2.symm))⟩
        · exact hmem ⟨h2 ▸ ht, h1 ▸ hf, fun h => hne (h1.trans (h.symm.trans h2.symm))⟩
      rw [hnil]
      exact Nat.zero_le _

/-- Witness for C10: the six cabinets of the script give 15 rows, and the
first two cabinets share exactly one row. -/
theorem clearDataFor_balances_witness :
    cabinets.Nodup ∧
    ∃ s1 : Store, clearData exStore = .ok s1 ∧ s1.balances.length = 15 ∧
      (∀ r ∈ s1.balances, r.amount = 0 ∧ r.cabinet_from ≠ r.cabinet_to ∧
        r.cabinet_from ∈ cabinets ∧ r.cabinet_to ∈ cabinets) ∧
      (∀ a b : String, a ∈ cabinets → b ∈ cabinets → a ≠ b →
        (pairRows s1.balances a b).length = 1) ∧
      OneRowPerPair s1.balances :=
  ⟨by decide, clearDataFor_balances cabinets exStore (by decide)⟩

/-! ## The balances table under every request -/

theorem map_balanceKey_setAmount (bs : List Balance) (p : Balance → Bool) (x : Int) :
    (bs.map (fun b => if p b then { b with amount := x } else b)).map balanceKey
      = bs.map balanceKey := by
  rw [List.map_map]
  apply List.map_congr_left
  intro b _
  simp only [Function.comp]
  split <;> rfl

theorem payOrder_keys (s : Store) (id : Nat) (receipts : Option (List String)) :
    (payOrder s id receipts).2.balances.map balanceKey = s.balances.map balanceKey := by
  unfold payOrder
  split
  · rfl
  · split
    · rfl
    · simp only
      split
      · split_ifs <;> first | exact map_balanceKey_setAmount _ _ _ | rfl
      · rfl

theorem confirmWithdrawal_keys (s : Store) (id : Nat) (txid : Option String) :
    (confirmWithdrawal s id txid).2.balances.map balanceKey = s.balances.map balanceKey := by
  unfold confirmWithdrawal
  split
  · rfl
  · split
    · rfl
    · simp only
      split
      · split_ifs <;> first | exact map_balanceKey_setAmount _ _ _ | rfl
      · rfl

theorem updateBalance_keys (s : Store) (newId now id : Nat) (amount : Int)
    (admin_name comment : Option String) :
    (updateBalance s newId now id amount admin_name comment).2.balances.map balanceKey
      = s.balances.map balanceKey := by
  unfold updateBalance
  split
  · rfl
  · split
    · rfl
    · split
      · rfl
      · split
        · rfl
        · split
          · rfl
          · split
            · split <;> exact map_balanceKey_setAmount _ _ _
            · rfl

theorem createOrder_balances (s : Store) (newId now : Nat) (body : OrderBody) :
    (createOrder s newId now body).2.balances = s.balances := by
  unfold createOrder
  split
  · rfl
  · simp only
    split
    · split_ifs <;> rfl
    · rfl

theorem createOrderRequest_balances (s : Store) (newId now : Nat)
    (from_cabinet to_cabinet : String) (amount : Int) (type : String) :
    (createOrderRequest s newId now from_cabinet to_cabinet amount type).2.balances
      = s.balances := by
  unfold createOrderRequest
  split
  · split <;> rfl
  · rfl

theorem createWithdrawal_balances (s : Store) (newId now : Nat)
    (from_cabinet to_cabinet : String) (amount : Int) (address : String) :
    (createWithdrawal s newId now from_cabinet to_cabinet amount address).2.balances
      = s.balances := by
  unfold createWithdrawal
  split
  · split <;> rfl
  · rfl

theorem loginSession_balances (s : Store) (logId rowId now : Nat) (sessionId : String)
    (req : ClientRequest) (key : String) :
    (loginSession s logId rowId now sessionId req key).2.balances = s.balances := by
  unfold loginSession
  simp only
  split
  · split
    · split <;> rfl
    · split
      · rfl
      · split <;> rfl
  · split <;> rfl

theorem telegramLogin_balances (cr : Crypto) (s : Store) (newId now : Nat)
    (authData : List (String × JsValue)) :
    (telegramLogin cr s newId now authData).2.balances = s.balances := by
  unfold telegramLogin
  split
  · rfl
  · split
    · rfl
    · split <;> rfl

/-- C11.  No request inserts or deletes a balance row: after every request
the table holds the same rows by id and cabinets, in the same places.  A
request other than order settlement, withdrawal confirmation and admin
adjustment leaves the balances table as it is; that covers order create and
cancel, hide, Order-Request create and delete, withdrawal create and delete,
the history and listing queries and both logins. -/
theorem balances_frame (env : Env) (s : Store) (req : Request) :
    (handle env s req).2.balances.map balanceKey = s.balances.map balanceKey ∧
    (req.writesBalance = false → (handle env s req).2.balances = s.balances) := by
  cases req with
  | payOrder id receipts =>
    exact ⟨payOrder_keys s id receipts, fun h => by simp [Request.writesBalance] at h⟩
  | confirmWithdrawal id txid =>
    exact ⟨confirmWithdrawal_keys s id txid, fun h => by simp [Request.writesBalance] at h⟩
  | updateBalance id amount admin_name comment =>
    exact ⟨updateBalance_keys s _ _ id amount admin_name comment,
      fun h => by simp [Request.writesBalance] at h⟩
  | createOrder body =>
    have h := createOrder_balances s env.newId env.now body
    exact ⟨congrArg _ h, fun _ => h⟩
  | cancelOrder id =>
    have h := cancelOrder_balances s id
    exact ⟨congrArg _ h, fun _ => h⟩
  | loginSession req key =>
    have h := loginSession_balances s env.newId env.newId2 env.now env.randomHex req key
    exact ⟨congrArg _ h, fun _ => h⟩
  | telegramLogin authData =>
    have h := telegramLogin_balances env.crypto s env.newId env.now authData
    exact ⟨congrArg _ h, fun _ => h⟩
  | hideOrder id cabinet =>
    have h : (hideOrder s env.newId id cabinet).2.balances = s.balances := by
      unfold hideOrder; split <;> rfl
    exact ⟨congrArg _ h, fun _ => h⟩
  | hideWithdrawal id cabinet =>
    have h : (hideWithdrawal s env.newId id cabinet).2.balances = s.balances := by
      unfold hideWithdrawal; split <;> rfl
    exact ⟨congrArg _ h, fun _ => h⟩
  | login key =>
    have h : (login s env.now key).2.balances = s.balances := by
      unfold login; split <;> rfl
    exact ⟨congrArg _ h, fun _ => h⟩
  | createKey access_key cabinet description =>
    have h : (createKey s env.newId env.now access_key cabinet description).2.balances
        = s.balances := by
      unfold createKey; split <;> rfl
    exact ⟨congrArg _ h, fun _ => h⟩
  | bindCabinet telegram_id cabinet =>
    have h : (bindCabinet s env.now telegram_id cabinet).2.balances = s.balances := by
      unfold bindCabinet; split <;> rfl
    exact ⟨congrArg _ h, fun _ => h⟩
  | heartbeat sessionId =>
    have h : (heartbeat s env.now sessionId).2.balances = s.balances := by
      unfold heartbeat; simp only; split <;> rfl
    exact ⟨congrArg _ h, fun _ => h⟩
  | convertReceipts _ => exact ⟨rfl, fun _ => rfl⟩
  | getHistory _ => exact ⟨rfl, fun _ => rfl⟩
  | getAdminHistory _ => exact ⟨rfl, fun _ => rfl⟩
  | getBalances _ => exact ⟨rfl, fun _ => rfl⟩
  | getAllBalances => exact ⟨rfl, fun _ => rfl⟩
  | getOrders _ => exact ⟨rfl, fun _ => rfl⟩
  | getOrderRequests => exact ⟨rfl, fun _ => rfl⟩
  | createOrderRequest from_cabinet to_cabinet amount type =>
    have h := createOrderRequest_balances s env.newId env.now from_cabinet to_cabinet amount type
    exact ⟨congrArg _ h, fun _ => h⟩
  | deleteOrderRequest _ => exact ⟨rfl, fun _ => rfl⟩
  | getWithdrawals _ => exact ⟨rfl, fun _ => rfl⟩
  | createWithdrawal from_cabinet to_cabinet amount address =>
    have h := createWithdrawal_balances s env.newId env.now from_cabinet to_cabinet amount
      address
    exact ⟨congrArg _ h, fun _ => h⟩
  | deleteWithdrawal _ => exact ⟨rfl, fun _ => rfl⟩
  | getKeys => exact ⟨rfl, fun _ => rfl⟩
  | deactivateKey _ => exact ⟨rfl, fun _ => rfl⟩
  | activateKey _ => exact ⟨rfl, fun _ => rfl⟩
  | deleteKey _ => exact ⟨rfl, fun _ => rfl⟩
  | getTelegramUsers => exact ⟨rfl, fun _ => rfl⟩
  | logout _ => exact ⟨rfl, fun _ => rfl⟩
  | forceLogout _ => exact ⟨rfl, fun _ => rfl⟩
  | sweepSessions => exact ⟨rfl, fun _ => rfl⟩

/-- Witness for C11: cancelling order 1 of `exStore` writes no balance and
leaves the table as it is. -/
theorem balances_frame_witness :
    (Request.cancelOrder 1).writesBalance = false ∧
    (handle exEnv exStore (.cancelOrder 1)).2.balances = [⟨1, "X", "Y", 10000⟩] :=
  ⟨rfl, (balances_frame exEnv exStore (.cancelOrder 1)).2 rfl⟩

/-! ## Admin adjustment -/

theorem jsTrim_blank (text : String) (h : text.toList.all jsWhiteSpace = true) :
    jsTrim text = "" := by
  unfold jsTrim
  have h1 : text.toList.dropWhile jsWhiteSpace = [] := by
    rw [List.dropWhile_eq_nil_iff]
    intro c hc
    exact List.all_eq_true.mp h c hc
  rw [h1]
  rfl

theorem updateBalance_valid (s : Store) (newId now id : Nat) (amount : Int)
    (admin text : String) (ha : admin ≠ "") (hc : jsTrim text ≠ "") :
    updateBalance s newId now id amount (some admin) (some text)
      = match (s.balances.filter (fun b => b.id == id)).head? with
        | none => (⟨404, .error "Баланс не знайдено"⟩, s)
        | some balance =>
          if fitsDecimal amount then
            match varchar 50 admin with
            | some name =>
              (⟨200, .success⟩,
                { s with
                  balances := s.balances.map (fun b =>
                    if b.id == id then { b with amount := amount } else b),
                  admin_logs := s.admin_logs ++
                    [{ id := newId, admin_name := name, action_type := "balance_update",
                       cabinet_from := some balance.cabinet_from,
                       cabinet_to := some balance.cabinet_to,
                       amount_old := some balance.amount, amount_new := some amount,
                       comment := some (jsTrim text), created_at := now }] })
            | none =>
              (⟨500, .error "Помилка оновлення балансу"⟩,
                { s with balances := s.balances.map (fun b =>
                    if b.id == id then { b with amount := amount } else b) })
          else (⟨500, .error "Помилка оновлення балансу"⟩, s) := by
  have ht : text ≠ "" := by
    intro h
    apply hc
    rw [h]
    rfl
  have h1 : (admin == "") = false := by simpa using ha
  have h2 : (text == "" || jsTrim text == "") = false := by simp [ht, hc]
  unfold updateBalance
  simp only [h1, h2, Bool.false_eq_true, if_false]

/-- C12.  An admin adjustment whose `admin_name` is missing or empty, or whose
`comment` is missing, empty or made of white space only, replies 400 and
returns the store as it was: no amount is written and no log row appended. -/
theorem updateBalance_rejects (s : Store) (newId now id : Nat) (amount : Int)
    (admin_name comment : Option String)
    (h : admin_name = none ∨ admin_name = some "" ∨ comment = none
      ∨ ∃ text, comment = some text ∧ text.toList.all jsWhiteSpace = true) :
    (updateBalance s newId now id amount admin_name comment).1.status = 400 ∧
    (updateBalance s newId now id amount admin_name comment).2 = s := by
  unfold updateBalance
  rcases h with h | h | h | ⟨text, h, hws⟩
  · subst h
    exact ⟨rfl, rfl⟩
  · subst h
    exact ⟨rfl, rfl⟩
  · subst h
    cases admin_name with
    | none => exact ⟨rfl, rfl⟩
    | some admin =>
      simp only
      split <;> exact ⟨rfl, rfl⟩
  · subst h
    have hb := jsTrim_blank text hws
    cases admin_name with
    | none => exact ⟨rfl, rfl⟩
    | some admin =>
      simp only
      split
      · exact ⟨rfl, rfl⟩
      · simp [hb]

/-- Witness for C12: an empty `admin_name`, and a comment of a space, a tab
and a line feed. -/
theorem updateBalance_rejects_witness :
    ((updateBalance exBalanceStore 1 0 1 500 (some "") (some "note")).1.status = 400 ∧
      (updateBalance exBalanceStore 1 0 1 500 (some "") (some "note")).2 = exBalanceStore) ∧
    ((updateBalance exBalanceStore 1 0 1 500 (some "root") (some " \t\n")).1.status = 400 ∧
      (updateBalance exBalanceStore 1 0 1 500 (some "root") (some " \t\n")).2
        = exBalanceStore) :=
  ⟨updateBalance_rejects exBalanceStore 1 0 1 500 (some "") (some "note") (Or.inr (Or.inl rfl)),
    updateBalance_rejects exBalanceStore 1 0 1 500 (some "root") (some " \t\n")
      (Or.inr (Or.inr (Or.inr ⟨" \t\n", rfl, by decide⟩)))⟩

/-- C13.  For an existing balance row `b` with id `id`, a non-empty
`admin_name` of at most 50 characters (column `admin_name VARCHAR(50)`), a
comment that is not blank and a new amount the column `DECIMAL(10, 2)` takes,
the admin adjustment replies success, writes the new amount into the rows
with that id and into no other row, and appends exactly one log row: action
`balance_update`, the cabinets of `b`, `amount_old` the amount of `b`,
`amount_new` the new amount, the actor, and the trimmed comment.  Nothing
else in the store changes. -/
theorem updateBalance_applies (s : Store) (newId now id : Nat) (amount : Int)
    (admin text : String) (b : Balance)
    (hb : (s.balances.filter (fun r => r.id == id)).head? = some b)
    (ha : admin ≠ "") (hc : jsTrim text ≠ "")
    (hlen : admin.length ≤ 50) (hfit : fitsDecimal amount = true) :
    updateBalance s newId now id amount (some admin) (some text)
      = (⟨200, .success⟩,
          { s with
            balances := s.balances.map (fun r =>
              if r.id == id then { r with amount := amount } else r),
            admin_logs := s.admin_logs ++
              [{ id := newId, admin_name := admin, action_type := "balance_update",
                 cabinet_from := some b.cabinet_from, cabinet_to := some b.cabinet_to,
                 amount_old := some b.amount, amount_new := some amount,
                 comment := some (jsTrim text), created_at := now }] }) := by
  rw [updateBalance_valid s newId now id amount admin text ha hc, hb]
  simp only [hfit, if_true]
  rw [varchar_fits 50 admin (by simpa [fitsVarchar] using hlen)]

/-- Witness for C13: row (X, Y, 100.00) set to 5.00 by `root` with the
comment ` fix `, logged as `fix`. -/
theorem updateBalance_applies_witness :
    updateBalance exBalanceStore 7 9 1 500 (some "root") (some " fix ")
      = (⟨200, .success⟩,
          { Store.empty with
            balances := [⟨1, "X", "Y", 500⟩],
            admin_logs := [{ id := 7, admin_name := "root", action_type := "balance_update",
                             cabinet_from := some "X", cabinet_to := some "Y",
                             amount_old := some 10000, amount_new := some 500,
                             comment := some "fix", created_at := 9 }] }) :=
  updateBalance_applies exBalanceStore 7 9 1 500 "root" " fix " ⟨1, "X", "Y", 10000⟩
    (by decide) (by decide) (by decide) (by decide) (by decide)

/-- C14, as stated: an admin adjustment addressed to an absent balance id
replies 404.  The statement is false: the two checks of the body come first,
and a request with an empty `admin_name` is answered 400. -/
theorem updateBalance_absent_not_always_404 :
    ¬ ∀ (s : Store) (newId now id : Nat) (amount : Int) (admin_name comment : Option String),
      (∀ b ∈ s.balances, b.id ≠ id) →
      (updateBalance s newId now id amount admin_name comment).1.status = 404 ∧
      (updateBalance s newId now id amount admin_name comment).2 = s := by
  intro h
  have h1 := h exBalanceStore 1 0 99 500 (some "") (some "note") (by decide)
  revert h1
  decide

/-- C14, amended.  An admin adjustment addressed to a balance id absent from
the store returns the store as it was, and when its `admin_name` is not empty
and its comment not blank it replies 404 with the not-found error. -/
theorem updateBalance_absent (s : Store) (newId now id : Nat) (amount : Int)
    (admin_name comment : Option String) (hid : ∀ b ∈ s.balances, b.id ≠ id) :
    (updateBalance s newId now id amount admin_name comment).2 = s ∧
    (∀ admin text : String, admin_name = some admin → comment = some text →
      admin ≠ "" → jsTrim text ≠ "" →
      (updateBalance s newId now id amount admin_name comment).1
        = ⟨404, .error "Баланс не знайдено"⟩) := by
  have hnil : s.balances.filter (fun b => b.id == id) = [] := by
    rw [List.filter_eq_nil_iff]
    intro b hb
    simpa using hid b hb
  constructor
  · unfold updateBalance
    rw [hnil]
    split
    · rfl
    · split
      · rfl
      · split
        · rfl
        · split <;> rfl
  · intro admin text h1 h2 ha hc
    subst h1 h2
    rw [updateBalance_valid s newId now id amount admin text ha hc, hnil]
    rfl

/-- Witness for C14, amended: id 99 on a store whose only balance has id 1. -/
theorem updateBalance_absent_witness :
    (updateBalance exBalanceStore 1 0 99 500 (some "root") (some "note")).2 = exBalanceStore ∧
    (updateBalance exBalanceStore 1 0 99 500 (some "root") (some "note")).1
      = ⟨404, .error "Баланс не знайдено"⟩ :=
  have h := updateBalance_absent exBalanceStore 1 0 99 500 (some "root") (some "note")
    (by decide)
  ⟨h.1, h.2 "root" "note" rfl rfl (by decide) (by decide)⟩

/-! ## Ids that select no row -/

theorem payOrder_absent (s : Store) (id : Nat) (receipts : Option (List String))
    (h : orderById s id = none) :
    payOrder s id receipts = (⟨500, .error "Помилка оплати ордеру"⟩, s) := by
  unfold orderById at h
  unfold payOrder
  rw [h]

theorem cancelOrder_absent (s : Store) (id : Nat) (h : orderById s id = none) :
    (cancelOrder s id).1 = ⟨500, .error "Помилка скасування ордеру"⟩ := by
  unfold orderById at h
  unfold cancelOrder
  simp only
  rw [h]

theorem confirmWithdrawal_absent (s : Store) (id : Nat) (txid : Option String)
    (h : withdrawalById s id = none) :
    confirmWithdrawal s id txid = (⟨500, .error "Помилка підтвердження виводу"⟩, s) := by
  unfold withdrawalById at h
  unfold confirmWithdrawal
  rw [h]

/-- C15, evaluated.  On a store whose only order and only balance have id 1
and that has no withdrawal, settle, cancel and confirm addressed to id 99
reply 500 with the error of the `catch` arm, not 404, and leave the store as
it was; the admin adjustment addressed to the absent balance 99 replies 404. -/
theorem absent_id_replies_500 :
    orderById exStore 99 = none ∧ withdrawalById exStore 99 = none ∧
    payOrder exStore 99 none = (⟨500, .error "Помилка оплати ордеру"⟩, exStore) ∧
    cancelOrder exStore 99 = (⟨500, .error "Помилка скасування ордеру"⟩, exStore) ∧
    confirmWithdrawal exStore 99 none
      = (⟨500, .error "Помилка підтвердження виводу"⟩, exStore) ∧
    (updateBalance exStore 1 0 99 500 (some "root") (some "note")).1.status = 404 := by
  decide

/-! ## Hiding -/

theorem mem_sortDesc {α : Type} (f : α → Nat) (l : List α) (x : α) :
    x ∈ sortDesc f l ↔ x ∈ l := by
  unfold sortDesc
  exact List.mem_insertionSort _

theorem hideOrder_hidden (s : Store) (newId id : Nat) (cabinet : String) :
    (((hideOrder s newId id cabinet).2.hidden_orders.filter (fun h => h.cabinet == cabinet)).map
      (fun h => h.order_id)).contains id = true := by
  rw [List.contains_iff_exists_mem_beq]
  unfold hideOrder
  split
  · rename_i hany
    obtain ⟨h, hh, hp⟩ := List.any_eq_true.mp hany
    simp only [Bool.and_eq_true, beq_iff_eq] at hp
    refine ⟨h.order_id, ?_, by simp [hp.2]⟩
    rw [List.mem_map]
    exact ⟨h, List.mem_filter.mpr ⟨hh, by simp [hp.1]⟩, rfl⟩
  · refine ⟨id, ?_, by simp⟩
    rw [List.mem_map]
    exact ⟨⟨newId, cabinet, id⟩, List.mem_filter.mpr ⟨by simp, by simp⟩, rfl⟩

theorem hideOrder_other (s : Store) (newId id : Nat) (a b : String) (hab : a ≠ b) :
    (hideOrder s newId id a).2.hidden_orders.filter (fun h => h.cabinet == b)
      = s.hidden_orders.filter (fun h => h.cabinet == b) := by
  unfold hideOrder
  split
  · rfl
  · simp [List.filter_append, hab]

/-- C16.  Hiding is unilateral and local: for an order `o` of the store
between two distinct cabinets `a` and `b`, after `a` hides it no row with the
id of `o` is in the listing of `a`, the listing of `b` is what it was, and
the orders table (so the status of `o`) and the balances table are
unchanged. -/
theorem hideOrder_local (s : Store) (newId : Nat) (o : Order) (a b : String)
    (_ho : o ∈ s.orders)
    (_hbetween : (o.from_cabinet = a ∧ o.to_cabinet = b)
      ∨ (o.from_cabinet = b ∧ o.to_cabinet = a))
    (hab : a ≠ b) :
    (∀ x ∈ listOrders (hideOrder s newId o.id a).2 a, x.id ≠ o.id) ∧
    listOrders (hideOrder s newId o.id a).2 b = listOrders s b ∧
    (hideOrder s newId o.id a).2.orders = s.orders ∧
    (hideOrder s newId o.id a).2.balances = s.balances := by
  have horders : (hideOrder s newId o.id a).2.orders = s.orders := by
    unfold hideOrder; split <;> rfl
  have hbal : (hideOrder s newId o.id a).2.balances = s.balances := by
    unfold hideOrder; split <;> rfl
  refine ⟨?_, ?_, horders, hbal⟩
  · intro x hx hid
    unfold listOrders at hx
    rw [mem_sortDesc, List.mem_filter] at hx
    have h2 := hx.2
    rw [hid, hideOrder_hidden s newId o.id a] at h2
    simp at h2
  · unfold listOrders
    rw [horders, hideOrder_other s newId o.id a b hab]

/-- Witness for C16: X hides order 1 of `exStore`; it leaves the listing of X
and stays in the listing of Y. -/
theorem hideOrder_local_witness :
    listOrders exStore "X" = [exOrder] ∧
    listOrders (hideOrder exStore 1 1 "X").2 "X" = [] ∧
    listOrders (hideOrder exStore 1 1 "X").2 "Y" = [exOrder] ∧
    ((∀ x ∈ listOrders (hideOrder exStore 1 exOrder.id "X").2 "X", x.id ≠ exOrder.id) ∧
      listOrders (hideOrder exStore 1 exOrder.id "X").2 "Y" = listOrders exStore "Y" ∧
      (hideOrder exStore 1 exOrder.id "X").2.orders = exStore.orders ∧
      (hideOrder exStore 1 exOrder.id "X").2.balances = exStore.balances) :=
  ⟨by decide, by decide, by decide,
    hideOrder_local exStore 1 exOrder "X" "Y" (by decide) (Or.inl ⟨rfl, rfl⟩) (by decide)⟩

/-! ## History -/

theorem sortDesc_sorted {α : Type} (f : α → Nat) (l : List α) :
    (sortDesc f l).Pairwise (fun a b => f b ≤ f a) := by
  unfold sortDesc
  haveI : IsTotal α (fun a b => f b ≤ f a) := ⟨fun a b => Nat.le_total (f b) (f a)⟩
  haveI : IsTrans α (fun a b => f b ≤ f a) := ⟨fun _ _ _ h1 h2 => Nat.le_trans h2 h1⟩
  exact List.sorted_insertionSort _ l

theorem sortDesc_perm {α : Type} (f : α → Nat) (l : List α) : (sortDesc f l).Perm l := by
  unfold sortDesc
  exact List.perm_insertionSort _ l

/-- C17.  The arrays sent by `GET /api/history/:cabinet` and by
`GET /api/admin/history`, for every store and every cabinet or optional
filter, are in non-increasing order of `created_at` across the three kinds of
entry: each entry is at least as recent as every later one, and so each two
adjacent entries are in that order. -/
theorem history_sorted (s : Store) (cabinet : String) (filter : Option String) :
    (cabinetHistory s cabinet).Pairwise (fun a b => b.created_at ≤ a.created_at) ∧
    (cabinetHistory s cabinet).Chain' (fun a b => b.created_at ≤ a.created_at) ∧
    (adminHistory s filter).Pairwise (fun a b => b.created_at ≤ a.created_at) ∧
    (adminHistory s filter).Chain' (fun a b => b.created_at ≤ a.created_at) := by
  have h1 : (cabinetHistory s cabinet).Pairwise (fun a b => b.created_at ≤ a.created_at) :=
    sortDesc_sorted _ _
  have h2 : (adminHistory s filter).Pairwise (fun a b => b.created_at ≤ a.created_at) :=
    sortDesc_sorted _ _
  exact ⟨h1, List.Pairwise.chain' h1, h2, List.Pairwise.chain' h2⟩

/-- C18.  The array sent by `GET /api/history/c` is a permutation of: the
completed orders that touch `c`, the completed withdrawals that touch `c`,
and the `balance_update` rows of `admin_logs` that touch `c`, each row as the
entry of its selected columns.  Nothing is dropped, duplicated or added. -/
theorem cabinetHistory_perm (s : Store) (c : String) :
    (cabinetHistory s c).Perm
      ((s.orders.filter (fun o =>
          o.status == "completed" && (o.from_cabinet == c || o.to_cabinet == c))).map
          (fun o => HistoryEntry.order (HistoryOrder.ofOrder o))
        ++ (s.withdrawals.filter (fun w =>
          w.status == "completed" && (w.from_cabinet == c || w.to_cabinet == c))).map
          (fun w => HistoryEntry.withdrawal (HistoryWithdrawal.ofWithdrawal w))
        ++ (s.admin_logs.filter (fun l =>
          l.action_type == "balance_update"
            && (l.cabinet_from == some c || l.cabinet_to == some c))).map
          (fun l => HistoryEntry.balance_adjustment (HistoryAdjustment.ofAdminLog l))) := by
  unfold cabinetHistory
  simp only
  refine (sortDesc_perm _ _).trans ?_
  exact List.Perm.append
    (List.Perm.append ((sortDesc_perm _ _).map _) ((sortDesc_perm _ _).map _))
    ((sortDesc_perm _ _).map _)

/-- C19, evaluated.  On a store whose only order is pending,
`GET /api/admin/history` sends that order, status `pending`, with no filter
and with the filter `X`, while `GET /api/history/X` sends nothing. -/
theorem adminHistory_sends_pending :
    exOrder.status = "pending" ∧
    adminHistory exStore none = [.order (HistoryOrder.ofOrder exOrder)] ∧
    adminHistory exStore (some "X") = [.order (HistoryOrder.ofOrder exOrder)] ∧
    (HistoryOrder.ofOrder exOrder).status = "pending" ∧
    cabinetHistory exStore "X" = [] := by
  decide

/-! ## Key login -/

theorem login_hit (s : Store) (now : Nat) (key : String) (keyData : AccessKey)
    (h : (s.access_keys.filter (fun k => k.access_key == key && k.is_active)).head?
      = some keyData) :
    login s now key = (⟨200, .loggedIn keyData.cabinet⟩,
      { s with access_keys := s.access_keys.map (fun k =>
        if k.id == keyData.id then { k with last_used := some now } else k) }) := by
  unfold login
  rw [h]

theorem login_miss (s : Store) (now : Nat) (key : String)
    (h : (s.access_keys.filter (fun k => k.access_key == key && k.is_active)).head? = none) :
    login s now key = (⟨200, .failure "Невірний ключ доступу"⟩, s) := by
  unfold login
  rw [h]

/-- C20.  Key login of `server.js` succeeds exactly when `access_keys` holds a
row with that `access_key` and `is_active` true.  Then the reply is success
with the cabinet of the matched row `keyData` and the store differs only in
`last_used` of the rows with the id of `keyData`, set to now.  Otherwise the
reply is the failure with the wrong-key error and the store is unchanged. -/
theorem login_spec (s : Store) (now : Nat) (key : String) :
    ((∃ cabinet, (login s now key).1 = ⟨200, .loggedIn cabinet⟩)
      ↔ ∃ k ∈ s.access_keys, k.access_key = key ∧ k.is_active = true) ∧
    (∀ keyData,
      (s.access_keys.filter (fun k => k.access_key == key && k.is_active)).head?
        = some keyData →
      keyData ∈ s.access_keys ∧ keyData.access_key = key ∧ keyData.is_active = true ∧
      login s now key = (⟨200, .loggedIn keyData.cabinet⟩,
        { s with access_keys := s.access_keys.map (fun k =>
          if k.id == keyData.id then { k with last_used := some now } else k) })) ∧
    ((¬ ∃ k ∈ s.access_keys, k.access_key = key ∧ k.is_active = true) →
      login s now key = (⟨200, .failure "Невірний ключ доступу"⟩, s)) := by
  have hmem : ∀ keyData,
      (s.access_keys.filter (fun k => k.access_key == key && k.is_active)).head?
        = some keyData →
      keyData ∈ s.access_keys ∧ keyData.access_key = key ∧ keyData.is_active = true := by
    intro keyData h
    have hm := List.mem_filter.mp (List.mem_of_mem_head? h)
    have hp := hm.2
    simp only [Bool.and_eq_true, beq_iff_eq] at hp
    exact ⟨hm.1, hp.1, hp.2⟩
  have hnone : (¬ ∃ k ∈ s.access_keys, k.access_key = key ∧ k.is_active = true) →
      (s.access_keys.filter (fun k => k.access_key == key && k.is_active)).head? = none := by
    intro hno
    have hnil : s.access_keys.filter (fun k => k.access_key == key && k.is_active) = [] := by
      rw [List.filter_eq_nil_iff]
      intro k hk hp
      simp only [Bool.and_eq_true, beq_iff_eq] at hp
      exact hno ⟨k, hk, hp⟩
    rw [hnil]
    rfl
  refine ⟨⟨?_, ?_⟩, ?_, ?_⟩
  · rintro ⟨cabinet, hc⟩
    by_contra hno
    rw [login_miss s now key (hnone hno)] at hc
    simp at hc
  · rintro ⟨k, hk, hkey, hact⟩
    cases hh : (s.access_keys.filter (fun k => k.access_key == key && k.is_active)).head? with
    | none =>
      rw [List.head?_eq_none_iff, List.filter_eq_nil_iff] at hh
      exact absurd (by simp [hkey, hact]) (hh k hk)
    | some keyData => exact ⟨keyData.cabinet, by rw [login_hit s now key keyData hh]⟩
  · intro keyData h
    obtain ⟨h1, h2, h3⟩ := hmem keyData h
    exact ⟨h1, h2, h3, login_hit s now key keyData h⟩
  · intro hno
    exact login_miss s now key (hnone hno)

/-- Witness for C20: the active key of Z logs in and gets `last_used`; the
deactivated key of W and an unknown key are refused and change nothing. -/
theorem login_spec_witness :
    login exKeyStore 9 "zKey" = (⟨200, .loggedIn "Z"⟩,
      { exKeyStore with access_keys := [exOffKey, { exKey with last_used := some 9 }] }) ∧
    login exKeyStore 9 "wKey" = (⟨200, .failure "Невірний ключ доступу"⟩, exKeyStore) ∧
    login exKeyStore 9 "nope" = (⟨200, .failure "Невірний ключ доступу"⟩, exKeyStore) :=
  ⟨((login_spec exKeyStore 9 "zKey").2.1 exKey (by decide)).2.2.2,
    (login_spec exKeyStore 9 "wKey").2.2 (by decide),
    (login_spec exKeyStore 9 "nope").2.2 (by decide)⟩

/-! ## Settlement without a balance row -/

/-- C25.  When no balance row exists for the pair of an order that is not
completed, in either ordering, settling the order replies success, leaves the
order completed, and returns the balances table as it was, so no row is
created; and likewise for confirming a withdrawal that is not completed. -/
theorem settle_without_row (s : Store) (id : Nat) (receipts : Option (List String))
    (txid : Option String) :
    (∀ o : Order, orderById s id = some o → o.status ≠ "completed" →
      pairRows s.balances o.from_cabinet o.to_cabinet = [] →
      (payOrder s id receipts).1 = ⟨200, .success⟩ ∧
      orderById (payOrder s id receipts).2 id
        = some { o with status := "completed", receipts := receipts } ∧
      (payOrder s id receipts).2.balances = s.balances) ∧
    (∀ w : Withdrawal, withdrawalById s id = some w → w.status ≠ "completed" →
      pairRows s.balances w.from_cabinet w.to_cabinet = [] →
      (confirmWithdrawal s id txid).1 = ⟨200, .success⟩ ∧
      withdrawalById (confirmWithdrawal s id txid).2 id
        = some { w with status := "completed", txid := txid } ∧
      (confirmWithdrawal s id txid).2.balances = s.balances) := by
  constructor
  · intro o ho hst hb
    have h2 := payOrder_open s id receipts o ho hst
    obtain ⟨h1, h3⟩ := payOrder_open_no_row s id receipts o ho hst (by rw [hb]; rfl)
    refine ⟨h1, ?_, h3⟩
    rw [orderById_map s id _ (fun x => by split <;> rfl) _ h2, ho]
    simp [orderById_id s id o ho]
  · intro w hw hst hb
    have h2 := confirmWithdrawal_open s id txid w hw hst
    obtain ⟨h1, h3⟩ := confirmWithdrawal_open_no_row s id txid w hw hst (by rw [hb]; rfl)
    refine ⟨h1, ?_, h3⟩
    rw [withdrawalById_map s id _ (fun x => by split <;> rfl) _ h2, hw]
    simp [withdrawalById_id s id w hw]

/-- Witness for C25: an order from X to Y and a withdrawal from Y to X in a
store whose only balance row joins P and Q. -/
theorem settle_without_row_witness :
    ((payOrder exNoRowStore 1 none).1 = ⟨200, .success⟩ ∧
      orderById (payOrder exNoRowStore 1 none).2 1 = some { exOrder with status := "completed" } ∧
      (payOrder exNoRowStore 1 none).2.balances = [⟨1, "P", "Q", 500⟩]) ∧
    ((confirmWithdrawal exNoRowStore 1 (some "t1")).1 = ⟨200, .success⟩ ∧
      withdrawalById (confirmWithdrawal exNoRowStore 1 (some "t1")).2 1
        = some { exWithdrawal with status := "completed", txid := some "t1" } ∧
      (confirmWithdrawal exNoRowStore 1 (some "t1")).2.balances = [⟨1, "P", "Q", 500⟩]) :=
  ⟨(settle_without_row exNoRowStore 1 none (some "t1")).1 exOrder
      (by decide) (by decide) (by decide),
    (settle_without_row exNoRowStore 1 none (some "t1")).2 exWithdrawal
      (by decide) (by decide) (by decide)⟩

/-! ## Repeated cancellation -/

theorem cancelTimes_state (s : Store) (id rid : Nat) (o : Order)
    (ho : orderById s id = some o) (hr : o.request_id = some rid) (h0 : rid ≠ 0) (n : Nat)
    (hfit : ∀ j : Nat, 1 ≤ j → j ≤ n → ∀ r ∈ s.order_requests, r.id = rid →
      fitsDecimal (r.remaining_amount + j * o.amount_usdt) = true)
    (k : Nat) (hk : k ≤ n) :
    (∃ o1, orderById (cancelTimes s id k) id = some o1 ∧ o1.request_id = some rid ∧
      o1.amount_usdt = o.amount_usdt ∧
      (k < n → ∀ r ∈ (cancelTimes s id k).order_requests, r.id = rid →
        fitsDecimal (r.remaining_amount + o1.amount_usdt) = true)) ∧
    (cancelTimes s id k).order_requests = s.order_requests.map (fun r =>
      if r.id == rid then { r with remaining_amount := r.remaining_amount + k * o.amount_usdt }
      else r) := by
  have hstep : ∀ (j : Nat) (s1 : Store) (o1 : Order), j < n →
      o1.amount_usdt = o.amount_usdt →
      s1.order_requests = s.order_requests.map (fun r =>
        if r.id == rid then
          { r with remaining_amount := r.remaining_amount + j * o.amount_usdt }
        else r) →
      ∀ r ∈ s1.order_requests, r.id = rid →
        fitsDecimal (r.remaining_amount + o1.amount_usdt) = true := by
    intro j s1 o1 hj ha1 hreq r hmem hid
    rw [hreq, List.mem_map] at hmem
    obtain ⟨r0, hr0, hr0eq⟩ := hmem
    subst hr0eq
    by_cases h : r0.id = rid
    · have := hfit (j + 1) (Nat.le_add_left 1 j) hj r0 hr0 h
      simp only [beq_iff_eq, h, if_true, ha1]
      have e : r0.remaining_amount + (j : Int) * o.amount_usdt + o.amount_usdt
          = r0.remaining_amount + ((j + 1 : Nat) : Int) * o.amount_usdt := by
        push_cast
        ring
      rw [e]
      exact this
    · simp [h] at hid
  induction k with
  | zero =>
    refine ⟨⟨o, ho, hr, rfl, fun hlt => hstep 0 s o hlt rfl ?_⟩, ?_⟩
    · conv_lhs => rw [← List.map_id s.order_requests]
      apply List.map_congr_left
      intro r _
      cases r
      simp only [id_eq]
      split <;> simp
    · show s.order_requests = _
      conv_lhs => rw [← List.map_id s.order_requests]
      apply List.map_congr_left
      intro r _
      cases r
      simp only [id_eq]
      split <;> simp
  | succ k ih =>
    obtain ⟨⟨o1, ho1, hr1, ha1, hf1⟩, hq1⟩ := ih (Nat.le_of_succ_le hk)
    obtain ⟨_, h2⟩ := cancelOrder_linked (cancelTimes s id k) id rid o1 ho1 hr1 h0
      (hf1 (Nat.lt_of_succ_le hk))
    have hreq : (cancelTimes s id (k + 1)).order_requests = s.order_requests.map (fun r =>
        if r.id == rid then
          { r with remaining_amount := r.remaining_amount + ((k + 1 : Nat) : Int) * o.amount_usdt }
        else r) := by
      show (cancelOrder (cancelTimes s id k) id).2.order_requests = _
      rw [h2, hq1, List.map_map]
      apply List.map_congr_left
      intro r _
      simp only [Function.comp]
      by_cases h : r.id = rid
      · simp only [beq_iff_eq, h, if_true, ha1]
        congr 1
        push_cast
        ring
      · simp [h]
    refine ⟨⟨{ o1 with status := "cancelled" }, cancelOrder_status _ id o1 ho1, hr1, ha1,
      fun hlt => hstep (k + 1) _ _ hlt ha1 hreq⟩, hreq⟩

/-- C26.  Cancel restores whatever the status: for an existing order linked
to an existing Order-Request (its `request_id` is non-zero), in any status,
cancel replies success, sets the status to cancelled and adds `amount_usdt`
to the remaining amount of the request; `k` cancels in a row all reply
success and raise the remaining amount by `k` times `amount_usdt`.  This holds
for `k` up to any `n` such that the remaining amount plus `j` times
`amount_usdt` is an amount the column `DECIMAL(10, 2)` takes for `j` from 1
to `n`. -/
theorem cancel_restores_every_time (s : Store) (id rid : Nat) (o : Order) (q : OrderRequest)
    (ho : orderById s id = some o) (hr : o.request_id = some rid) (h0 : rid ≠ 0)
    (hq : requestById s rid = some q) (n : Nat) (hn : 1 ≤ n)
    (hfit : ∀ j : Nat, 1 ≤ j → j ≤ n → ∀ r ∈ s.order_requests, r.id = rid →
      fitsDecimal (r.remaining_amount + j * o.amount_usdt) = true) :
    (cancelOrder s id).1 = ⟨200, .success⟩ ∧
    orderById (cancelOrder s id).2 id = some { o with status := "cancelled" } ∧
    requestById (cancelOrder s id).2 rid
      = some { q with remaining_amount := q.remaining_amount + o.amount_usdt } ∧
    (∀ k : Nat, k < n → (cancelOrder (cancelTimes s id k) id).1 = ⟨200, .success⟩) ∧
    ∀ k : Nat, k ≤ n → requestById (cancelTimes s id k) rid
      = some { q with remaining_amount := q.remaining_amount + k * o.amount_usdt } := by
  have hfit1 : ∀ r ∈ s.order_requests, r.id = rid →
      fitsDecimal (r.remaining_amount + o.amount_usdt) = true := by
    intro r hmem hid
    have := hfit 1 (le_refl 1) hn r hmem hid
    simpa using this
  obtain ⟨h1, h2⟩ := cancelOrder_linked s id rid o ho hr h0 hfit1
  refine ⟨h1, cancelOrder_status s id o ho, ?_, ?_, ?_⟩
  · rw [requestById_map s rid _ (fun x => by split <;> rfl) _ h2, hq]
    simp [requestById_id s rid q hq]
  · intro k hk
    obtain ⟨⟨o1, ho1, hr1, _, hf1⟩, _⟩ :=
      cancelTimes_state s id rid o ho hr h0 n hfit k (Nat.le_of_lt hk)
    exact (cancelOrder_linked (cancelTimes s id k) id rid o1 ho1 hr1 h0 (hf1 hk)).1
  · intro k hk
    obtain ⟨_, hreq⟩ := cancelTimes_state s id rid o ho hr h0 n hfit k hk
    rw [requestById_map s rid _ (fun x => by split <;> rfl) _ hreq, hq]
    simp [requestById_id s rid q hq]

/-- Witness for C26: request at 30.00 and an order of 20.00 against it; one
cancel gives 50.00, three cancels in a row give 90.00. -/
theorem cancel_restores_every_time_witness :
    (requestById exLinkedStore 1).map (fun r => r.remaining_amount) = some 3000 ∧
    (requestById (cancelOrder exLinkedStore 1).2 1).map (fun r => r.remaining_amount)
      = some 5000 ∧
    (requestById (cancelTimes exLinkedStore 1 3) 1).map (fun r => r.remaining_amount)
      = some 9000 :=
  have h := cancel_restores_every_time exLinkedStore 1 1 exLinkedOrder exRequest
    (by decide) (by decide) (by decide) (by decide) 3 (by decide) (by decide)
  ⟨by decide, congrArg (Option.map (fun r => r.remaining_amount)) h.2.2.1,
    congrArg (Option.map (fun r => r.remaining_amount)) (h.2.2.2.2 3 (le_refl 3))⟩

/-! ## Order creation, no floor -/

theorem createOrder_orders (s : Store) (newId now : Nat) (body : OrderBody)
    (hbody : body.fits = true) :
    (createOrder s newId now body).2.orders = s.orders ++ [newOrderRow newId now body] := by
  unfold createOrder
  rw [orderRow_fits newId now body hbody]
  simp only
  split
  · split_ifs <;> rfl
  · rfl

theorem createOrder_unlinked (s : Store) (newId now : Nat) (body : OrderBody)
    (hbody : body.fits = true) (hr : body.request_id = none) :
    createOrder s newId now body
      = (⟨200, .order (newOrderRow newId now body)⟩,
          { s with orders := s.orders ++ [newOrderRow newId now body] }) := by
  unfold createOrder
  rw [orderRow_fits newId now body hbody]
  simp only [hr]

/-- C27.  Order creation with a body whose values fit their columns appends
exactly one order, with status pending, and leaves the balances table as it
is.  When `request_id` is present (and non-zero, as every id of the sequence
is) the handler replies with the new row and the remaining amount of every
request with that id goes from `m` to `m - amount_usdt`, with no floor other
than the range of the column `DECIMAL(10, 2)`, which the hypothesis keeps
`m - amount_usdt` in; every other request is unchanged.  Without a
`request_id` the table of requests is unchanged. -/
theorem createOrder_effect (s : Store) (newId now : Nat) (body : OrderBody)
    (hbody : body.fits = true) :
    (createOrder s newId now body).2.orders = s.orders ++ [newOrderRow newId now body] ∧
    (newOrderRow newId now body).status = "pending" ∧
    (createOrder s newId now body).2.balances = s.balances ∧
    (∀ rid : Nat, body.request_id = some rid → rid ≠ 0 →
      (∀ r ∈ s.order_requests, r.id = rid →
        fitsDecimal (r.remaining_amount - body.amount_usdt) = true) →
      (createOrder s newId now body).1 = ⟨200, .order (newOrderRow newId now body)⟩ ∧
      (createOrder s newId now body).2.order_requests = s.order_requests.map (fun r =>
        if r.id = rid then { r with remaining_amount := r.remaining_amount - body.amount_usdt }
        else r)) ∧
    (body.request_id = none →
      (createOrder s newId now body).1 = ⟨200, .order (newOrderRow newId now body)⟩ ∧
      (createOrder s newId now body).2.order_requests = s.order_requests) := by
  refine ⟨createOrder_orders s newId now body hbody, rfl,
    createOrder_balances s newId now body, ?_, ?_⟩
  · intro rid hr h0 hfit
    obtain ⟨h1, _, h3, _⟩ := createOrder_linked s newId now body rid hr h0 hbody hfit
    refine ⟨h1, ?_⟩
    rw [h3]
    apply List.map_congr_left
    intro r _
    simp
  · intro hn
    rw [createOrder_unlinked s newId now body hbody hn]
    exact ⟨rfl, rfl⟩

/-- Witness for C27: an order of 70.00 against a request with 50.00 remaining
leaves -20.00. -/
theorem createOrder_effect_witness :
    (requestById exRequestStore 1).map (fun r => r.remaining_amount) = some 5000 ∧
    (createOrder exRequestStore 4 7 exLargeBody).2.orders = [newOrderRow 4 7 exLargeBody] ∧
    (createOrder exRequestStore 4 7 exLargeBody).2.order_requests
      = [{ id := 1, from_cabinet := "Y", to_cabinet := "X", amount := 5000, type := "UA",
           remaining_amount := -2000, created_at := 0 }] ∧
    (createOrder exStore 4 7 { exLargeBody with request_id := none }).2.order_requests = [] :=
  ⟨by decide, (createOrder_effect exRequestStore 4 7 exLargeBody (by decide)).1,
    ((createOrder_effect exRequestStore 4 7 exLargeBody (by decide)).2.2.2.1 1 rfl (by decide)
      (by decide)).2,
    ((createOrder_effect exStore 4 7 { exLargeBody with request_id := none }
      (by decide)).2.2.2.2 rfl).2⟩

/-! ## Hiding twice -/

theorem hideWithdrawal_hidden (s : Store) (newId id : Nat) (cabinet : String) :
    (hideWithdrawal s newId id cabinet).2.hidden_withdrawals.any
      (fun h => h.cabinet == cabinet && h.withdrawal_id == id) = true := by
  unfold hideWithdrawal
  split
  · assumption
  · simp

theorem hideOrder_any (s : Store) (newId id : Nat) (cabinet : String) :
    (hideOrder s newId id cabinet).2.hidden_orders.any
      (fun h => h.cabinet == cabinet && h.order_id == id) = true := by
  unfold hideOrder
  split
  · assumption
  · simp

/-- C28.  Hide is idempotent, for orders and for withdrawals: a second hide of
the same entity by the same cabinet replies success and returns the store of
the first hide as it is, whatever id the sequence offers; and when the store
held at most one marker for the pair before (the unique constraint), it holds
exactly one after. -/
theorem hide_idempotent (s : Store) (n1 n2 id : Nat) (cabinet : String) :
    hideOrder (hideOrder s n1 id cabinet).2 n2 id cabinet
      = (⟨200, .success⟩, (hideOrder s n1 id cabinet).2) ∧
    hideWithdrawal (hideWithdrawal s n1 id cabinet).2 n2 id cabinet
      = (⟨200, .success⟩, (hideWithdrawal s n1 id cabinet).2) ∧
    ((s.hidden_orders.filter (fun h => h.cabinet == cabinet && h.order_id == id)).length ≤ 1 →
      ((hideOrder s n1 id cabinet).2.hidden_orders.filter
        (fun h => h.cabinet == cabinet && h.order_id == id)).length = 1) ∧
    ((s.hidden_withdrawals.filter
        (fun h => h.cabinet == cabinet && h.withdrawal_id == id)).length ≤ 1 →
      ((hideWithdrawal s n1 id cabinet).2.hidden_withdrawals.filter
        (fun h => h.cabinet == cabinet && h.withdrawal_id == id)).length = 1) := by
  refine ⟨?_, ?_, ?_, ?_⟩
  · have h := hideOrder_any s n1 id cabinet
    generalize (hideOrder s n1 id cabinet).2 = s1 at h
    unfold hideOrder
    rw [if_pos h]
  · have h := hideWithdrawal_hidden s n1 id cabinet
    generalize (hideWithdrawal s n1 id cabinet).2 = s1 at h
    unfold hideWithdrawal
    rw [if_pos h]
  · intro hle
    unfold hideOrder
    split
    · rename_i hany
      obtain ⟨x, hx, hp⟩ := List.any_eq_true.mp hany
      have hpos : 0 < (s.hidden_orders.filter
          (fun h => h.cabinet == cabinet && h.order_id == id)).length :=
        List.length_pos_of_mem (List.mem_filter.mpr ⟨hx, hp⟩)
      exact Nat.le_antisymm hle hpos
    · rename_i hany
      have hnil : s.hidden_orders.filter
          (fun h => h.cabinet == cabinet && h.order_id == id) = [] := by
        rw [List.filter_eq_nil_iff]
        intro x hx hp
        exact hany (List.any_eq_true.mpr ⟨x, hx, hp⟩)
      simp [List.filter_append, hnil]
  · intro hle
    unfold hideWithdrawal
    split
    · rename_i hany
      obtain ⟨x, hx, hp⟩ := List.any_eq_true.mp hany
      have hpos : 0 < (s.hidden_withdrawals.filter
          (fun h => h.cabinet == cabinet && h.withdrawal_id == id)).length :=
        List.length_pos_of_mem (List.mem_filter.mpr ⟨hx, hp⟩)
      exact Nat.le_antisymm hle hpos
    · rename_i hany
      have hnil : s.hidden_withdrawals.filter
          (fun h => h.cabinet == cabinet && h.withdrawal_id == id) = [] := by
        rw [List.filter_eq_nil_iff]
        intro x hx hp
        exact hany (List.any_eq_true.mpr ⟨x, hx, hp⟩)
      simp [List.filter_append, hnil]

/-- Witness for C28: X hides order 1 and withdrawal 1 of `exNoRowStore` twice. -/
theorem hide_idempotent_witness :
    (hideOrder (hideOrder exNoRowStore 1 1 "X").2 2 1 "X").2.hidden_orders = [⟨1, "X", 1⟩] ∧
    (hideWithdrawal (hideWithdrawal exNoRowStore 1 1 "X").2 2 1 "X").2.hidden_withdrawals
      = [⟨1, "X", 1⟩] ∧
    ((hideOrder exNoRowStore 1 1 "X").2.hidden_orders.filter
      (fun h => h.cabinet == "X" && h.order_id == 1)).length = 1 ∧
    ((hideWithdrawal exNoRowStore 1 1 "X").2.hidden_withdrawals.filter
      (fun h => h.cabinet == "X" && h.withdrawal_id == 1)).length = 1 :=
  have h := hide_idempotent exNoRowStore 1 2 1 "X"
  ⟨by rw [h.1]; decide, by rw [h.2.1]; decide, h.2.2.1 (by decide), h.2.2.2 (by decide)⟩

/-! ## Settlement seen through the balances endpoint -/

theorem payOrder_pairRows (s : Store) (id : Nat) (receipts : Option (List String)) (o : Order)
    (b : Balance) (ho : orderById s id = some o) (hst : o.status ≠ "completed")
    (hb : pairRows s.balances o.from_cabinet o.to_cabinet = [b])
    (hfit : fitsDecimal (settledAmount b o.from_cabinet o.amount_usdt) = true) :
    pairRows (payOrder s id receipts).2.balances o.from_cabinet o.to_cabinet
      = [{ b with amount := settledAmount b o.from_cabinet o.amount_usdt }] := by
  have hh : (pairRows s.balances o.from_cabinet o.to_cabinet).head? = some b := by rw [hb]; rfl
  rw [(payOrder_open_balances s id receipts o b ho hst hh hfit).2,
    pairRows_map _ _ _ _ (fun r => by split <;> rfl) (fun r => by split <;> rfl), hb]
  simp

theorem confirmWithdrawal_pairRows (s : Store) (id : Nat) (txid : Option String)
    (w : Withdrawal) (b : Balance) (hw : withdrawalById s id = some w)
    (hst : w.status ≠ "completed")
    (hb : pairRows s.balances w.from_cabinet w.to_cabinet = [b])
    (hfit : fitsDecimal (settledAmount b w.from_cabinet w.amount) = true) :
    pairRows (confirmWithdrawal s id txid).2.balances w.from_cabinet w.to_cabinet
      = [{ b with amount := settledAmount b w.from_cabinet w.amount }] := by
  have hh : (pairRows s.balances w.from_cabinet w.to_cabinet).head? = some b := by rw [hb]; rfl
  rw [(confirmWithdrawal_open_balances s id txid w b hw hst hh hfit).2,
    pairRows_map _ _ _ _ (fun r => by split <;> rfl) (fun r => by split <;> rfl), hb]
  simp

/-- C30.  With exactly one balance row `r` for the pair of two distinct
cabinets `a` and `b`, stored as (a, b) or as (b, a), neither cabinet named
`__proto__` (the one key an assignment of a number does not create on the
reply object), settling an order from `a` to `b` of amount `x` that is not
completed, when the new amount of the row is one the column `DECIMAL(10, 2)`
takes, replies success, lowers what `GET /api/balances/a` reports for `b` by
`x` and raises what `GET /api/balances/b` reports for `a` by `x`. -/
theorem payOrder_reported (s : Store) (id : Nat) (receipts : Option (List String)) (o : Order)
    (r : Balance) (a b : String) (hab : a ≠ b) (ha : a ≠ "__proto__") (hb : b ≠ "__proto__")
    (ho : orderById s id = some o)
    (hst : o.status ≠ "completed") (hf : o.from_cabinet = a) (ht : o.to_cabinet = b)
    (hone : pairRows s.balances a b = [r])
    (hfit : fitsDecimal (if r.cabinet_from = a then r.amount - o.amount_usdt
                         else r.amount + o.amount_usdt) = true) :
    (payOrder s id receipts).1 = ⟨200, .success⟩ ∧
    ∃ v : Int, reported s a b = some v ∧ reported s b a = some (-v) ∧
      reported (payOrder s id receipts).2 a b = some (v - o.amount_usdt) ∧
      reported (payOrder s id receipts).2 b a = some (-v + o.amount_usdt) := by
  have hba : b ≠ a := fun h => hab h.symm
  have hone2 : pairRows s.balances o.from_cabinet o.to_cabinet = [r] := by rw [hf, ht]; exact hone
  have hfit2 : fitsDecimal (settledAmount r o.from_cabinet o.amount_usdt) = true := by
    rw [hf]; exact hfit
  refine ⟨(payOrder_open_balances s id receipts o r ho hst (by rw [hone2]; rfl) hfit2).1, ?_⟩
  have hafter := payOrder_pairRows s id receipts o r ho hst hone2 hfit2
  unfold settledAmount at hafter
  rw [hf, ht] at hafter
  have hmem : r ∈ pairRows s.balances a b := by rw [hone]; exact List.mem_singleton.mpr rfl
  unfold pairRows at hmem
  have hp := (List.mem_filter.mp hmem).2
  simp only [Bool.or_eq_true, Bool.and_eq_true, beq_iff_eq] at hp
  refine ⟨if r.cabinet_from = a then r.amount else -r.amount,
    reported_one_row s a b r hab hb hone, ?_, ?_, ?_⟩
  · rw [reported_one_row s b a r hba ha (by rw [pairRows_comm]; exact hone)]
    rcases hp with ⟨h1, _⟩ | ⟨h1, _⟩
    · simp [h1, hab]
    · simp [h1, hba]
  · rw [reported_one_row _ a b _ hab hb hafter]
    rcases hp with ⟨h1, _⟩ | ⟨h1, _⟩
    · simp [h1]
    · simp only [h1, hba, if_false]
      ring_nf
  · rw [reported_one_row _ b a _ hba ha (by rw [pairRows_comm]; exact hafter)]
    rcases hp with ⟨h1, _⟩ | ⟨h1, _⟩
    · simp only [h1, hab, if_false, if_true]
      ring_nf
    · simp [h1, hba]

/-- Witness for C30: an order X to Y of 30.00 on the row (X, Y, 100.00), and
an order Y to X of 10.00 on the row (X, Y, 70.00). -/
theorem payOrder_reported_witness :
    (reported exStore "X" "Y" = some 10000 ∧
      reported (payOrder exStore 1 none).2 "X" "Y" = some 7000 ∧
      reported (payOrder exStore 1 none).2 "Y" "X" = some (-7000)) ∧
    (reported exReverseStore "Y" "X" = some (-7000) ∧
      reported (payOrder exReverseStore 1 none).2 "Y" "X" = some (-8000) ∧
      reported (payOrder exReverseStore 1 none).2 "X" "Y" = some 8000) ∧
    (∃ v : Int, reported exStore "X" "Y" = some v ∧ reported exStore "Y" "X" = some (-v) ∧
      reported (payOrder exStore 1 none).2 "X" "Y" = some (v - exOrder.amount_usdt) ∧
      reported (payOrder exStore 1 none).2 "Y" "X" = some (-v + exOrder.amount_usdt)) :=
  ⟨by decide, by decide,
    (payOrder_reported exStore 1 none exOrder ⟨1, "X", "Y", 10000⟩ "X" "Y" (by decide)
      (by decide) (by decide) (by decide) (by decide) rfl rfl (by decide) (by decide)).2⟩

/-! ## Session login -/

theorem activeKey_none (s : Store) (key : String)
    (h : ∀ k ∈ s.access_keys, k.access_key = key → k.is_active = false) :
    activeKey s key = none := by
  unfold activeKey
  have hnil : s.access_keys.filter (fun k => k.access_key == key && k.is_active) = [] := by
    rw [List.filter_eq_nil_iff]
    intro k hk hp
    simp only [Bool.and_eq_true, beq_iff_eq] at hp
    rw [h k hk hp.1] at hp
    exact absurd hp.2 (by decide)
  rw [hnil]
  rfl

theorem varchar_invalid_key : varchar 20 "invalid_key" = some "invalid_key" := by
  decide

theorem varchar_success : varchar 20 "success" = some "success" := by
  decide

theorem varchar_rejected : varchar 20 "rejected_session_exists" = none := by
  decide

theorem loginSession_miss (s : Store) (logId rowId now : Nat) (sessionId : String)
    (req : ClientRequest) (key : String) (h : activeKey s key = none) :
    loginSession s logId rowId now sessionId req key
      = (⟨200, .failure "Невірний ключ доступу"⟩,
          { s with login_logs := s.login_logs ++
            [loginLogRow logId now req "unknown" "invalid_key"] }) := by
  unfold activeKey at h
  unfold loginSession
  simp only
  rw [h]
  simp only [varchar_invalid_key]
  rfl

/-- C21.  A login with a key that is in `access_keys` but inactive and a
login with a key that is not in the table give the same result, in both
login handlers: the same failure reply, and in `session_code.js` the same
appended log row, cabinet `unknown`, status `invalid_key`, with the address
and user agent of the request. -/
theorem login_hides_key (s : Store) (logId rowId now : Nat) (sessionId : String)
    (req : ClientRequest) (k1 k2 : String)
    (_hpresent : ∃ k ∈ s.access_keys, k.access_key = k1)
    (hinactive : ∀ k ∈ s.access_keys, k.access_key = k1 → k.is_active = false)
    (habsent : ∀ k ∈ s.access_keys, k.access_key ≠ k2) :
    login s now k1 = login s now k2 ∧
    login s now k2 = (⟨200, .failure "Невірний ключ доступу"⟩, s) ∧
    loginSession s logId rowId now sessionId req k1
      = loginSession s logId rowId now sessionId req k2 ∧
    loginSession s logId rowId now sessionId req k2
      = (⟨200, .failure "Невірний ключ доступу"⟩,
          { s with login_logs := s.login_logs ++
            [{ id := logId, cabinet := "unknown", ip_address := some (getClientIP req),
               user_agent := some (userAgentOf req), status := some "invalid_key",
               created_at := now }] }) := by
  have h1 := activeKey_none s k1 hinactive
  have h2 := activeKey_none s k2 (fun k hk hkey => absurd hkey (habsent k hk))
  refine ⟨?_, login_miss s now k2 h2, ?_, loginSession_miss s logId rowId now sessionId req k2 h2⟩
  · rw [login_miss s now k1 h1, login_miss s now k2 h2]
  · rw [loginSession_miss s logId rowId now sessionId req k1 h1,
      loginSession_miss s logId rowId now sessionId req k2 h2]

/-- Witness for C21: the deactivated key of W and a key no row has. -/
theorem login_hides_key_witness :
    login exKeyStore 9 "wKey" = login exKeyStore 9 "nope" ∧
    loginSession exKeyStore 1 1 9 "ab" exClient "wKey"
      = loginSession exKeyStore 1 1 9 "ab" exClient "nope" ∧
    (loginSession exKeyStore 1 1 9 "ab" exClient "nope").2.login_logs
      = [{ id := 1, cabinet := "unknown", ip_address := some "10.0.0.1",
           user_agent := some "ua", status := some "invalid_key", created_at := 9 }] :=
  have h := login_hides_key exKeyStore 1 1 9 "ab" exClient "wKey" "nope"
    ⟨exOffKey, by decide, rfl⟩ (by decide) (by decide)
  ⟨h.1, h.2.2.1, by rw [h.2.2.2]; decide⟩

theorem activeKey_map (s s1 : Store) (key : String) (f : AccessKey → AccessKey)
    (hk : ∀ k, (f k).access_key = k.access_key) (ha : ∀ k, (f k).is_active = k.is_active)
    (h1 : s1.access_keys = s.access_keys.map f) :
    activeKey s1 key = (activeKey s key).map f := by
  unfold activeKey
  rw [h1, List.filter_map, List.head?_map]
  have : ((fun k : AccessKey => k.access_key == key && k.is_active) ∘ f)
      = (fun k : AccessKey => k.access_key == key && k.is_active) := by
    funext k
    simp [hk k, ha k]
  rw [this]

theorem loginSession_busy (s : Store) (logId rowId now : Nat) (sessionId : String)
    (req : ClientRequest) (key : String) (keyData : AccessKey)
    (hkey : activeKey s key = some keyData)
    (hbusy : s.sessions.filter (fun x => x.cabinet == keyData.cabinet) ≠ []) :
    loginSession s logId rowId now sessionId req key
      = (⟨500, .error "Помилка сервера"⟩, s) := by
  unfold activeKey at hkey
  unfold loginSession
  simp only
  rw [hkey]
  simp only
  rw [if_pos (List.length_pos.mpr hbusy)]
  simp only [varchar_rejected]

theorem loginSession_free (s : Store) (logId rowId now : Nat) (sessionId : String)
    (req : ClientRequest) (key : String) (keyData : AccessKey)
    (hkey : activeKey s key = some keyData)
    (hfree : s.sessions.filter (fun x => x.cabinet == keyData.cabinet) = [])
    (hfresh : ∀ x ∈ s.sessions, x.session_id ≠ sessionId) :
    ∃ ipChanged : Bool,
      loginSession s logId rowId now sessionId req key
        = (⟨200, .session keyData.cabinet sessionId ipChanged⟩,
            { s with
              sessions := s.sessions ++ [sessionRow rowId now sessionId req keyData.cabinet],
              login_logs := s.login_logs ++
                [loginLogRow logId now req keyData.cabinet "success"],
              access_keys := s.access_keys.map (fun k =>
                if k.id == keyData.id then { k with last_used := some now } else k) }) := by
  have hany : s.sessions.any (fun x => x.session_id == sessionId) = false := by
    rw [Bool.eq_false_iff]
    intro h
    obtain ⟨x, hx, hp⟩ := List.any_eq_true.mp h
    exact hfresh x hx (by simpa using hp)
  unfold activeKey at hkey
  unfold loginSession
  simp only
  rw [hkey]
  simp only
  rw [hfree, hany]
  simp only [varchar_success]
  exact ⟨_, rfl⟩

/-- C22, evaluated.  On a store where cabinet Z has no session and `zKey` is
its active key, the first session login succeeds and creates the session S1.
The second login before logout finds the session and tries to log the status
`rejected_session_exists`, 23 characters, into `login_logs.status
VARCHAR(20)`: the `INSERT` throws, the reply is 500 with the error of the
`catch` arm, not the refusal with `success: false`, and no log row is
appended; the table of sessions is unchanged.  The status the handler writes
does not fit the column `migrate.js` declares for it. -/
theorem second_login_replies_500 :
    activeKey exKeyStore "zKey" = some exKey ∧
    exKeyStore.sessions.filter (fun x => x.cabinet == "Z") = [] ∧
    (loginSession exKeyStore 1 1 9 "s1" exClient "zKey").1
      = ⟨200, .session "Z" "s1" false⟩ ∧
    (loginSession exKeyStore 1 1 9 "s1" exClient "zKey").2.sessions
      = [sessionRow 1 9 "s1" exClient "Z"] ∧
    varchar 20 "rejected_session_exists" = none ∧
    loginSession (loginSession exKeyStore 1 1 9 "s1" exClient "zKey").2
        2 2 10 "s2" exClient "zKey"
      = (⟨500, .error "Помилка сервера"⟩,
          (loginSession exKeyStore 1 1 9 "s1" exClient "zKey").2) ∧
    (loginSession (loginSession exKeyStore 1 1 9 "s1" exClient "zKey").2
        2 2 10 "s2" exClient "zKey").2.login_logs
      = [loginLogRow 1 9 exClient "Z" "success"] ∧
    (loginSession
        (logout (loginSession (loginSession exKeyStore 1 1 9 "s1" exClient "zKey").2
          2 2 10 "s2" exClient "zKey").2 "s1").2 3 3 11 "s3" exClient "zKey").1
      = ⟨200, .session "Z" "s3" false⟩ := by
  decide

/-! ## One session per cabinet -/

theorem oneSession_of_eq (s s1 : Store) (h : OneSessionPerCabinet s)
    (heq : s1.sessions = s.sessions) : OneSessionPerCabinet s1 := by
  intro c
  rw [heq]
  exact h c

theorem oneSession_of_filter (s s1 : Store) (p : Session → Bool) (h : OneSessionPerCabinet s)
    (heq : s1.sessions = s.sessions.filter p) : OneSessionPerCabinet s1 := by
  intro c
  rw [heq]
  exact le_trans (List.Sublist.length_le (List.Sublist.filter _ (List.filter_sublist _))) (h c)

theorem oneSession_of_map (s s1 : Store) (f : Session → Session)
    (hf : ∀ x, (f x).cabinet = x.cabinet) (h : OneSessionPerCabinet s)
    (heq : s1.sessions = s.sessions.map f) : OneSessionPerCabinet s1 := by
  intro c
  rw [heq, List.filter_map, List.length_map]
  have : ((fun x : Session => x.cabinet == c) ∘ f) = (fun x : Session => x.cabinet == c) := by
    funext x
    simp [hf x]
  rw [this]
  exact h c

theorem oneSession_of_append (s s1 : Store) (row : Session) (h : OneSessionPerCabinet s)
    (hfree : s.sessions.filter (fun x => x.cabinet == row.cabinet) = [])
    (heq : s1.sessions = s.sessions ++ [row]) : OneSessionPerCabinet s1 := by
  intro c
  rw [heq, List.filter_append, List.length_append]
  by_cases hc : row.cabinet = c
  · subst hc
    rw [hfree]
    simp
  · have := h c
    simp [hc]
    exact this

theorem loginSession_oneSession (s : Store) (logId rowId now : Nat) (sessionId : String)
    (req : ClientRequest) (key : String) (h : OneSessionPerCabinet s) :
    OneSessionPerCabinet (loginSession s logId rowId now sessionId req key).2 := by
  unfold loginSession
  simp only
  split
  · rename_i keyData _
    split
    · split
      · exact oneSession_of_eq s _ h rfl
      · exact h
    · rename_i hlen
      have hfree : s.sessions.filter (fun x => x.cabinet == keyData.cabinet) = [] :=
        List.length_eq_zero.mp (Nat.eq_zero_of_not_pos hlen)
      split
      · exact h
      · split
        · exact oneSession_of_append s _ _ h hfree rfl
        · exact oneSession_of_append s _ _ h hfree rfl
  · split
    · exact oneSession_of_eq s _ h rfl
    · exact h

theorem handle_sessions (env : Env) (s : Store) (req : Request)
    (hreq : ∀ r k, req ≠ .loginSession r k) (hlogout : ∀ x, req ≠ .logout x)
    (hbeat : ∀ x, req ≠ .heartbeat x) (hforce : ∀ c, req ≠ .forceLogout c)
    (hsweep : req ≠ .sweepSessions) : (handle env s req).2.sessions = s.sessions := by
  cases req with
  | loginSession r k => exact absurd rfl (hreq r k)
  | logout x => exact absurd rfl (hlogout x)
  | heartbeat x => exact absurd rfl (hbeat x)
  | forceLogout c => exact absurd rfl (hforce c)
  | sweepSessions => exact absurd rfl hsweep
  | payOrder id receipts =>
    show (payOrder s id receipts).2.sessions = s.sessions
    unfold payOrder
    split
    · rfl
    · split
      · rfl
      · simp only
        split
        · split_ifs <;> rfl
        · rfl
  | confirmWithdrawal id txid =>
    show (confirmWithdrawal s id txid).2.sessions = s.sessions
    unfold confirmWithdrawal
    split
    · rfl
    · split
      · rfl
      · simp only
        split
        · split_ifs <;> rfl
        · rfl
  | updateBalance id amount admin_name comment =>
    show (updateBalance s env.newId env.now id amount admin_name comment).2.sessions = _
    unfold updateBalance
    split
    · rfl
    · split
      · rfl
      · split
        · rfl
        · split
          · rfl
          · split
            · rfl
            · split
              · split <;> rfl
              · rfl
  | createOrder body =>
    show (createOrder s env.newId env.now body).2.sessions = s.sessions
    unfold createOrder
    split
    · rfl
    · simp only
      split
      · split_ifs <;> rfl
      · rfl
  | cancelOrder id =>
    show (cancelOrder s id).2.sessions = s.sessions
    unfold cancelOrder
    simp only
    split
    · rfl
    · split
      · split_ifs <;> rfl
      · rfl
  | telegramLogin authData =>
    show (telegramLogin env.crypto s env.newId env.now authData).2.sessions = s.sessions
    unfold telegramLogin
    split
    · rfl
    · split
      · rfl
      · split <;> rfl
  | hideOrder id cabinet =>
    show (hideOrder s env.newId id cabinet).2.sessions = s.sessions
    unfold hideOrder; split <;> rfl
  | hideWithdrawal id cabinet =>
    show (hideWithdrawal s env.newId id cabinet).2.sessions = s.sessions
    unfold hideWithdrawal; split <;> rfl
  | login key =>
    show (login s env.now key).2.sessions = s.sessions
    unfold login; split <;> rfl
  | createKey access_key cabinet description =>
    show (createKey s env.newId env.now access_key cabinet description).2.sessions = _
    unfold createKey; split <;> rfl
  | bindCabinet telegram_id cabinet =>
    show (bindCabinet s env.now telegram_id cabinet).2.sessions = s.sessions
    unfold bindCabinet; split <;> rfl
  | convertReceipts _ => rfl
  | getHistory _ => rfl
  | getAdminHistory _ => rfl
  | getBalances _ => rfl
  | getAllBalances => rfl
  | getOrders _ => rfl
  | getOrderRequests => rfl
  | createOrderRequest from_cabinet to_cabinet amount type =>
    show (createOrderRequest s env.newId env.now from_cabinet to_cabinet amount type).2.sessions
      = s.sessions
    unfold createOrderRequest
    split
    · split <;> rfl
    · rfl
  | deleteOrderRequest _ => rfl
  | getWithdrawals _ => rfl
  | createWithdrawal from_cabinet to_cabinet amount address =>
    show (createWithdrawal s env.newId env.now from_cabinet to_cabinet amount address).2.sessions
      = s.sessions
    unfold createWithdrawal
    split
    · split <;> rfl
    · rfl
  | deleteWithdrawal _ => rfl
  | getKeys => rfl
  | deactivateKey _ => rfl
  | activateKey _ => rfl
  | deleteKey _ => rfl
  | getTelegramUsers => rfl

theorem handle_oneSession (env : Env) (s : Store) (req : Request)
    (h : OneSessionPerCabinet s) : OneSessionPerCabinet (handle env s req).2 := by
  by_cases h1 : ∃ r k, req = .loginSession r k
  · obtain ⟨r, k, rfl⟩ := h1
    exact loginSession_oneSession s _ _ _ _ r k h
  by_cases h2 : ∃ x, req = .logout x
  · obtain ⟨x, rfl⟩ := h2
    exact oneSession_of_filter s _ _ h rfl
  by_cases h3 : ∃ x, req = .heartbeat x
  · obtain ⟨x, rfl⟩ := h3
    refine oneSession_of_map s _ (fun y =>
      if y.session_id == x then { y with last_activity := env.now } else y)
      (fun y => by dsimp only; split <;> rfl) h ?_
    show (heartbeat s env.now x).2.sessions = _
    unfold heartbeat
    simp only
    split <;> rfl
  by_cases h4 : ∃ c, req = .forceLogout c
  · obtain ⟨c, rfl⟩ := h4
    exact oneSession_of_filter s _ _ h rfl
  by_cases h5 : req = .sweepSessions
  · subst h5
    exact oneSession_of_filter s _ _ h rfl
  · exact oneSession_of_eq s _ h (handle_sessions env s req
      (fun r k hr => h1 ⟨r, k, hr⟩) (fun x hr => h2 ⟨x, hr⟩) (fun x hr => h3 ⟨x, hr⟩)
      (fun c hr => h4 ⟨c, hr⟩) h5)

/-- C23.  At most one session row per cabinet is an invariant of the server
run one request at a time: from a store in which every cabinet has at most
one session, every sequence of requests, among them session login, logout,
heartbeat, force-logout and the sweep, each with its own clock, ids and
token, ends in a store in which every cabinet has at most one session. -/
theorem one_session_invariant (s : Store) (steps : List (Env × Request))
    (h : OneSessionPerCabinet s) : OneSessionPerCabinet (runRequests s steps) := by
  induction steps generalizing s with
  | nil => exact h
  | cons step rest ih => exact ih _ (handle_oneSession step.1 s step.2 h)

/-- Witness for C23: on a store without sessions, two logins to Z leave one
session for Z, and the whole run of `exSessionSteps` keeps the invariant. -/
theorem one_session_invariant_witness :
    (runRequests exKeyStore (exSessionSteps.take 2)).sessions.map (fun x => x.cabinet) = ["Z"] ∧
    (runRequests exKeyStore exSessionSteps).sessions = [] ∧
    OneSessionPerCabinet (runRequests exKeyStore (exSessionSteps.take 2)) ∧
    OneSessionPerCabinet (runRequests exKeyStore exSessionSteps) :=
  ⟨by decide, by decide,
    one_session_invariant exKeyStore (exSessionSteps.take 2) (fun _ => Nat.zero_le 1),
    one_session_invariant exKeyStore exSessionSteps (fun _ => Nat.zero_le 1)⟩

/-! ## The ledger as the fold of the settlements -/

theorem payOrder_withdrawals (s : Store) (id : Nat) (receipts : Option (List String)) :
    (payOrder s id receipts).2.withdrawals = s.withdrawals := by
  unfold payOrder
  split
  · rfl
  · split
    · rfl
    · simp only
      split
      · split_ifs <;> rfl
      · rfl

theorem confirmWithdrawal_orders (s : Store) (id : Nat) (txid : Option String) :
    (confirmWithdrawal s id txid).2.orders = s.orders := by
  unfold confirmWithdrawal
  split
  · rfl
  · split
    · rfl
    · simp only
      split
      · split_ifs <;> rfl
      · rfl

theorem orderById_other (s s1 : Store) (i j : Nat) (f : Order → Order) (hij : j ≠ i)
    (hid : ∀ o, (f o).id = o.id) (hf : ∀ o, o.id ≠ i → f o = o)
    (h1 : s1.orders = s.orders.map f) : orderById s1 j = orderById s j := by
  unfold orderById
  rw [h1, List.filter_map]
  have hp : ((fun o : Order => o.id == j) ∘ f) = (fun o : Order => o.id == j) := by
    funext o
    simp [hid o]
  rw [hp]
  have hmap : (s.orders.filter (fun o => o.id == j)).map f
      = s.orders.filter (fun o => o.id == j) := by
    conv_rhs => rw [← List.map_id (s.orders.filter (fun o => o.id == j))]
    apply List.map_congr_left
    intro o ho
    have : o.id = j := by simpa using (List.mem_filter.mp ho).2
    exact hf o (by rw [this]; exact hij)
  rw [hmap]

theorem withdrawalById_other (s s1 : Store) (i j : Nat) (f : Withdrawal → Withdrawal)
    (hij : j ≠ i) (hid : ∀ w, (f w).id = w.id) (hf : ∀ w, w.id ≠ i → f w = w)
    (h1 : s1.withdrawals = s.withdrawals.map f) :
    withdrawalById s1 j = withdrawalById s j := by
  unfold withdrawalById
  rw [h1, List.filter_map]
  have hp : ((fun w : Withdrawal => w.id == j) ∘ f) = (fun w : Withdrawal => w.id == j) := by
    funext w
    simp [hid w]
  rw [hp]
  have hmap : (s.withdrawals.filter (fun w => w.id == j)).map f
      = s.withdrawals.filter (fun w => w.id == j) := by
    conv_rhs => rw [← List.map_id (s.withdrawals.filter (fun w => w.id == j))]
    apply List.map_congr_left
    intro w hw
    have : w.id = j := by simpa using (List.mem_filter.mp hw).2
    exact hf w (by rw [this]; exact hij)
  rw [hmap]

theorem entity_settleOne (s : Store) (a b : String) (op op1 : Settlement)
    (hop : pendingBetween s a b op = true) (hne : op1.key ≠ op.key) :
    op1.entity (settleOne s op) = op1.entity s := by
  cases op with
  | order i receipts =>
    unfold pendingBetween Settlement.entity at hop
    cases ho : orderById s i with
    | none => simp [ho] at hop
    | some o =>
      have hst : o.status ≠ "completed" := by
        simp only [ho, Option.map_some', Bool.and_eq_true, beq_iff_eq] at hop
        rw [hop.1]
        decide
      have h2 := payOrder_open s i receipts o ho hst
      cases op1 with
      | order j r1 =>
        have hji : j ≠ i := fun h => hne (by simp [Settlement.key, h])
        simp only [Settlement.entity, settleOne]
        rw [orderById_other s _ i j _ hji (fun x => by split <;> rfl)
          (fun x hx => by simp [hx]) h2]
      | withdrawal j t1 =>
        simp only [Settlement.entity, settleOne]
        unfold withdrawalById
        rw [payOrder_withdrawals]
  | withdrawal i txid =>
    unfold pendingBetween Settlement.entity at hop
    cases hw : withdrawalById s i with
    | none => simp [hw] at hop
    | some w =>
      have hst : w.status ≠ "completed" := by
        simp only [hw, Option.map_some', Bool.and_eq_true, beq_iff_eq] at hop
        rw [hop.1]
        decide
      have h2 := confirmWithdrawal_open s i txid w hw hst
      cases op1 with
      | order j r1 =>
        simp only [Settlement.entity, settleOne]
        unfold orderById
        rw [confirmWithdrawal_orders]
      | withdrawal j t1 =>
        have hji : j ≠ i := fun h => hne (by simp [Settlement.key, h])
        simp only [Settlement.entity, settleOne]
        rw [withdrawalById_other s _ i j _ hji (fun x => by split <;> rfl)
          (fun x hx => by simp [hx]) h2]

theorem pairRows_settleOne (s : Store) (a b : String) (op : Settlement) (row : Balance)
    (hab : a ≠ b) (hop : pendingBetween s a b op = true)
    (hrow : pairRows s.balances a b = [row]) (hfrom : row.cabinet_from = a)
    (hfit : fitsDecimal (row.amount - amountOut s a op + amountOut s b op) = true) :
    pairRows (settleOne s op).balances a b
      = [{ row with amount := row.amount - amountOut s a op + amountOut s b op }] := by
  have hba : b ≠ a := fun h => hab h.symm
  cases op with
  | order i receipts =>
    unfold pendingBetween at hop
    unfold amountOut at hfit ⊢
    simp only [Settlement.entity] at hop hfit ⊢
    cases ho : orderById s i with
    | none => simp [ho] at hop
    | some o =>
      simp only [ho, Option.map_some', Bool.and_eq_true, Bool.or_eq_true, beq_iff_eq]
        at hop hfit ⊢
      have hst : o.status ≠ "completed" := by rw [hop.1]; decide
      simp only [settleOne]
      rcases hop.2 with ⟨hf, ht⟩ | ⟨hf, ht⟩
      · have h := payOrder_pairRows s i receipts o row ho hst (by rw [hf, ht]; exact hrow)
          (by simpa [settledAmount, hfrom, hf, hab] using hfit)
        rw [hf, ht] at h
        rw [h]
        simp [settledAmount, hfrom, hf, hab]
      · have h := payOrder_pairRows s i receipts o row ho hst
          (by rw [hf, ht, pairRows_comm]; exact hrow)
          (by simpa [settledAmount, hfrom, hf, hab, hba] using hfit)
        rw [hf, ht, pairRows_comm] at h
        rw [h]
        simp [settledAmount, hfrom, hf, hab, hba]
  | withdrawal i txid =>
    unfold pendingBetween at hop
    unfold amountOut at hfit ⊢
    simp only [Settlement.entity] at hop hfit ⊢
    cases hw : withdrawalById s i with
    | none => simp [hw] at hop
    | some w =>
      simp only [hw, Option.map_some', Bool.and_eq_true, Bool.or_eq_true, beq_iff_eq]
        at hop hfit ⊢
      have hst : w.status ≠ "completed" := by rw [hop.1]; decide
      simp only [settleOne]
      rcases hop.2 with ⟨hf, ht⟩ | ⟨hf, ht⟩
      · have h := confirmWithdrawal_pairRows s i txid w row hw hst
          (by rw [hf, ht]; exact hrow)
          (by simpa [settledAmount, hfrom, hf, hab] using hfit)
        rw [hf, ht] at h
        rw [h]
        simp [settledAmount, hfrom, hf, hab]
      · have h := confirmWithdrawal_pairRows s i txid w row hw hst
          (by rw [hf, ht, pairRows_comm]; exact hrow)
          (by simpa [settledAmount, hfrom, hf, hab, hba] using hfit)
        rw [hf, ht, pairRows_comm] at h
        rw [h]
        simp [settledAmount, hfrom, hf, hab, hba]

theorem amountOut_bound (s : Store) (a b : String) (hab : a ≠ b) (op : Settlement)
    (x : Int) :
    (x - amountOut s a op + amountOut s b op).natAbs ≤ x.natAbs + amountAbsOf s op := by
  unfold amountOut amountAbsOf
  cases op.entity s with
  | none =>
    simp only
    omega
  | some e =>
    obtain ⟨f, t, amt, st⟩ := e
    simp only
    by_cases h1 : f = a
    · have h2 : ¬ f = b := fun h => hab (h1.symm.trans h)
      simp only [h1, h2, if_true, if_false]
      omega
    · by_cases h2 : f = b
      · simp only [h1, h2, if_true, if_false]
        omega
      · simp only [h1, h2, if_false]
        omega

theorem fitsDecimal_of_natAbs (x : Int) (h : x.natAbs < 10000000000) :
    fitsDecimal x = true := by
  unfold fitsDecimal
  simp only [Bool.and_eq_true, decide_eq_true_eq]
  omega

theorem pairRows_settleAll (a b : String) (hab : a ≠ b) (ops : List Settlement) (s : Store)
    (row : Balance) (hrow : pairRows s.balances a b = [row]) (hfrom : row.cabinet_from = a)
    (hdistinct : (ops.map Settlement.key).Nodup)
    (hvalid : ∀ op ∈ ops, pendingBetween s a b op = true)
    (hfit : row.amount.natAbs + amountAbs s ops < 10000000000) :
    pairRows (settleAll s ops).balances a b
      = [{ row with amount := row.amount - amountFrom s a ops + amountFrom s b ops }] := by
  induction ops generalizing s row with
  | nil => simp [settleAll, amountFrom, hrow]
  | cons op rest ih =>
    rw [List.map_cons, List.nodup_cons] at hdistinct
    have hop := hvalid op (List.mem_cons_self _ _)
    have hne : ∀ op1 ∈ rest, op1.key ≠ op.key := by
      intro op1 h1 hk
      exact hdistinct.1 (hk ▸ List.mem_map_of_mem _ h1)
    have hent : ∀ op1 ∈ rest, op1.entity (settleOne s op) = op1.entity s :=
      fun op1 h1 => entity_settleOne s a b op op1 hop (hne op1 h1)
    have hsum : ∀ c, amountFrom (settleOne s op) c rest = amountFrom s c rest := by
      intro c
      unfold amountFrom
      congr 1
      apply List.map_congr_left
      intro op1 h1
      unfold amountOut
      rw [hent op1 h1]
    have habs : amountAbs (settleOne s op) rest = amountAbs s rest := by
      unfold amountAbs
      congr 1
      apply List.map_congr_left
      intro op1 h1
      unfold amountAbsOf
      rw [hent op1 h1]
    have hvalid1 : ∀ op1 ∈ rest, pendingBetween (settleOne s op) a b op1 = true := by
      intro op1 h1
      have := hvalid op1 (List.mem_cons_of_mem _ h1)
      unfold pendingBetween at this ⊢
      rw [hent op1 h1]
      exact this
    have hbound := amountOut_bound s a b hab op row.amount
    have hfit0 : row.amount.natAbs + (amountAbsOf s op + amountAbs s rest) < 10000000000 := by
      simpa [amountAbs] using hfit
    have h1 := pairRows_settleOne s a b op row hab hop hrow hfrom
      (fitsDecimal_of_natAbs _ (by omega))
    have h2 := ih (settleOne s op) _ h1 hfrom hdistinct.2 hvalid1
      (by rw [habs]; show (row.amount - amountOut s a op + amountOut s b op).natAbs + _ < _
          omega)
    simp only [settleAll]
    rw [h2, hsum a, hsum b]
    simp only [amountFrom, List.map_cons, List.sum_cons]
    congr 2
    ring

/-- C29.  The ledger is the fold of the settlements.  From a store whose only
balance row for two distinct cabinets `a`, `b` is stored as (a, b) with amount
a0, after settling or confirming, once each and with no other request in
between, any list of distinct pending orders and withdrawals between `a` and
`b`, the row holds a0 minus the sum of the amounts going from `a` to `b` plus
the sum of the amounts going from `b` to `a`; and any other order of the same
settlements leaves the same row.  This holds when the absolute value of a0
plus the absolute values of the amounts stays below `10^8` (`10^10`
hundredths), so that in every order every amount written is one the column
`DECIMAL(10, 2)` takes. -/
theorem ledger_is_fold (s : Store) (a b : String) (row : Balance) (ops : List Settlement)
    (hab : a ≠ b) (hrow : pairRows s.balances a b = [row]) (hfrom : row.cabinet_from = a)
    (hdistinct : (ops.map Settlement.key).Nodup)
    (hvalid : ∀ op ∈ ops, pendingBetween s a b op = true)
    (hfit : row.amount.natAbs + amountAbs s ops < 10000000000) :
    pairRows (settleAll s ops).balances a b
      = [{ row with amount := row.amount - amountFrom s a ops + amountFrom s b ops }] ∧
    ∀ ops1 : List Settlement, ops1.Perm ops →
      pairRows (settleAll s ops1).balances a b = pairRows (settleAll s ops).balances a b := by
  have h := pairRows_settleAll a b hab ops s row hrow hfrom hdistinct hvalid hfit
  refine ⟨h, fun ops1 hperm => ?_⟩
  have habs : amountAbs s ops1 = amountAbs s ops := by
    unfold amountAbs
    exact (hperm.map _).sum_eq
  have h1 := pairRows_settleAll a b hab ops1 s row hrow hfrom
    ((hperm.map Settlement.key).nodup_iff.mpr hdistinct)
    (fun op hop => hvalid op (hperm.mem_iff.mp hop)) (by rw [habs]; exact hfit)
  rw [h, h1]
  have hs : ∀ c, amountFrom s c ops1 = amountFrom s c ops := by
    intro c
    unfold amountFrom
    exact (hperm.map _).sum_eq
  rw [hs a, hs b]

/-- Witness for C29: 100.00 minus 30.00 plus 10.00 plus 10.00 is 90.00, in
the given order and in the reverse order. -/
theorem ledger_is_fold_witness :
    amountFrom exLedgerStore "X" exSettlements = 3000 ∧
    amountFrom exLedgerStore "Y" exSettlements = 2000 ∧
    pairRows (settleAll exLedgerStore exSettlements).balances "X" "Y" = [⟨1, "X", "Y", 9000⟩] ∧
    pairRows (settleAll exLedgerStore exSettlements.reverse).balances "X" "Y"
      = pairRows (settleAll exLedgerStore exSettlements).balances "X" "Y" :=
  have h := ledger_is_fold exLedgerStore "X" "Y" ⟨1, "X", "Y", 10000⟩ exSettlements
    (by decide) (by decide) rfl (by decide) (by decide) (by decide)
  ⟨by decide, by decide, h.1, h.2 _ (List.reverse_perm _)⟩

/-! ## Telegram signature -/

theorem char_valid_nat (c : Char) :
    c.toNat < 0xd800 ∨ (0xdfff < c.toNat ∧ c.toNat < 0x110000) := c.valid

theorem char_eq_of_toNat (c d : Char) (h : c.toNat = d.toNat) : c = d :=
  Char.ext (UInt32.ext h)

theorem utf16_chars_injective (l1 l2 : List Char)
    (h : l1.flatMap (fun c : Char =>
        if c.toNat < 0x10000 then [c.toNat]
        else [0xD800 + (c.toNat - 0x10000) / 0x400, 0xDC00 + (c.toNat - 0x10000) % 0x400])
      = l2.flatMap (fun c : Char =>
        if c.toNat < 0x10000 then [c.toNat]
        else [0xD800 + (c.toNat - 0x10000) / 0x400, 0xDC00 + (c.toNat - 0x10000) % 0x400])) :
    l1 = l2 := by
  induction l1 generalizing l2 with
  | nil =>
    cases l2 with
    | nil => rfl
    | cons d l2 =>
      simp only [List.flatMap_nil, List.flatMap_cons] at h
      split at h <;> simp at h
  | cons c l1 ih =>
    cases l2 with
    | nil =>
      simp only [List.flatMap_nil, List.flatMap_cons] at h
      split at h <;> simp at h
    | cons d l2 =>
      simp only [List.flatMap_cons] at h
      have hc := char_valid_nat c
      have hd := char_valid_nat d
      by_cases h1 : c.toNat < 0x10000 <;> by_cases h2 : d.toNat < 0x10000
      · simp only [h1, h2, if_true, List.singleton_append, List.cons.injEq] at h
        rw [char_eq_of_toNat c d h.1, ih l2 h.2]
      · simp only [h1, h2, if_true, if_false, List.singleton_append, List.cons_append,
          List.nil_append, List.cons.injEq] at h
        omega
      · simp only [h1, h2, if_true, if_false, List.singleton_append, List.cons_append,
          List.nil_append, List.cons.injEq] at h
        omega
      · simp only [h1, h2, if_false, List.cons_append, List.nil_append, List.cons.injEq] at h
        have hcd : c.toNat = d.toNat := by omega
        rw [char_eq_of_toNat c d hcd, ih l2 h.2.2]

theorem utf16Units_injective (a b : String) (h : utf16Units a = utf16Units b) : a = b := by
  unfold utf16Units at h
  exact String.ext (utf16_chars_injective _ _ h)

theorem jsSortStrings_perm (l : List String) : (jsSortStrings l).Perm l := by
  unfold jsSortStrings
  exact List.perm_insertionSort _ l

theorem jsSortStrings_sorted (l : List String) :
    (jsSortStrings l).Pairwise (fun x y => ¬ utf16Units y < utf16Units x) := by
  unfold jsSortStrings
  haveI : IsTotal String (fun x y => ¬ utf16Units y < utf16Units x) :=
    ⟨fun x y => by
      rcases le_total (utf16Units x) (utf16Units y) with h | h
      · exact Or.inl (not_lt.mpr h)
      · exact Or.inr (not_lt.mpr h)⟩
  haveI : IsTrans String (fun x y => ¬ utf16Units y < utf16Units x) :=
    ⟨fun x y z h1 h2 => not_lt.mpr (le_trans (not_lt.mp h1) (not_lt.mp h2))⟩
  exact List.sorted_insertionSort _ l

theorem jsSortStrings_congr (l1 l2 : List String) (h : l1.Perm l2) :
    jsSortStrings l1 = jsSortStrings l2 := by
  haveI : IsAntisymm String (fun x y => ¬ utf16Units y < utf16Units x) :=
    ⟨fun x y h1 h2 =>
      utf16Units_injective x y (le_antisymm (not_lt.mp h1) (not_lt.mp h2))⟩
  exact List.eq_of_perm_of_sorted
    (((jsSortStrings_perm l1).trans h).trans (jsSortStrings_perm l2).symm)
    (jsSortStrings_sorted l1) (jsSortStrings_sorted l2)

theorem find?_eq_head?_filter {α : Type} (p : α → Bool) (l : List α) :
    l.find? p = (l.filter p).head? := by
  induction l with
  | nil => rfl
  | cons x rest ih =>
    by_cases hx : p x = true
    · rw [List.find?_cons_of_pos _ hx, List.filter_cons_of_pos hx]
      rfl
    · rw [List.find?_cons_of_neg _ hx, List.filter_cons_of_neg hx]
      exact ih

theorem field_of_perm (l1 l2 : List (String × JsValue)) (name : String) (h : l1.Perm l2)
    (hnd : (l2.map Prod.fst).Nodup) :
    l1.find? (fun f => f.1 == name) = l2.find? (fun f => f.1 == name) := by
  rw [find?_eq_head?_filter, find?_eq_head?_filter]
  have hperm := h.filter (fun f => f.1 == name)
  have hsub : ((l2.filter (fun f => f.1 == name)).map Prod.fst).Nodup :=
    List.Nodup.sublist (List.Sublist.map _ (List.filter_sublist l2)) hnd
  cases hf : l2.filter (fun f => f.1 == name) with
  | nil =>
    rw [hf] at hperm
    rw [hperm.eq_nil]
  | cons x rest =>
    cases rest with
    | nil =>
      rw [hf] at hperm
      rw [List.perm_singleton.mp hperm]
    | cons y rest =>
      exfalso
      have hx : x ∈ l2.filter (fun f => f.1 == name) := by rw [hf]; simp
      have hy : y ∈ l2.filter (fun f => f.1 == name) := by rw [hf]; simp
      have hx1 : x.1 = name := by simpa using (List.mem_filter.mp hx).2
      have hy1 : y.1 = name := by simpa using (List.mem_filter.mp hy).2
      rw [hf, List.map_cons, List.map_cons, List.nodup_cons] at hsub
      exact hsub.1 (by rw [hx1, ← hy1]; exact List.mem_cons_self _ _)

theorem dataCheckString_eq (authData : List (String × JsValue)) :
    dataCheckString authData = "\n".intercalate (jsSortStrings (dataCheckItems authData)) := rfl

/-- C24.  With SHA-256 and HMAC-SHA256 taken as fixed functions,
`verifyTelegramAuth` returns true exactly when field `hash` is the string
that is the hex HMAC, keyed with the SHA-256 of the bot token, of the items
joined by line feeds, where the items are one `key=value` for every field
other than `hash`, arranged in ascending order (of UTF-16 code units).  So
the result is the same for every order of the fields of the payload. -/
theorem verifyTelegramAuth_spec (cr : Crypto) (authData : List (String × JsValue)) :
    (verifyTelegramAuth cr authData = true ↔
      (authData.find? (fun f => f.1 == "hash")).map Prod.snd
        = some (JsValue.str (cr.hmacHex (cr.sha256 cr.botToken)
            ("\n".intercalate (jsSortStrings (dataCheckItems authData)))))) ∧
    (jsSortStrings (dataCheckItems authData)).Perm
      ((authData.filter (fun f => f.1 != "hash")).map (fun f => f.1 ++ "=" ++ f.2.text)) ∧
    (jsSortStrings (dataCheckItems authData)).Pairwise
      (fun x y => ¬ utf16Units y < utf16Units x) ∧
    (∀ other : List (String × JsValue), other.Perm authData →
      (authData.map Prod.fst).Nodup →
      verifyTelegramAuth cr other = verifyTelegramAuth cr authData) := by
  refine ⟨?_, jsSortStrings_perm _, jsSortStrings_sorted _, ?_⟩
  · unfold verifyTelegramAuth
    simp only [dataCheckString_eq, beq_iff_eq]
  · intro other hperm hnd
    unfold verifyTelegramAuth
    simp only [dataCheckString_eq]
    have hitems : jsSortStrings (dataCheckItems other) = jsSortStrings (dataCheckItems authData) :=
      jsSortStrings_congr _ _ ((hperm.filter _).map _)
    rw [field_of_perm other authData "hash" hperm hnd, hitems]

/-- Witness for C24: a payload signed under `exCrypto` is accepted in the
order given and in the reverse order, and rejected with another hash. -/
theorem verifyTelegramAuth_spec_witness :
    dataCheckString exAuthData = "auth_date=1\nid=5" ∧
    verifyTelegramAuth exCrypto exAuthData = true ∧
    verifyTelegramAuth exCrypto exAuthData.reverse = true ∧
    verifyTelegramAuth exCrypto [("id", .num 5), ("hash", .str "id=5\nauth_date=1")] = false ∧
    verifyTelegramAuth exCrypto exAuthData.reverse = verifyTelegramAuth exCrypto exAuthData :=
  ⟨by decide, by decide, by decide, by decide,
    (verifyTelegramAuth_spec exCrypto exAuthData).2.2.2 exAuthData.reverse
      (List.reverse_perm _) (by decide)⟩

/-! ## Values the columns and the reply object do not take -/

/-- On the row (Y, X, 99999999.99) the settlement of the order X to Y of 30.00
asks for 100000029.99: the `UPDATE` throws after the status was written, so
the reply is 500, the order is completed and the row keeps its amount. -/
theorem payOrder_overflow_example :
    payOrder exFullStore 1 none
      = (⟨500, .error "Помилка оплати ордеру"⟩,
          { exFullStore with orders := [{ exOrder with status := "completed" }] }) := by
  decide

/-- A request of 99999999.99 remaining and the cancel of its order of 20.00:
the `UPDATE` of the request throws after the status was written. -/
theorem cancelOrder_overflow_example :
    cancelOrder { exLinkedStore with
        order_requests := [{ exRequest with remaining_amount := 9999999999 }] } 1
      = (⟨500, .error "Помилка скасування ордеру"⟩,
          { exLinkedStore with
            orders := [{ exLinkedOrder with status := "cancelled" }],
            order_requests := [{ exRequest with remaining_amount := 9999999999 }] }) := by
  decide

/-- An order of 99999999.99 against a request with -0.01 remaining: the order
row is stored, the `UPDATE` of the request throws, the reply is 500. -/
theorem createOrder_overflow_example :
    createOrder { Store.empty with
        order_requests := [{ exRequest with remaining_amount := -1 }] } 1 7
        { exLinkedBody with amount_usdt := 9999999999 }
      = (⟨500, .error "Помилка створення ордеру"⟩,
          { Store.empty with
            orders := [newOrderRow 1 7 { exLinkedBody with amount_usdt := 9999999999 }],
            order_requests := [{ exRequest with remaining_amount := -1 }] }) := by
  decide

/-- An admin adjustment under a name of 51 characters: the amount is
overwritten, the `INSERT` of the log row throws, the reply is 500 and no log
row is stored.  An amount of 100000000.00 is refused before anything is
written. -/
theorem updateBalance_overflow_example :
    updateBalance exBalanceStore 7 9 1 500 (some exLongName) (some "fix")
      = (⟨500, .error "Помилка оновлення балансу"⟩,
          { exBalanceStore with balances := [⟨1, "X", "Y", 500⟩] }) ∧
    updateBalance exBalanceStore 7 9 1 10000000000 (some "root") (some "fix")
      = (⟨500, .error "Помилка оновлення балансу"⟩, exBalanceStore) := by
  decide

/-- The reply object takes no entry for the key `__proto__`, lists array
indices first and in ascending order, and keeps the place of a key that is
assigned again. -/
theorem objSet_example :
    objSet [("A", 0)] "__proto__" 6 = [("A", 0)] ∧
    objSet (objSet (objSet (objSet [] "b" 1) "10" 2) "9" 3) "b" 4
      = [("9", 3), ("10", 2), ("b", 4)] ∧
    objSet (objSet [] "b" 1) "01" 2 = [("b", 1), ("01", 2)] := by
  decide

/-- With the row (X, `__proto__`, 6.00) the reply to X has no entry for
`__proto__`, while the reply to `__proto__` reports -6.00 for X. -/
theorem reported_proto_example :
    reported exProtoStore "X" "__proto__" = none ∧
    reported exProtoStore "__proto__" "X" = some (-600) := by
  decide

end Exchange
